import Mathlib

/-!
# TransformationActorsComponent: a shallow embedding

The component `UTransformationActorsComponent`
(`Source/TransformationActorsPlugin/Private/TransformationActorsComponent.cpp`)
is embedded as pure functions on a record of its member variables.

* `float` is read as exact rational arithmetic (`ℚ`).
* Object pointers (`AActor*`, `APlayerController*`, `APawn*`, `USceneComponent*`)
  are `Option ℕ`; `none` is `nullptr`.
* A timer handle is a `Bool`: `true` when the timer is set in the timer manager.
* Everything the engine answers during one call (is `GetWorld()` null, which actor is
  under the cursor, where is the mouse, ...) is a field of `Env`; each call has its own
  `Env`, so an answer may differ from one call to the next.
* Engine routines whose code is not part of the plugin (`FMath::Sqrt`,
  `FMath::VInterpTo`, `FQuat(Axis, Angle)`, quaternion product, sweeps) and the
  class property "implements `UTransformationActorsInterface`" are fields of `Host`.
* Delegate broadcasts, interface calls and input-mode switches are returned as a
  list of `Event`s, in program order.
* A call that would dereference a null `TransformActor` returns `none`.
-/

namespace TransformationActors

/-- Modelled from the spec: the declaration of `ETransformState` with the rotation
sub-states.  The header under `Public/` declares `ETS_Location`, `ETS_Rotation`,
`ETS_Scale` and `ETS_Idle` only, while the `.cpp` file tests and switches on
`ETS_Rotation_YawPitch`, `ETS_Rotation_Roll`, `ETS_Rotation_Pitch` and
`ETS_Rotation_Yaw` and never names `ETS_Rotation`.  The spec lists the tag as Idle,
Location, Rotation with an axis among Roll, Pitch, Yaw and YawPitch, and Scale; the
enumerators below carry the names the `.cpp` file uses. -/
inductive ETransformState where
  | ETS_Location
  | ETS_Rotation_YawPitch
  | ETS_Rotation_Roll
  | ETS_Rotation_Pitch
  | ETS_Rotation_Yaw
  | ETS_Scale
  | ETS_Idle
  deriving DecidableEq, Repr

open ETransformState

/-- An `FVector` with exact components. -/
structure FVector where
  X : ℚ
  Y : ℚ
  Z : ℚ
  deriving DecidableEq

/-- An `FQuat` with exact components. -/
structure FQuat where
  X : ℚ
  Y : ℚ
  Z : ℚ
  W : ℚ
  deriving DecidableEq

namespace FVector

/-- The vector `FVector(F)`: all three components equal. -/
def splat (f : ℚ) : FVector := ⟨f, f, f⟩

/-- The sum `FVector + FVector`. -/
def add (a b : FVector) : FVector := ⟨a.X + b.X, a.Y + b.Y, a.Z + b.Z⟩

/-- The difference `FVector - FVector`. -/
def sub (a b : FVector) : FVector := ⟨a.X - b.X, a.Y - b.Y, a.Z - b.Z⟩

/-- The sum `FVector + float`: the bias is added to every component. -/
def addScalar (a : FVector) (f : ℚ) : FVector := ⟨a.X + f, a.Y + f, a.Z + f⟩

/-- The difference `FVector - float`: the bias is taken from every component. -/
def subScalar (a : FVector) (f : ℚ) : FVector := ⟨a.X - f, a.Y - f, a.Z - f⟩

/-- The product `FVector * float`. -/
def scale (a : FVector) (f : ℚ) : FVector := ⟨a.X * f, a.Y * f, a.Z * f⟩

/-- The negation `-FVector`. -/
def neg (a : FVector) : FVector := ⟨-a.X, -a.Y, -a.Z⟩

/-- The squared length of the difference of two points. -/
def DistSquared (a b : FVector) : ℚ :=
  (b.X - a.X) * (b.X - a.X) + (b.Y - a.Y) * (b.Y - a.Y) + (b.Z - a.Z) * (b.Z - a.Z)

/-- Every component is strictly above the bound. -/
def AllAbove (a : FVector) (m : ℚ) : Prop := m < a.X ∧ m < a.Y ∧ m < a.Z

instance (a : FVector) (m : ℚ) : Decidable (a.AllAbove m) := by
  unfold AllAbove; infer_instance

end FVector

/-- Input modes of the player controller. -/
inductive EInputMode where
  | GameAndUI
  | GameOnly
  | UIOnly
  deriving DecidableEq, Repr

/-- What the component does to the outside during a call, in program order. -/
inductive Event where
  | OnSwitchOnTransformationMode
  | OnSwitchOffTransformationMode
  | OnStartTransformationActor
  | OnStopTransformationActor
  | Execute_HighlightOn (Actor : ℕ)
  | Execute_HighlightOff (Actor : ℕ)
  | Execute_StartTransformation (Actor : ℕ)
  | Execute_StopTransformation (Actor : ℕ)
  | SetInputMode (Mode : EInputMode) (bShowMouseCursor : Bool)
  deriving DecidableEq, Repr

/-- The member variables of `UTransformationActorsComponent`.  The member read by
`GetComponentForTransformationAxis()` in the `.cpp` file is called
`ComponentForTransformationAxis` here (the header names it `ComponentForAxisRotation`). -/
structure Component where
  LocationTimerDeltaTime : ℚ
  RotationTimerDeltaTime : ℚ
  ScaleTimerDeltaTime : ℚ
  LocationSpeed : ℚ
  bSweep : Bool
  LocationDeepSpeed : ℚ
  ScaleSpeed : ℚ
  RotationSpeed : ℚ
  bIsShowDebugMessages : Bool
  LocationSpeedKeyboard : ℚ
  RotationSpeedKeyboard : ℚ
  ScaleSpeedKeyboard : ℚ
  MinScale : ℚ
  LocationTimer : Bool
  RotationTimer : Bool
  ScaleTimer : Bool
  bIsLockFirstIterationLocationTimer : Bool
  bIsLockFirstIterationRotationTimer : Bool
  bIsLockFirstIterationScaleTimer : Bool
  TransformState : ETransformState
  bIsTransform : Bool
  PlayerController : Option ℕ
  PlayerPawn : Option ℕ
  ComponentForTransformationAxis : Option ℕ
  TransformActor : Option ℕ
  PreviousTransformActor : Option ℕ
  RollSave : ℚ
  PitchSave : ℚ
  YawSave : ℚ
  DeltaRollDegree : ℚ
  DeltaPitchDegree : ℚ
  DeltaYawDegree : ℚ
  DistanceToCursorSave : ℚ
  LocationXAtClick : ℚ
  LocationYAtClick : ℚ
  Scale3DSave : FVector
  NewScale3D : FVector
  SumInputAxisValue : ℚ

/-- The constructor `UTransformationActorsComponent()`.  Members the constructor does
not assign keep the zero value the engine gives to fresh object memory. -/
def Constructor : Component where
  LocationTimerDeltaTime := 17 / 1000
  RotationTimerDeltaTime := 17 / 1000
  ScaleTimerDeltaTime := 17 / 1000
  LocationSpeed := 25
  bSweep := false
  LocationDeepSpeed := 25
  ScaleSpeed := 15 / 1000
  RotationSpeed := 1 / 2
  bIsShowDebugMessages := false
  LocationSpeedKeyboard := 25
  RotationSpeedKeyboard := 5
  ScaleSpeedKeyboard := 1 / 10
  MinScale := 1 / 100
  LocationTimer := false
  RotationTimer := false
  ScaleTimer := false
  bIsLockFirstIterationLocationTimer := false
  bIsLockFirstIterationRotationTimer := false
  bIsLockFirstIterationScaleTimer := false
  TransformState := ETS_Idle
  bIsTransform := false
  PlayerController := none
  PlayerPawn := none
  ComponentForTransformationAxis := none
  TransformActor := none
  PreviousTransformActor := none
  RollSave := 0
  PitchSave := 0
  YawSave := 0
  DeltaRollDegree := 0
  DeltaPitchDegree := 0
  DeltaYawDegree := 0
  DistanceToCursorSave := 0
  LocationXAtClick := 0
  LocationYAtClick := 0
  Scale3DSave := ⟨0, 0, 0⟩
  NewScale3D := ⟨0, 0, 0⟩
  SumInputAxisValue := 0

/-- Facts and routines of the engine that do not change between calls. -/
structure Host where
  /-- Whether the class of an actor implements `UTransformationActorsInterface`. -/
  ImplementsInterface : ℕ → Bool
  /-- The routine `FMath::Sqrt`. -/
  Sqrt : ℚ → ℚ
  /-- The routine `FMath::VInterpTo(Current, Target, DeltaTime, InterpSpeed)`. -/
  VInterpTo : FVector → FVector → ℚ → ℚ → FVector
  /-- The routine `FMath::DegreesToRadians`. -/
  DegreesToRadians : ℚ → ℚ
  /-- The constructor `FQuat(Axis, AngleRad)`. -/
  QuatAxisAngle : FVector → ℚ → FQuat
  /-- The quaternion product `A * B`. -/
  QuatMul : FQuat → FQuat → FQuat
  /-- Where a swept move from the first point towards the second ends. -/
  SweepLocation : FVector → FVector → FVector
  /-- The orientation a swept rotation of the first argument by the second ends in. -/
  SweepRotation : FQuat → FQuat → FQuat

/-- What the engine answers during one call of a component method. -/
structure Env where
  /-- Whether `GetWorld()` is not null. -/
  World : Bool
  /-- The result of `UGameplayStatics::GetPlayerController(World, 0)`. -/
  Controller0 : Option ℕ
  /-- The result of `GetPawnOrSpectator()` on that controller. -/
  PawnOrSpectator : Option ℕ
  /-- The result of `GetHitResultUnderCursor`: `none` when it returns false, otherwise
  the actor of the hit result (which may be null). -/
  HitResultUnderCursor : Option (Option ℕ)
  /-- The result of `GetMousePosition`: `none` when it returns false. -/
  MousePosition : Option (ℚ × ℚ)
  /-- The result of `DeprojectMousePositionToWorld`: world location and direction. -/
  DeprojectMousePositionToWorld : Option (FVector × FVector)
  /-- Forward, right and up vector of the component for the transformation axes. -/
  ComponentForwardVector : FVector
  ComponentRightVector : FVector
  ComponentUpVector : FVector
  /-- Forward, right and up vector of the player pawn. -/
  PawnForwardVector : FVector
  PawnRightVector : FVector
  PawnUpVector : FVector

/-- The transforms of the actors of the level. -/
structure Scene where
  ActorLocation : ℕ → FVector
  ActorRotation : ℕ → FQuat
  ActorScale3D : ℕ → FVector

namespace Scene

/-- The call `Actor->SetActorLocation(NewLocation, bSweep)`. -/
def SetActorLocation (h : Host) (sc : Scene) (a : ℕ) (NewLocation : FVector)
    (bSweep : Bool) : Scene :=
  let Ended : FVector :=
    if bSweep = true then h.SweepLocation (sc.ActorLocation a) NewLocation else NewLocation
  { sc with ActorLocation := Function.update sc.ActorLocation a Ended }

/-- The call `Actor->AddActorWorldRotation(DeltaRotation, bSweep)`. -/
def AddActorWorldRotation (h : Host) (sc : Scene) (a : ℕ) (DeltaRotation : FQuat)
    (bSweep : Bool) : Scene :=
  let Ended : FQuat :=
    if bSweep = true then h.SweepRotation (sc.ActorRotation a) DeltaRotation
    else h.QuatMul DeltaRotation (sc.ActorRotation a)
  { sc with ActorRotation := Function.update sc.ActorRotation a Ended }

/-- The call `Actor->SetActorScale3D(NewScale3D)`. -/
def SetActorScale3D (sc : Scene) (a : ℕ) (NewScale3D : FVector) : Scene :=
  { sc with ActorScale3D := Function.update sc.ActorScale3D a NewScale3D }

end Scene

/-! ## Basic methods -/

/-- The method `SetInputModeGameAndUI`. -/
def SetInputModeGameAndUI (c : Component) : List Event :=
  if c.PlayerController ≠ none then [Event.SetInputMode EInputMode.GameAndUI true] else []

/-- The method `SetInputModeGameOnly`. -/
def SetInputModeGameOnly (c : Component) : List Event :=
  if c.PlayerController ≠ none then [Event.SetInputMode EInputMode.GameOnly false] else []

/-- The method `SetInputModeUIOnly`. -/
def SetInputModeUIOnly (c : Component) : List Event :=
  if c.PlayerController ≠ none then [Event.SetInputMode EInputMode.UIOnly true] else []

/-- The method `FindActorUnderCursor`. -/
def FindActorUnderCursor (e : Env) (c : Component) : Option ℕ :=
  if c.PlayerController = none then none
  else
    match e.HitResultUnderCursor with
    | some HitActor => HitActor
    | none => none

/-- The method `HighlightOn_TransformationActorsInterface`. -/
def HighlightOn_TransformationActorsInterface (h : Host) (Actor : Option ℕ) : List Event :=
  match Actor with
  | none => []
  | some a => if h.ImplementsInterface a = true then [Event.Execute_HighlightOn a] else []

/-- The method `HighlightOff_TransformationActorsInterface`. -/
def HighlightOff_TransformationActorsInterface (h : Host) (Actor : Option ℕ) : List Event :=
  match Actor with
  | none => []
  | some a => if h.ImplementsInterface a = true then [Event.Execute_HighlightOff a] else []

/-- The method `StartTransformation_TransformationActorsInterface`. -/
def StartTransformation_TransformationActorsInterface (h : Host) (Actor : Option ℕ) :
    List Event :=
  match Actor with
  | none => []
  | some a =>
    if h.ImplementsInterface a = true then [Event.Execute_StartTransformation a] else []

/-- The method `StopTransformation_TransformationActorsInterface`. -/
def StopTransformation_TransformationActorsInterface (h : Host) (Actor : Option ℕ) :
    List Event :=
  match Actor with
  | none => []
  | some a =>
    if h.ImplementsInterface a = true then [Event.Execute_StopTransformation a] else []

/-- The method `CheckActorOnTransformationActorsInterface`. -/
def CheckActorOnTransformationActorsInterface (h : Host) (Actor : Option ℕ) : Bool :=
  match Actor with
  | none => false
  | some a => if h.ImplementsInterface a = true then true else false

/-- The method `StartLocationTimer`. -/
def StartLocationTimer (e : Env) (c : Component) : Component :=
  if e.World = true then { c with LocationTimer := true } else c

/-- The method `StartRotationTimer`. -/
def StartRotationTimer (e : Env) (_CurrentTransformState : ETransformState)
    (c : Component) : Component :=
  if e.World = false then c else { c with RotationTimer := true }

/-- The method `StartScaleTimer`. -/
def StartScaleTimer (e : Env) (c : Component) : Component :=
  if e.World = true then { c with ScaleTimer := true } else c

/-- The method `StopLocationTimer`. -/
def StopLocationTimer (e : Env) (c : Component) : Component :=
  if e.World = true then { c with LocationTimer := false } else c

/-- The method `StopRotationTimer`. -/
def StopRotationTimer (e : Env) (c : Component) : Component :=
  if e.World = true then { c with RotationTimer := false } else c

/-- The method `StopScaleTimer`. -/
def StopScaleTimer (e : Env) (c : Component) : Component :=
  if e.World = true then { c with ScaleTimer := false } else c

/-- The test the `.cpp` file writes out as a disjunction of the four rotation states. -/
def IsRotationState (s : ETransformState) : Prop :=
  s = ETS_Rotation_YawPitch ∨ s = ETS_Rotation_Roll ∨ s = ETS_Rotation_Pitch
    ∨ s = ETS_Rotation_Yaw

instance (s : ETransformState) : Decidable (IsRotationState s) := by
  unfold IsRotationState; infer_instance

/-- The method `StartTransformTimer`. -/
def StartTransformTimer (h : Host) (e : Env) (CurrentTransformState : ETransformState)
    (c : Component) : Component × List Event :=
  let r1 : Component × List Event :=
    if CurrentTransformState ≠ ETS_Idle then
      ({ c with bIsTransform := true },
        Event.OnStartTransformationActor ::
          StartTransformation_TransformationActorsInterface h c.TransformActor)
    else (c, [])
  let c2 : Component :=
    if CurrentTransformState = ETS_Location then
      StartLocationTimer e { r1.1 with bIsLockFirstIterationLocationTimer := false }
    else r1.1
  let c3 : Component :=
    if IsRotationState CurrentTransformState then
      StartRotationTimer e CurrentTransformState
        { c2 with bIsLockFirstIterationRotationTimer := false }
    else c2
  let c4 : Component :=
    if CurrentTransformState = ETS_Scale then
      StartScaleTimer e { c3 with bIsLockFirstIterationScaleTimer := false }
    else c3
  (c4, r1.2)

/-- The method `SelectNewTransformActor`. -/
def SelectNewTransformActor (h : Host) (NewTransformActor : Option ℕ) (c : Component) :
    Component × List Event :=
  ({ c with PreviousTransformActor := NewTransformActor, TransformActor := NewTransformActor },
    HighlightOff_TransformationActorsInterface h c.PreviousTransformActor ++
      HighlightOn_TransformationActorsInterface h NewTransformActor)

/-- The method `ResetTransform`. -/
def ResetTransform (h : Host) (c : Component) : Component × List Event :=
  ({ c with PreviousTransformActor := none, TransformActor := none,
            TransformState := ETS_Idle },
    HighlightOff_TransformationActorsInterface h c.TransformActor)

/-- The method `SpecifyControllerAndPawn`: the returned flag is `bAllValid`. -/
def SpecifyControllerAndPawn (e : Env) (c : Component) : Bool × Component :=
  if e.World = true then
    let c1 : Component := { c with PlayerController := e.Controller0 }
    if c1.PlayerController ≠ none then
      let c2 : Component := { c1 with PlayerPawn := e.PawnOrSpectator }
      if c2.PlayerPawn = none then (false, c2) else (true, c2)
    else (false, c1)
  else (false, c)

/-- The method `CheckControllerAndPawn`. -/
def CheckControllerAndPawn (c : Component) : Bool :=
  let bAllValid1 : Bool := if c.PlayerController = none then false else true
  if c.PlayerPawn = none then false else bAllValid1

/-! ## General methods -/

/-- The method `StartTransformationActor`. -/
def StartTransformationActor (h : Host) (e : Env) (c : Component) :
    Component × List Event :=
  if c.bIsTransform = true ∨ c.TransformState = ETS_Idle then (c, [])
  else
    let FoundActor : Option ℕ := FindActorUnderCursor e c
    if FoundActor = none then (c, [])
    else if CheckActorOnTransformationActorsInterface h FoundActor = false then (c, [])
    else
      let c1 : Component := { c with SumInputAxisValue := 0 }
      let r2 : Component × List Event :=
        if FoundActor = c1.PreviousTransformActor then
          StartTransformTimer h e c1.TransformState c1
        else (c1, [])
      let r3 : Component × List Event :=
        if FoundActor ≠ r2.1.PreviousTransformActor then
          SelectNewTransformActor h FoundActor r2.1
        else (r2.1, [])
      (r3.1, r2.2 ++ r3.2)

/-- The method `StopTransformationActor`. -/
def StopTransformationActor (h : Host) (e : Env) (c : Component) :
    Component × List Event :=
  let r1 : Component × List Event :=
    if c.TransformState ≠ ETS_Idle then
      ({ c with bIsTransform := false },
        Event.OnStopTransformationActor ::
          StopTransformation_TransformationActorsInterface h c.TransformActor)
    else (c, [])
  let c2 : Component :=
    if r1.1.TransformState = ETS_Location then
      StopLocationTimer e { r1.1 with bIsLockFirstIterationLocationTimer := false }
    else r1.1
  let c3 : Component :=
    if IsRotationState c2.TransformState then
      StopRotationTimer e { c2 with bIsLockFirstIterationRotationTimer := false }
    else c2
  let c4 : Component :=
    if c3.TransformState = ETS_Scale then
      StopScaleTimer e { c3 with bIsLockFirstIterationScaleTimer := false }
    else c3
  (c4, r1.2)

/-- The method `SwitchOnTransformationMode`. -/
def SwitchOnTransformationMode (e : Env) (InTransformState : ETransformState)
    (c : Component) : Component × List Event :=
  let r : Bool × Component := SpecifyControllerAndPawn e c
  if r.1 = false ∨ r.2.bIsTransform = true ∨ InTransformState = ETS_Idle
      ∨ r.2.TransformState = InTransformState then (r.2, [])
  else
    ({ r.2 with TransformState := InTransformState },
      SetInputModeGameAndUI r.2 ++ [Event.OnSwitchOnTransformationMode])

/-- The method `SwitchOffTransformationMode`. -/
def SwitchOffTransformationMode (h : Host) (e : Env) (c : Component) :
    Component × List Event :=
  if c.TransformState = ETS_Idle then (c, [])
  else
    let ev0 : List Event := SetInputModeGameOnly c
    let r1 : Component × List Event :=
      if c.bIsTransform = true then StopTransformationActor h e c else (c, [])
    let r2 : Component × List Event := ResetTransform h r1.1
    (r2.1, ev0 ++ r1.2 ++ r2.2 ++ [Event.OnSwitchOffTransformationMode])

/-- The method `CalcSumInputAxisValue`. -/
def CalcSumInputAxisValue (InputAxisValue : ℚ) (c : Component) : Component :=
  if c.bIsTransform = false then c
  else { c with SumInputAxisValue := c.SumInputAxisValue + InputAxisValue }

/-! ## The three timer callbacks -/

/-- The routine `FVector::Distance`. -/
def Distance (h : Host) (V1 V2 : FVector) : ℚ := h.Sqrt (FVector.DistSquared V1 V2)

/-- The method `LocationActor`, the callback of `LocationTimer`.  The result is `none`
when the method dereferences a null `TransformActor`. -/
def LocationActor (h : Host) (e : Env) (c : Component) (sc : Scene) :
    Option (Component × Scene) :=
  if c.PlayerController = none then some (c, sc)
  else
    match e.DeprojectMousePositionToWorld with
    | none => some (c, sc)
    | some (WorldLocation, WorldDirection) =>
      match c.TransformActor with
      | none => none
      | some a =>
        let c1 : Component :=
          if c.bIsLockFirstIterationLocationTimer = false then
            { c with DistanceToCursorSave := Distance h (sc.ActorLocation a) WorldLocation,
                     bIsLockFirstIterationLocationTimer := true }
          else c
        let MultiplierDistance : ℚ :=
          c1.DistanceToCursorSave + c1.SumInputAxisValue * c1.LocationDeepSpeed
        let NewLocation : FVector :=
          FVector.add WorldLocation (FVector.scale WorldDirection MultiplierDistance)
        let InterpNewLocation : FVector :=
          h.VInterpTo (sc.ActorLocation a) NewLocation c1.LocationTimerDeltaTime
            c1.LocationSpeed
        some (c1, sc.SetActorLocation h a InterpNewLocation c1.bSweep)

/-- The method `CalcDeltaRoll`. -/
def CalcDeltaRoll (Roll : ℚ) (c : Component) : Component :=
  { c with DeltaRollDegree := Roll - c.RollSave, RollSave := Roll }

/-- The method `CalcDeltaPitch`. -/
def CalcDeltaPitch (Pitch : ℚ) (c : Component) : Component :=
  { c with DeltaPitchDegree := Pitch - c.PitchSave, PitchSave := Pitch }

/-- The method `CalcDeltaYaw`. -/
def CalcDeltaYaw (Yaw : ℚ) (c : Component) : Component :=
  { c with DeltaYawDegree := Yaw - c.YawSave, YawSave := Yaw }

/-- The part of `RotationActor` from the scaling of the deltas to the `switch`: the
increment `DeltaRotationQ` for the current state, `none` in the `default` branch. -/
def RotationActor_DeltaRotationQ (h : Host) (e : Env) (c : Component) : Option FQuat :=
  let DeltaRollRadian : ℚ := h.DegreesToRadians (c.DeltaRollDegree * c.RotationSpeed)
  let DeltaPitchRadian : ℚ := h.DegreesToRadians (c.DeltaPitchDegree * c.RotationSpeed)
  let DeltaYawRadian : ℚ := h.DegreesToRadians (c.DeltaYawDegree * c.RotationSpeed)
  let AxeRoll : FVector :=
    if c.ComponentForTransformationAxis ≠ none then FVector.neg e.ComponentForwardVector
    else FVector.neg e.PawnForwardVector
  let AxePitch : FVector :=
    if c.ComponentForTransformationAxis ≠ none then FVector.neg e.ComponentRightVector
    else FVector.neg e.PawnRightVector
  let AxeYaw : FVector :=
    if c.ComponentForTransformationAxis ≠ none then FVector.neg e.ComponentUpVector
    else FVector.neg e.PawnUpVector
  let DeltaRotationQRoll : FQuat := h.QuatAxisAngle AxeRoll DeltaRollRadian
  let DeltaRotationQPitch : FQuat := h.QuatAxisAngle AxePitch DeltaPitchRadian
  let DeltaRotationQYaw : FQuat := h.QuatAxisAngle AxeYaw DeltaYawRadian
  match c.TransformState with
  | ETS_Rotation_Roll => some DeltaRotationQRoll
  | ETS_Rotation_Pitch => some DeltaRotationQPitch
  | ETS_Rotation_Yaw => some DeltaRotationQYaw
  | ETS_Rotation_YawPitch => some (h.QuatMul DeltaRotationQPitch DeltaRotationQYaw)
  | _ => none

/-- The method `RotationActor`, the callback of `RotationTimer`.  The result is `none`
when the method dereferences a null `TransformActor`. -/
def RotationActor (h : Host) (e : Env) (c : Component) (sc : Scene) :
    Option (Component × Scene) :=
  if CheckControllerAndPawn c = false then some (c, sc)
  else
    match e.MousePosition with
    | none => some (c, sc)
    | some (LocationX, LocationY) =>
      let c1 : Component :=
        if c.bIsLockFirstIterationRotationTimer = false then
          { c with RollSave := LocationX, PitchSave := LocationY, YawSave := LocationX,
                   bIsLockFirstIterationRotationTimer := true }
        else c
      let c2 : Component :=
        CalcDeltaYaw LocationX (CalcDeltaPitch LocationY (CalcDeltaRoll LocationX c1))
      match RotationActor_DeltaRotationQ h e c2 with
      | none => some (c2, sc)
      | some DeltaRotationQ =>
        match c2.TransformActor with
        | none => none
        | some a => some (c2, sc.AddActorWorldRotation h a DeltaRotationQ c2.bSweep)

/-- The method `ScaleActor`, the callback of `ScaleTimer`.  The result is `none` when the
method dereferences a null `TransformActor`. -/
def ScaleActor (h : Host) (e : Env) (c : Component) (sc : Scene) :
    Option (Component × Scene) :=
  if c.PlayerController = none then some (c, sc)
  else
    match e.MousePosition with
    | none => some (c, sc)
    | some (LocationX, LocationY) =>
      match c.TransformActor with
      | none => none
      | some a =>
        let c1 : Component :=
          if c.bIsLockFirstIterationScaleTimer = false then
            { c with LocationXAtClick := LocationX, LocationYAtClick := LocationY,
                     Scale3DSave := sc.ActorScale3D a,
                     bIsLockFirstIterationScaleTimer := true }
          else c
        let DeltaLocationX : ℚ := LocationX - c1.LocationXAtClick
        let DeltaLocationY : ℚ := LocationY - c1.LocationYAtClick
        let DeltaLocationXY : ℚ :=
          h.Sqrt (|DeltaLocationX| * |DeltaLocationX| + |DeltaLocationY| * |DeltaLocationY|)
        let c2 : Component :=
          if LocationY < c1.LocationYAtClick then
            { c1 with NewScale3D :=
                FVector.addScalar c1.Scale3DSave (DeltaLocationXY * c1.ScaleSpeed) }
          else c1
        let c3 : Component :=
          if LocationY > c2.LocationYAtClick then
            let NewScale3DTmp : FVector := c2.NewScale3D
            let Shrunk : FVector :=
              FVector.subScalar c2.Scale3DSave (DeltaLocationXY * c2.ScaleSpeed)
            if Shrunk.X ≤ c2.MinScale ∨ Shrunk.Y ≤ c2.MinScale ∨ Shrunk.Z ≤ c2.MinScale then
              { c2 with NewScale3D := NewScale3DTmp }
            else { c2 with NewScale3D := Shrunk }
          else c2
        let c4 : Component :=
          if LocationY = c3.LocationYAtClick then { c3 with NewScale3D := c3.Scale3DSave }
          else c3
        some (c4, sc.SetActorScale3D a c4.NewScale3D)

/-! ## The component in its level, as a transition system -/

/-- The component, the level and the events so far (oldest first). -/
structure Machine where
  comp : Component
  scene : Scene
  trace : List Event

/-- The three timers of the component. -/
inductive TimerKind where
  | Location
  | Rotation
  | Scale
  deriving DecidableEq, Repr

/-- Whether a timer of the component is set. -/
def TimerActive (c : Component) : TimerKind → Bool
  | TimerKind.Location => c.LocationTimer
  | TimerKind.Rotation => c.RotationTimer
  | TimerKind.Scale => c.ScaleTimer

/-- The timer that `StartTransformTimer` sets for a state. -/
def TimerOf : ETransformState → Option TimerKind
  | ETS_Location => some TimerKind.Location
  | ETS_Rotation_YawPitch => some TimerKind.Rotation
  | ETS_Rotation_Roll => some TimerKind.Rotation
  | ETS_Rotation_Pitch => some TimerKind.Rotation
  | ETS_Rotation_Yaw => some TimerKind.Rotation
  | ETS_Scale => some TimerKind.Scale
  | ETS_Idle => none

/-- The callback bound to a timer. -/
def TimerCallback (h : Host) (e : Env) (c : Component) (sc : Scene) :
    TimerKind → Option (Component × Scene)
  | TimerKind.Location => LocationActor h e c sc
  | TimerKind.Rotation => RotationActor h e c sc
  | TimerKind.Scale => ScaleActor h e c sc

/-- What can happen to the component: a call of one of the general methods, or the timer
manager running the callback of a timer. -/
inductive Call where
  | SwitchOn (InTransformState : ETransformState)
  | SwitchOff
  | Start
  | Stop
  | CalcSum (InputAxisValue : ℚ)
  | Tick (k : TimerKind)

/-- One transition.  A tick happens only for a timer that is set; the result is `none`
when the transition cannot happen or dereferences a null pointer. -/
def Step (h : Host) (e : Env) (m : Machine) : Call → Option Machine
  | Call.SwitchOn s =>
    let r := SwitchOnTransformationMode e s m.comp
    some { m with comp := r.1, trace := m.trace ++ r.2 }
  | Call.SwitchOff =>
    let r := SwitchOffTransformationMode h e m.comp
    some { m with comp := r.1, trace := m.trace ++ r.2 }
  | Call.Start =>
    let r := StartTransformationActor h e m.comp
    some { m with comp := r.1, trace := m.trace ++ r.2 }
  | Call.Stop =>
    let r := StopTransformationActor h e m.comp
    some { m with comp := r.1, trace := m.trace ++ r.2 }
  | Call.CalcSum v => some { m with comp := CalcSumInputAxisValue v m.comp }
  | Call.Tick k =>
    if TimerActive m.comp k = true then
      match TimerCallback h e m.comp m.scene k with
      | none => none
      | some r => some { m with comp := r.1, scene := r.2 }
    else none

/-- The states a component can be in right after construction: idle, not transforming,
no actor selected, no timer set.  The tunable members are arbitrary. -/
def IsInitial (c : Component) : Prop :=
  c.TransformState = ETS_Idle ∧ c.bIsTransform = false ∧ c.TransformActor = none
    ∧ c.PreviousTransformActor = none ∧ c.LocationTimer = false ∧ c.RotationTimer = false
    ∧ c.ScaleTimer = false

/-- The machines reachable from an initial component by transitions whose environment
and call satisfy `P`. -/
inductive Reachable (h : Host) (P : Env → Call → Prop) : Machine → Prop where
  | init (c : Component) (sc : Scene) (hc : IsInitial c) : Reachable h P ⟨c, sc, []⟩
  | step (m m' : Machine) (e : Env) (call : Call) (hm : Reachable h P m)
      (hP : P e call) (hs : Step h e m call = some m') : Reachable h P m'

/-- Every environment and every call. -/
def AnyCall : Env → Call → Prop := fun _ _ => True

/-- Calls of the four general methods, with the world available. -/
def ModeCallWithWorld : Env → Call → Prop := fun e call =>
  e.World = true ∧
    ((∃ s, call = Call.SwitchOn s) ∨ call = Call.SwitchOff ∨ call = Call.Start
      ∨ call = Call.Stop)

/-- Every call, with the world available. -/
def WithWorld : Env → Call → Prop := fun e _ => e.World = true

/-! ## Notions used in the statements -/

/-- Several transitions in a row, each with its own environment. -/
def Run (h : Host) : Machine → List (Env × Call) → Option Machine
  | m, [] => some m
  | m, (e, call) :: rest =>
    match Step h e m call with
    | none => none
    | some m' => Run h m' rest

/-- The first-tick flag that belongs to a timer. -/
def LockFlag (c : Component) : TimerKind → Bool
  | TimerKind.Location => c.bIsLockFirstIterationLocationTimer
  | TimerKind.Rotation => c.bIsLockFirstIterationRotationTimer
  | TimerKind.Scale => c.bIsLockFirstIterationScaleTimer

/-- A timer is set exactly when the component is transforming and the timer is the one
of the current state. -/
def TimerInv (c : Component) : Prop :=
  ∀ k, TimerActive c k = true ↔ (c.bIsTransform = true ∧ TimerOf c.TransformState = some k)

/-- Two components agree on the state, the transforming flag, the selected actors and
the timers. -/
def SameControl (c c' : Component) : Prop :=
  c'.TransformState = c.TransformState ∧ c'.bIsTransform = c.bIsTransform
    ∧ c'.TransformActor = c.TransformActor
    ∧ c'.PreviousTransformActor = c.PreviousTransformActor
    ∧ c'.LocationTimer = c.LocationTimer ∧ c'.RotationTimer = c.RotationTimer
    ∧ c'.ScaleTimer = c.ScaleTimer

/-- The controller and pawn context resolves: there is a world, a player controller and a
pawn or spectator. -/
def ContextResolves (e : Env) : Prop :=
  e.World = true ∧ e.Controller0 ≠ none ∧ e.PawnOrSpectator ≠ none

/-! ## Concrete hosts, environments and levels -/

/-- The largest `k` with `k * k ≤ n`, found by counting up from `k`; the first argument
bounds the number of steps. -/
def SqrtSearch (n : ℕ) : ℕ → ℕ → ℕ
  | 0, k => k
  | fuel + 1, k => if (k + 1) * (k + 1) ≤ n then SqrtSearch n fuel (k + 1) else k

/-- A host for evaluating the component on concrete inputs.  Actors 7 and 8 implement
the interface, the others do not.  The square root is exact on squares of rationals;
`VInterpTo` follows the engine routine (jump when the speed is not positive or the
target is closer than the tolerance, otherwise a step of the clamped fraction
`DeltaTime * InterpSpeed`); sweeps never block. -/
def SampleHost : Host where
  ImplementsInterface := fun a => decide (a = 7 ∨ a = 8)
  Sqrt := fun q =>
    (SqrtSearch q.num.natAbs q.num.natAbs 0 : ℚ) / (SqrtSearch q.den q.den 0 : ℚ)
  VInterpTo := fun Current Target DeltaTime InterpSpeed =>
    if InterpSpeed ≤ 0 then Target
    else if FVector.DistSquared Current Target < 1 / 10000 then Target
    else
      FVector.add Current
        (FVector.scale (FVector.sub Target Current) (max 0 (min (DeltaTime * InterpSpeed) 1)))
  DegreesToRadians := fun d => d * (355 / 113) / 180
  QuatAxisAngle := fun Axis Angle =>
    ⟨Axis.X * (Angle / 2), Axis.Y * (Angle / 2), Axis.Z * (Angle / 2), 1⟩
  QuatMul := fun A B =>
    ⟨A.W * B.X + A.X * B.W + A.Y * B.Z - A.Z * B.Y,
     A.W * B.Y - A.X * B.Z + A.Y * B.W + A.Z * B.X,
     A.W * B.Z + A.X * B.Y - A.Y * B.X + A.Z * B.W,
     A.W * B.W - A.X * B.X - A.Y * B.Y - A.Z * B.Z⟩
  SweepLocation := fun _ NewLocation => NewLocation
  SweepRotation := fun Current _ => Current

/-- An environment in which everything is available: a world, controller 0 with pawn 1,
actor 7 under the cursor, the mouse at (100, 100), the cursor ray from the origin along
the X axis. -/
def SampleEnv : Env where
  World := true
  Controller0 := some 0
  PawnOrSpectator := some 1
  HitResultUnderCursor := some (some 7)
  MousePosition := some (100, 100)
  DeprojectMousePositionToWorld := some (⟨0, 0, 0⟩, ⟨1, 0, 0⟩)
  ComponentForwardVector := ⟨1, 0, 0⟩
  ComponentRightVector := ⟨0, 1, 0⟩
  ComponentUpVector := ⟨0, 0, 1⟩
  PawnForwardVector := ⟨1, 0, 0⟩
  PawnRightVector := ⟨0, 1, 0⟩
  PawnUpVector := ⟨0, 0, 1⟩

/-- The environment `SampleEnv` without a world. -/
def SampleEnvNoWorld : Env := { SampleEnv with World := false }

/-- The environment `SampleEnv` with actor 3, which does not implement the interface,
under the cursor. -/
def SampleEnvPlainActor : Env := { SampleEnv with HitResultUnderCursor := some (some 3) }

/-- The environment `SampleEnv` with the mouse at (100, 150). -/
def SampleEnvMouseDown : Env := { SampleEnv with MousePosition := some (100, 150) }

/-- A level in which every actor is at (3, 4, 0), unrotated, with scale (1, 1, 1). -/
def SampleScene : Scene where
  ActorLocation := fun _ => ⟨3, 4, 0⟩
  ActorRotation := fun _ => ⟨0, 0, 0, 1⟩
  ActorScale3D := fun _ => ⟨1, 1, 1⟩

/-- A level in which every actor has scale (1/200, 1/200, 1/200), below the default
`MinScale` of 1/100. -/
def SampleSceneTiny : Scene where
  ActorLocation := fun _ => ⟨3, 4, 0⟩
  ActorRotation := fun _ => ⟨0, 0, 0, 1⟩
  ActorScale3D := fun _ => ⟨1 / 200, 1 / 200, 1 / 200⟩

/-- The machine a fresh component in the level `sc` is in after the given calls, each
with its environment, under `SampleHost`.  When a call cannot happen the fresh machine
is returned. -/
def SampleAfter (sc : Scene) (calls : List (Env × Call)) : Machine :=
  (Run SampleHost ⟨Constructor, sc, []⟩ calls).getD ⟨Constructor, sc, []⟩

/-- The calls that switch a mode on, everything being available. -/
def CallsModeOn (s : ETransformState) : List (Env × Call) :=
  [(SampleEnv, Call.SwitchOn s)]

/-- The calls that switch a mode on and select actor 7 with a first
`StartTransformationActor`. -/
def CallsSelected (s : ETransformState) : List (Env × Call) :=
  [(SampleEnv, Call.SwitchOn s), (SampleEnv, Call.Start)]

/-- The calls that switch a mode on, select actor 7 and start its transformation with a
second `StartTransformationActor`. -/
def CallsStarted (s : ETransformState) : List (Env × Call) :=
  [(SampleEnv, Call.SwitchOn s), (SampleEnv, Call.Start), (SampleEnv, Call.Start)]

/-- The component of `SampleAfter SampleScene calls`. -/
def CompAfter (calls : List (Env × Call)) : Component := (SampleAfter SampleScene calls).comp

/-! ## Invariants, scale sessions and quiet runs -/

/-- The selected actor and its predecessor agree, and an idle component has no selected
actor and is not transforming. -/
def SelInv (c : Component) : Prop :=
  c.TransformActor = c.PreviousTransformActor
    ∧ (c.TransformState = ETS_Idle → c.TransformActor = none ∧ c.bIsTransform = false)

/-- Consecutive `ScaleActor` ticks, each with its environment. -/
def ScaleTicks (h : Host) : List Env → Component → Scene → Option (Component × Scene)
  | [], c, sc => some (c, sc)
  | e :: es, c, sc =>
    match ScaleActor h e c sc with
    | none => none
    | some r => ScaleTicks h es r.1 r.2

/-- What holds between the ticks of a scale session on actor `a`: the first tick is
done, the scale at the click and the last scale are above `MinScale`, and the actor has
the last scale. -/
def ScaleSessionInv (a : ℕ) (MinScale : ℚ) (c : Component) (sc : Scene) : Prop :=
  c.TransformActor = some a ∧ c.PlayerController ≠ none
    ∧ c.bIsLockFirstIterationScaleTimer = true ∧ c.MinScale = MinScale
    ∧ 0 ≤ c.ScaleSpeed ∧ FVector.AllAbove c.Scale3DSave MinScale
    ∧ FVector.AllAbove c.NewScale3D MinScale ∧ sc.ActorScale3D a = c.NewScale3D

/-- A call that starts a transformation: `StartTransformationActor` setting the
transforming flag. -/
def StartsTask (h : Host) (e : Env) (m : Machine) (call : Call) : Prop :=
  call = Call.Start ∧ (StartTransformationActor h e m.comp).1.bIsTransform = true

/-- The machines that follow a machine by transitions, with the world available, none
of which starts a transformation. -/
inductive QuietRun (h : Host) (m : Machine) : Machine → Prop where
  | refl : QuietRun h m m
  | step (m1 m2 : Machine) (e : Env) (call : Call) (hq : QuietRun h m m1)
      (hW : e.World = true) (hno : ¬ StartsTask h e m1 call)
      (hs : Step h e m1 call = some m2) : QuietRun h m m2

/-! ## C12: the rotation increment per state -/

/-- The part of `RotationActor` between the mouse query and the scaling of the deltas:
the first-tick block and the calls of `CalcDeltaRoll`, `CalcDeltaPitch` and
`CalcDeltaYaw`. -/
def RotationActor_Deltas (LocationX LocationY : ℚ) (c : Component) : Component :=
  let c1 : Component :=
    if c.bIsLockFirstIterationRotationTimer = false then
      { c with RollSave := LocationX, PitchSave := LocationY, YawSave := LocationX,
               bIsLockFirstIterationRotationTimer := true }
    else c
  CalcDeltaYaw LocationX (CalcDeltaPitch LocationY (CalcDeltaRoll LocationX c1))

/-- The quaternion `DeltaRotationQRoll` that `RotationActor` builds before its `switch`. -/
def RotationActor_QRoll (h : Host) (e : Env) (c : Component) : FQuat :=
  h.QuatAxisAngle
    (if c.ComponentForTransformationAxis ≠ none then FVector.neg e.ComponentForwardVector
     else FVector.neg e.PawnForwardVector)
    (h.DegreesToRadians (c.DeltaRollDegree * c.RotationSpeed))

/-- The quaternion `DeltaRotationQPitch` that `RotationActor` builds before its `switch`. -/
def RotationActor_QPitch (h : Host) (e : Env) (c : Component) : FQuat :=
  h.QuatAxisAngle
    (if c.ComponentForTransformationAxis ≠ none then FVector.neg e.ComponentRightVector
     else FVector.neg e.PawnRightVector)
    (h.DegreesToRadians (c.DeltaPitchDegree * c.RotationSpeed))

/-- The quaternion `DeltaRotationQYaw` that `RotationActor` builds before its `switch`. -/
def RotationActor_QYaw (h : Host) (e : Env) (c : Component) : FQuat :=
  h.QuatAxisAngle
    (if c.ComponentForTransformationAxis ≠ none then FVector.neg e.ComponentUpVector
     else FVector.neg e.PawnUpVector)
    (h.DegreesToRadians (c.DeltaYawDegree * c.RotationSpeed))

/-- The identity rotation `FQuat::Identity`. -/
def FQuat.Identity : FQuat := ⟨0, 0, 0, 1⟩

/-- Modelled from the spec: the engine routines `FMath::DegreesToRadians`,
`FQuat(Axis, AngleRad)`, the quaternion product and the swept `AddActorWorldRotation` are
not part of the plugin sources.  What the statements about a rotation by the angle zero
assume of them: zero degrees are zero radians, a rotation about any axis by the angle
zero is the identity rotation, the identity rotation times a rotation is that rotation,
and a swept rotation by the identity keeps the orientation. -/
def EngineRotationLaws (h : Host) : Prop :=
  h.DegreesToRadians 0 = 0
    ∧ (∀ Axis, h.QuatAxisAngle Axis 0 = FQuat.Identity)
    ∧ (∀ q, h.QuatMul FQuat.Identity q = q)
    ∧ (∀ q, h.SweepRotation q FQuat.Identity = q)

/-! ## C14: rotation deltas are since the last tick -/

/-- Consecutive `RotationActor` ticks, each with its environment; the result lists, tick
by tick, the deltas (`DeltaRollDegree`, `DeltaPitchDegree`, `DeltaYawDegree`) the tick
left in the component. -/
def RotationDeltaLog (h : Host) : List Env → Component → Scene → Option (List (ℚ × ℚ × ℚ))
  | [], _, _ => some []
  | e :: es, c, sc =>
    match RotationActor h e c sc with
    | none => none
    | some r =>
      match RotationDeltaLog h es r.1 r.2 with
      | none => none
      | some l => some ((r.1.DeltaRollDegree, r.1.DeltaPitchDegree, r.1.DeltaYawDegree) :: l)

/-- The deltas since the last tick, in the spec's words: for pointer samples
(x_1, y_1), ..., (x_n, y_n) that follow the sample (x_0, y_0), the k-th entry is
(x_k - x_(k-1), y_k - y_(k-1), x_k - x_(k-1)) for roll, pitch and yaw. -/
def SinceLastTick : ℚ × ℚ → List (ℚ × ℚ) → List (ℚ × ℚ × ℚ)
  | _, [] => []
  | p, q :: rest => (q.1 - p.1, q.2 - p.2, q.1 - p.1) :: SinceLastTick q rest

/-- What holds between the ticks of a rotation session once the first tick is done: the
tick can run, and the saves are the coordinates of the last sample. -/
def RotationSessionInv (a : ℕ) (p : ℚ × ℚ) (c : Component) : Prop :=
  CheckControllerAndPawn c = true ∧ c.TransformActor = some a
    ∧ c.bIsLockFirstIterationRotationTimer = true
    ∧ c.RollSave = p.1 ∧ c.PitchSave = p.2 ∧ c.YawSave = p.1

/-! ## C15, C16: the branches of `ScaleActor` -/

/-- The length `DeltaLocationXY` of the mouse path since the click, as `ScaleActor`
computes it for the pointer at (x, y). -/
def ScaleActor_Travel (h : Host) (c : Component) (x y : ℚ) : ℚ :=
  h.Sqrt ((x - c.LocationXAtClick) ^ 2 + (y - c.LocationYAtClick) ^ 2)

/-- The growth candidate of `ScaleActor`: the scale at the click plus travel times
`ScaleSpeed` on every axis. -/
def ScaleActor_Grown (h : Host) (c : Component) (x y : ℚ) : FVector :=
  FVector.addScalar c.Scale3DSave (ScaleActor_Travel h c x y * c.ScaleSpeed)

/-- The shrink candidate of `ScaleActor`: the scale at the click minus travel times
`ScaleSpeed` on every axis. -/
def ScaleActor_Shrunk (h : Host) (c : Component) (x y : ℚ) : FVector :=
  FVector.subScalar c.Scale3DSave (ScaleActor_Travel h c x y * c.ScaleSpeed)

/-- A level in which every actor has scale (1/50, 1/50, 1/50). -/
def SampleSceneSmall : Scene where
  ActorLocation := fun _ => ⟨3, 4, 0⟩
  ActorRotation := fun _ => ⟨0, 0, 0, 1⟩
  ActorScale3D := fun _ => ⟨1 / 50, 1 / 50, 1 / 50⟩

/-- The component and level after the first `ScaleActor` tick, with the mouse at
(100, 100), of a scale session on actor 7 in the level `sc`. -/
def SampleScaleClicked (sc : Scene) : Component × Scene :=
  (ScaleActor SampleHost SampleEnv (CompAfter (CallsStarted ETS_Scale)) sc).getD
    (CompAfter (CallsStarted ETS_Scale), sc)

/-! ## C18, C19: `LocationActor` -/

/-- The first-tick block of `LocationActor`: on the first tick the distance from the
actor to the origin `WorldLocation` of the cursor ray is saved and the flag is set. -/
def LocationActor_Lock (h : Host) (c : Component) (sc : Scene) (a : ℕ)
    (WorldLocation : FVector) : Component :=
  if c.bIsLockFirstIterationLocationTimer = false then
    { c with DistanceToCursorSave := Distance h (sc.ActorLocation a) WorldLocation,
             bIsLockFirstIterationLocationTimer := true }
  else c

/-- The point `NewLocation` of `LocationActor`: the origin of the cursor ray plus its
direction times `DistanceToCursorSave + SumInputAxisValue * LocationDeepSpeed`. -/
def LocationActor_NewLocation (c : Component) (WorldLocation WorldDirection : FVector) :
    FVector :=
  FVector.add WorldLocation
    (FVector.scale WorldDirection
      (c.DistanceToCursorSave + c.SumInputAxisValue * c.LocationDeepSpeed))

/-- The point at the fraction `t` of the way from `Current` to `Target`. -/
def FVector.Along (Current Target : FVector) (t : ℚ) : FVector :=
  FVector.add Current (FVector.scale (FVector.sub Target Current) t)

/-- Modelled from the spec: the engine routines `FMath::VInterpTo` and the swept move of
`SetActorLocation` are not part of the plugin sources.  What the statements about the
moved actor assume of them: the interpolation returns a point on the segment from the
current point to the target, and a swept move ends on the segment from its start to its
goal. -/
def EngineLocationLaws (h : Host) : Prop :=
  (∀ Current Target DeltaTime InterpSpeed, ∃ t : ℚ, 0 ≤ t ∧ t ≤ 1
      ∧ h.VInterpTo Current Target DeltaTime InterpSpeed = FVector.Along Current Target t)
    ∧ (∀ Start Goal, ∃ t : ℚ, 0 ≤ t ∧ t ≤ 1
      ∧ h.SweepLocation Start Goal = FVector.Along Start Goal t)

/-- Modelled from the spec: the engine routine `FMath::VInterpTo` is not part of the
plugin sources.  Interpolate-to smoothing as the specification words it: a step from
the current point towards the target by the fraction `DeltaTime * InterpSpeed` clamped
to [0, 1]. -/
def VInterpToSpec (Current Target : FVector) (DeltaTime InterpSpeed : ℚ) : FVector :=
  FVector.Along Current Target (max 0 (min (DeltaTime * InterpSpeed) 1))

/-- A level in which every actor is at (10, 0, 0), on the cursor ray of `SampleEnv`. -/
def SampleSceneOnRay : Scene where
  ActorLocation := fun _ => ⟨10, 0, 0⟩
  ActorRotation := fun _ => ⟨0, 0, 0, 1⟩
  ActorScale3D := fun _ => ⟨1, 1, 1⟩

/-- The component of Scenario A after its first `LocationActor` tick: location mode,
actor 7 being transformed, the distance 10 saved and the first-tick flag set. -/
def SampleLocationLocked : Component :=
  { (SampleAfter SampleSceneOnRay (CallsStarted ETS_Location)).comp with
    DistanceToCursorSave := 10
    bIsLockFirstIterationLocationTimer := true }

/-- The calls of `CalcSumInputAxisValue` for a list of inputs, each with its
environment. -/
def CallsInput (inputs : List (Env × ℚ)) : List (Env × Call) :=
  inputs.map (fun p => (p.1, Call.CalcSum p.2))

/-- The calls that start the location transformation of actor 7 and then feed the
input 1 to `CalcSumInputAxisValue`. -/
def CallsStartedInput : List (Env × Call) :=
  CallsStarted ETS_Location ++ [(SampleEnv, Call.CalcSum 1)]

/-! ## The keyboard methods -/

/-- The method `ScaleKeyboardBasic`.  The method assigns no member variable. -/
def ScaleKeyboardBasic (DeltaScale3D : FVector) (c : Component) (sc : Scene) :
    Component × Scene :=
  match c.TransformActor with
  | none => (c, sc)
  | some a =>
    let CurrentScale3D : FVector := sc.ActorScale3D a
    let NewScale3DKeyboard : FVector := FVector.add CurrentScale3D DeltaScale3D
    let Limited : FVector :=
      if NewScale3DKeyboard.X ≤ c.MinScale ∨ NewScale3DKeyboard.Y ≤ c.MinScale
          ∨ NewScale3DKeyboard.Z ≤ c.MinScale then CurrentScale3D
      else NewScale3DKeyboard
    (c, sc.SetActorScale3D a Limited)

/-- The method `ScaleKeyboard`. -/
def ScaleKeyboard (AxisValue : ℚ) (c : Component) (sc : Scene) : Component × Scene :=
  if AxisValue = 0 then (c, sc)
  else ScaleKeyboardBasic (FVector.splat (AxisValue * c.ScaleSpeedKeyboard)) c sc

/-- The method `ScaleXKeyboard`. -/
def ScaleXKeyboard (AxisValue : ℚ) (c : Component) (sc : Scene) : Component × Scene :=
  if AxisValue = 0 then (c, sc)
  else ScaleKeyboardBasic ⟨AxisValue * c.ScaleSpeedKeyboard, 0, 0⟩ c sc

/-- The method `ScaleYKeyboard`. -/
def ScaleYKeyboard (AxisValue : ℚ) (c : Component) (sc : Scene) : Component × Scene :=
  if AxisValue = 0 then (c, sc)
  else ScaleKeyboardBasic ⟨0, AxisValue * c.ScaleSpeedKeyboard, 0⟩ c sc

/-- The method `ScaleZKeyboard`. -/
def ScaleZKeyboard (AxisValue : ℚ) (c : Component) (sc : Scene) : Component × Scene :=
  if AxisValue = 0 then (c, sc)
  else ScaleKeyboardBasic ⟨0, 0, AxisValue * c.ScaleSpeedKeyboard⟩ c sc

/-- The method `RotationKeyboardBasic`.  The method assigns no member variable. -/
def RotationKeyboardBasic (h : Host) (AxisValue : ℚ) (Axe : FVector) (c : Component)
    (sc : Scene) : Component × Scene :=
  match c.TransformActor with
  | none => (c, sc)
  | some a =>
    let DeltaDegree : ℚ := AxisValue * c.RotationSpeedKeyboard
    let DeltaRadian : ℚ := h.DegreesToRadians DeltaDegree
    let DeltaRotationQ : FQuat := h.QuatAxisAngle Axe DeltaRadian
    (c, sc.AddActorWorldRotation h a DeltaRotationQ c.bSweep)

/-- The method `RotationRollKeyboard`. -/
def RotationRollKeyboard (h : Host) (e : Env) (AxisValue : ℚ) (c : Component)
    (sc : Scene) : Component × Scene :=
  if AxisValue = 0 then (c, sc)
  else if c.PlayerPawn = none then (c, sc)
  else
    let AxeRoll : FVector :=
      if c.ComponentForTransformationAxis ≠ none then e.ComponentForwardVector
      else e.PawnForwardVector
    RotationKeyboardBasic h AxisValue AxeRoll c sc

/-- The method `RotationPitchKeyboard`. -/
def RotationPitchKeyboard (h : Host) (e : Env) (AxisValue : ℚ) (c : Component)
    (sc : Scene) : Component × Scene :=
  if AxisValue = 0 then (c, sc)
  else if c.PlayerPawn = none then (c, sc)
  else
    let AxePitch : FVector :=
      if c.ComponentForTransformationAxis ≠ none then e.ComponentRightVector
      else e.PawnRightVector
    RotationKeyboardBasic h AxisValue AxePitch c sc

/-- The method `RotationYawKeyboard`. -/
def RotationYawKeyboard (h : Host) (e : Env) (AxisValue : ℚ) (c : Component)
    (sc : Scene) : Component × Scene :=
  if AxisValue = 0 then (c, sc)
  else if c.PlayerPawn = none then (c, sc)
  else
    let AxeYaw : FVector :=
      if c.ComponentForTransformationAxis ≠ none then e.ComponentUpVector
      else e.PawnUpVector
    RotationKeyboardBasic h AxisValue AxeYaw c sc

/-- An `FTransform` with exact components: rotation, translation and scale. -/
structure FTransform where
  Rotation : FQuat
  Translation : FVector
  Scale3D : FVector

/-- The engine routines on transforms that `LocationKeyboardBasic` calls; they are not
part of the plugin. -/
structure TransformHost where
  /-- The routine `UKismetMathLibrary::InverseTransformLocation(T, Location)`. -/
  InverseTransformLocation : FTransform → FVector → FVector
  /-- The routine `UKismetMathLibrary::ComposeTransforms(A, B)`. -/
  ComposeTransforms : FTransform → FTransform → FTransform
  /-- The constructor `FTransform(InTranslation)`. -/
  OfTranslation : FVector → FTransform
  /-- The routine `FQuat::RotateVector`. -/
  RotateVector : FQuat → FVector → FVector

/-- What the engine answers about the reference frame during one keyboard call. -/
structure FrameEnv where
  /-- The result of `GetComponentForTransformationAxis()->GetComponentTransform()`. -/
  ComponentTransform : FTransform
  /-- The result of `GetPlayerPawn()->GetRootComponent()->GetComponentTransform()`. -/
  PawnRootTransform : FTransform

/-- The transform `ComponentAxisTransform` that `LocationKeyboardBasic` picks. -/
def ComponentAxisTransform (f : FrameEnv) (c : Component) : FTransform :=
  if c.ComponentForTransformationAxis ≠ none then f.ComponentTransform
  else f.PawnRootTransform

/-- The method `LocationKeyboardBasic`.  The method assigns no member variable. -/
def LocationKeyboardBasic (h : Host) (t : TransformHost) (f : FrameEnv)
    (DeltaLocation : FVector) (c : Component) (sc : Scene) : Component × Scene :=
  match c.TransformActor with
  | none => (c, sc)
  | some a =>
    if c.PlayerPawn = none then (c, sc)
    else
      let CurrentLocation : FVector := sc.ActorLocation a
      let CurrenLocationInComponentSpace : FVector :=
        t.InverseTransformLocation (ComponentAxisTransform f c) CurrentLocation
      let NewLocationInComponentSpace : FVector :=
        FVector.add CurrenLocationInComponentSpace DeltaLocation
      let NewTransformInComponentSpace : FTransform :=
        t.OfTranslation NewLocationInComponentSpace
      let NewTransform : FTransform :=
        t.ComposeTransforms NewTransformInComponentSpace (ComponentAxisTransform f c)
      let NewLocation : FVector := NewTransform.Translation
      (c, sc.SetActorLocation h a NewLocation c.bSweep)

/-- The method `LocationLeftRightKeyboard`. -/
def LocationLeftRightKeyboard (h : Host) (t : TransformHost) (f : FrameEnv)
    (AxisValue : ℚ) (c : Component) (sc : Scene) : Component × Scene :=
  if AxisValue = 0 then (c, sc)
  else LocationKeyboardBasic h t f ⟨0, AxisValue * c.LocationSpeedKeyboard, 0⟩ c sc

/-- The method `LocationUpDownKeyboard`. -/
def LocationUpDownKeyboard (h : Host) (t : TransformHost) (f : FrameEnv)
    (AxisValue : ℚ) (c : Component) (sc : Scene) : Component × Scene :=
  if AxisValue = 0 then (c, sc)
  else LocationKeyboardBasic h t f ⟨0, 0, AxisValue * c.LocationSpeedKeyboard⟩ c sc

/-- The method `LocationInsideOutsideKeyboard`. -/
def LocationInsideOutsideKeyboard (h : Host) (t : TransformHost) (f : FrameEnv)
    (AxisValue : ℚ) (c : Component) (sc : Scene) : Component × Scene :=
  if AxisValue = 0 then (c, sc)
  else LocationKeyboardBasic h t f ⟨AxisValue * c.LocationSpeedKeyboard, 0, 0⟩ c sc

/-! ## C21: keyboard scale nudges -/

/-- The sum `ScaleKeyboardBasic` tests against `MinScale`: the current scale of the
actor plus the delta. -/
def ScaleKeyboard_Candidate (sc : Scene) (a : ℕ) (DeltaScale3D : FVector) : FVector :=
  FVector.add (sc.ActorScale3D a) DeltaScale3D

/-- A component with actor 7 selected in scale mode, everything else as constructed
(`ScaleSpeedKeyboard` 1/10, `MinScale` 1/100). -/
def SampleSelected : Component := CompAfter (CallsSelected ETS_Scale)

/-! ## C22: when a keyboard nudge does nothing -/

/-- The three keyboard nudges of the location, for one axis value. -/
def LocationNudges (h : Host) (t : TransformHost) (f : FrameEnv) (AxisValue : ℚ) :
    List (Component → Scene → Component × Scene) :=
  [LocationLeftRightKeyboard h t f AxisValue, LocationUpDownKeyboard h t f AxisValue,
    LocationInsideOutsideKeyboard h t f AxisValue]

/-- The three keyboard nudges of the rotation, for one axis value. -/
def RotationNudges (h : Host) (e : Env) (AxisValue : ℚ) :
    List (Component → Scene → Component × Scene) :=
  [RotationRollKeyboard h e AxisValue, RotationPitchKeyboard h e AxisValue,
    RotationYawKeyboard h e AxisValue]

/-- The four keyboard nudges of the scale, for one axis value. -/
def ScaleNudges (AxisValue : ℚ) : List (Component → Scene → Component × Scene) :=
  [ScaleKeyboard AxisValue, ScaleXKeyboard AxisValue, ScaleYKeyboard AxisValue,
    ScaleZKeyboard AxisValue]

/-- The environment `SampleEnv` in which the controller has no pawn. -/
def SampleEnvNoPawn : Env := { SampleEnv with PawnOrSpectator := none }

/-- The calls that select actor 7 in scale mode and then call
`SwitchOnTransformationMode` while the controller has no pawn. -/
def CallsPawnLost : List (Env × Call) :=
  CallsSelected ETS_Scale ++ [(SampleEnvNoPawn, Call.SwitchOn ETS_Location)]

/-! ## C23: the keyboard location nudge in the reference frame -/

/-- The product `FVector * FVector`, component by component. -/
def FVector.mul (a b : FVector) : FVector := ⟨a.X * b.X, a.Y * b.Y, a.Z * b.Z⟩

/-- Modelled from the spec: the engine's transform routines are not part of the plugin
sources.  The point T(v) of the specification for a frame T with rotation R, scale S and
translation: R(S * v) plus the translation. -/
def TransformLocation (t : TransformHost) (T : FTransform) (v : FVector) : FVector :=
  FVector.add (t.RotateVector T.Rotation (FVector.mul T.Scale3D v)) T.Translation

/-- Modelled from the spec: the engine routines `ComposeTransforms`,
`InverseTransformLocation`, `FTransform(InTranslation)` and `FQuat::RotateVector` are not
part of the plugin sources.  What the statements about a frame T assume of them: the
translation of the composition of the translation-only transform of v with T is T(v);
when no axis of the scale of T is zero, `InverseTransformLocation` is the inverse of T;
and the rotation of T is additive. -/
def EngineTransformLaws (t : TransformHost) (T : FTransform) : Prop :=
  (∀ v, (t.ComposeTransforms (t.OfTranslation v) T).Translation = TransformLocation t T v)
    ∧ (T.Scale3D.X ≠ 0 ∧ T.Scale3D.Y ≠ 0 ∧ T.Scale3D.Z ≠ 0 →
        ∀ p, TransformLocation t T (t.InverseTransformLocation T p) = p)
    ∧ (∀ u v, t.RotateVector T.Rotation (FVector.add u v)
        = FVector.add (t.RotateVector T.Rotation u) (t.RotateVector T.Rotation v))

/-- The cross product of two vectors. -/
def FVector.cross (a b : FVector) : FVector :=
  ⟨a.Y * b.Z - a.Z * b.Y, a.Z * b.X - a.X * b.Z, a.X * b.Y - a.Y * b.X⟩

/-- Transform routines for evaluating the component on concrete inputs: a quaternion
rotates a vector by conjugation (with the division by its squared length written out),
the inverse location undoes translation, rotation and scale in this order, and the
composition applies the second transform to the translation of the first. -/
def SampleTransformHost : TransformHost where
  RotateVector := fun q v =>
    FVector.add v
      (FVector.scale
        (FVector.add (FVector.scale (FVector.cross ⟨q.X, q.Y, q.Z⟩ v) (2 * q.W))
          (FVector.scale (FVector.cross ⟨q.X, q.Y, q.Z⟩ (FVector.cross ⟨q.X, q.Y, q.Z⟩ v)) 2))
        (1 / (q.X * q.X + q.Y * q.Y + q.Z * q.Z + q.W * q.W)))
  OfTranslation := fun v => ⟨⟨0, 0, 0, 1⟩, v, ⟨1, 1, 1⟩⟩
  InverseTransformLocation := fun T p =>
    let d : FVector := FVector.sub p T.Translation
    let u : FVector := ⟨-T.Rotation.X, -T.Rotation.Y, -T.Rotation.Z⟩
    let r : FVector :=
      FVector.add d
        (FVector.scale
          (FVector.add (FVector.scale (FVector.cross u d) (2 * T.Rotation.W))
            (FVector.scale (FVector.cross u (FVector.cross u d)) 2))
          (1 / (T.Rotation.X * T.Rotation.X + T.Rotation.Y * T.Rotation.Y
            + T.Rotation.Z * T.Rotation.Z + T.Rotation.W * T.Rotation.W)))
    ⟨r.X / T.Scale3D.X, r.Y / T.Scale3D.Y, r.Z / T.Scale3D.Z⟩
  ComposeTransforms := fun A B =>
    ⟨SampleHost.QuatMul B.Rotation A.Rotation,
      FVector.add
        (FVector.add (FVector.mul B.Scale3D A.Translation)
          (FVector.scale
            (FVector.add
              (FVector.scale
                (FVector.cross ⟨B.Rotation.X, B.Rotation.Y, B.Rotation.Z⟩
                  (FVector.mul B.Scale3D A.Translation)) (2 * B.Rotation.W))
              (FVector.scale
                (FVector.cross ⟨B.Rotation.X, B.Rotation.Y, B.Rotation.Z⟩
                  (FVector.cross ⟨B.Rotation.X, B.Rotation.Y, B.Rotation.Z⟩
                    (FVector.mul B.Scale3D A.Translation))) 2))
            (1 / (B.Rotation.X * B.Rotation.X + B.Rotation.Y * B.Rotation.Y
              + B.Rotation.Z * B.Rotation.Z + B.Rotation.W * B.Rotation.W))))
        B.Translation,
      FVector.mul A.Scale3D B.Scale3D⟩

/-- A frame turned a quarter turn about the Z axis (quaternion (0, 0, 1, 1), not
normalised), at (5, 5, 5), with scale (2, 2, 2). -/
def SampleFrame : FTransform := ⟨⟨0, 0, 1, 1⟩, ⟨5, 5, 5⟩, ⟨2, 2, 2⟩⟩

/-- The frame answers in which both the component and the pawn root are `SampleFrame`. -/
def SampleFrameEnv : FrameEnv := ⟨SampleFrame, SampleFrame⟩

/-- The host `SampleHost` in a level where every swept move is blocked at its start. -/
def SampleHostBlocked : Host := { SampleHost with SweepLocation := fun Start _ => Start }

/-- The component `SampleSelected` with `bSweep` set. -/
def SampleSelectedSweep : Component := { SampleSelected with bSweep := true }

/-! ## C24: ticks whose environment query fails -/

/-- What makes the environment query of a timer callback fail: `LocationActor` needs the
controller and the deprojected cursor, `RotationActor` the controller, the pawn and the
mouse position, `ScaleActor` the controller and the mouse position. -/
def QueryFails (e : Env) (c : Component) : TimerKind → Prop
  | TimerKind.Location => c.PlayerController = none ∨ e.DeprojectMousePositionToWorld = none
  | TimerKind.Rotation =>
    c.PlayerController = none ∨ c.PlayerPawn = none ∨ e.MousePosition = none
  | TimerKind.Scale => c.PlayerController = none ∨ e.MousePosition = none

/-! ## C25: a set timer finds a selected actor -/

/-- A transforming component has a selected actor. -/
def StartedInv (c : Component) : Prop :=
  SelInv c ∧ (c.bIsTransform = true → c.TransformActor ≠ none)

/-- The calls that start the location transformation of actor 7 and then call
`SwitchOffTransformationMode` while `GetWorld()` is null. -/
def CallsOffWithoutWorld : List (Env × Call) :=
  CallsStarted ETS_Location ++ [(SampleEnvNoWorld, Call.SwitchOff)]

/-! ## C26: the scale floor within a session -/

/-- The environment `SampleEnv` with the mouse at (100, 102). -/
def SampleEnvMouseBelow : Env := { SampleEnv with MousePosition := some (100, 102) }

/-! ## C27: highlight bookkeeping -/

/-- Highlight bookkeeping in the claim's words: `HighlightOn` adds the actor to the set
of highlighted actors, `HighlightOff` removes it, every other event leaves the set. -/
def HighlightStep (s : Finset ℕ) : Event → Finset ℕ
  | Event.Execute_HighlightOn a => insert a s
  | Event.Execute_HighlightOff a => s.erase a
  | _ => s

/-- The set of highlighted actors after the events of a trace, starting empty. -/
def Highlighted (trace : List Event) : Finset ℕ := trace.foldl HighlightStep ∅

/-- The highlighted set is the selected actor, and the selected actor implements the
interface. -/
def HighlightInv (h : Host) (m : Machine) : Prop :=
  Highlighted m.trace = m.comp.TransformActor.toFinset
    ∧ ∀ a, m.comp.TransformActor = some a → h.ImplementsInterface a = true

/-- The environment `SampleEnv` with actor 8 under the cursor. -/
def SampleEnvOther : Env := { SampleEnv with HitResultUnderCursor := some (some 8) }

/-- The calls that select actor 7 in location mode and then select actor 8. -/
def CallsReselected : List (Env × Call) :=
  CallsSelected ETS_Location ++ [(SampleEnvOther, Call.Start)]

/-! ## How `StartTransformationActor` branches -/

theorem Start_noop (h : Host) (e : Env) (c : Component)
    (hc : c.bIsTransform = true ∨ c.TransformState = ETS_Idle
      ∨ CheckActorOnTransformationActorsInterface h (FindActorUnderCursor e c) = false) :
    StartTransformationActor h e c = (c, []) := by
  unfold StartTransformationActor
  rcases hc with hc | hc | hc
  · simp [hc]
  · simp [hc]
  · by_cases h1 : c.bIsTransform = true ∨ c.TransformState = ETS_Idle
    · simp [h1]
    · cases hF : FindActorUnderCursor e c with
      | none => simp [h1]
      | some a =>
        rw [hF] at hc
        simp [h1, hc]

theorem StartTransformTimer_Previous (h : Host) (e : Env) (s : ETransformState)
    (c : Component) :
    (StartTransformTimer h e s c).1.PreviousTransformActor = c.PreviousTransformActor := by
  cases s <;> cases hW : e.World <;>
    simp [StartTransformTimer, StartLocationTimer, StartRotationTimer, StartScaleTimer,
      IsRotationState, hW]

theorem Start_same (h : Host) (e : Env) (c : Component) (a : ℕ)
    (hT : c.bIsTransform = false) (hS : c.TransformState ≠ ETS_Idle)
    (hF : FindActorUnderCursor e c = some a) (hI : h.ImplementsInterface a = true)
    (hP : c.PreviousTransformActor = some a) :
    StartTransformationActor h e c
      = StartTransformTimer h e c.TransformState { c with SumInputAxisValue := 0 } := by
  unfold StartTransformationActor
  simp [hF, hT, hS, hP, CheckActorOnTransformationActorsInterface, hI,
    StartTransformTimer_Previous]

theorem Start_new (h : Host) (e : Env) (c : Component) (a : ℕ)
    (hT : c.bIsTransform = false) (hS : c.TransformState ≠ ETS_Idle)
    (hF : FindActorUnderCursor e c = some a) (hI : h.ImplementsInterface a = true)
    (hP : c.PreviousTransformActor ≠ some a) :
    StartTransformationActor h e c
      = ({ c with SumInputAxisValue := 0, PreviousTransformActor := some a,
                  TransformActor := some a },
          HighlightOff_TransformationActorsInterface h c.PreviousTransformActor
            ++ [Event.Execute_HighlightOn a]) := by
  have hP2 : ¬ (some a = c.PreviousTransformActor) := fun hh => hP hh.symm
  unfold StartTransformationActor
  simp [hF, hT, hS, hP2, CheckActorOnTransformationActorsInterface, hI,
    SelectNewTransformActor, HighlightOn_TransformationActorsInterface]

theorem TimerInv_iff (c : Component) :
    TimerInv c ↔
      (c.LocationTimer = true ↔ (c.bIsTransform = true ∧ c.TransformState = ETS_Location))
      ∧ (c.RotationTimer = true ↔ (c.bIsTransform = true ∧ IsRotationState c.TransformState))
      ∧ (c.ScaleTimer = true ↔ (c.bIsTransform = true ∧ c.TransformState = ETS_Scale)) := by
  unfold TimerInv
  constructor
  · intro hinv
    have h1 := hinv TimerKind.Location
    have h2 := hinv TimerKind.Rotation
    have h3 := hinv TimerKind.Scale
    cases hS : c.TransformState <;>
      simp [TimerActive, TimerOf, IsRotationState, hS] at h1 h2 h3 ⊢ <;> simp [h1, h2, h3]
  · rintro ⟨h1, h2, h3⟩ k
    cases k <;> cases hS : c.TransformState <;>
      simp [TimerActive, TimerOf, IsRotationState, hS] at h1 h2 h3 ⊢ <;> simp [h1, h2, h3]

theorem TimerInv_Stop (h : Host) (e : Env) (c : Component) (hW : e.World = true)
    (hinv : TimerInv c) : TimerInv (StopTransformationActor h e c).1 := by
  rw [TimerInv_iff] at hinv ⊢
  obtain ⟨h1, h2, h3⟩ := hinv
  cases hS : c.TransformState <;>
    simp [StopTransformationActor, StopLocationTimer, StopRotationTimer, StopScaleTimer,
      IsRotationState, hS, hW] at h1 h2 h3 ⊢ <;> simp [h1, h2, h3]

theorem SameControl_refl (c : Component) : SameControl c c := by
  simp [SameControl]

theorem LocationActor_SameControl (h : Host) (e : Env) (c c' : Component) (sc sc' : Scene)
    (hr : LocationActor h e c sc = some (c', sc')) : SameControl c c' := by
  rcases hPC : c.PlayerController with _ | pc <;>
  rcases hD : e.DeprojectMousePositionToWorld with _ | ⟨wl, wd⟩ <;>
  rcases hA : c.TransformActor with _ | a <;>
  cases hL : c.bIsLockFirstIterationLocationTimer <;>
  simp [LocationActor, hPC, hD, hA, hL] at hr <;>
  obtain ⟨rfl, rfl⟩ := hr <;>
  simp [SameControl, hA]

theorem RotationActor_SameControl (h : Host) (e : Env) (c c' : Component) (sc sc' : Scene)
    (hr : RotationActor h e c sc = some (c', sc')) : SameControl c c' := by
  rcases hPC : CheckControllerAndPawn c <;>
  rcases hD : e.MousePosition with _ | ⟨x, y⟩ <;>
  rcases hA : c.TransformActor with _ | a <;>
  cases hL : c.bIsLockFirstIterationRotationTimer <;>
  cases hS : c.TransformState <;>
  simp [RotationActor, RotationActor_DeltaRotationQ, CalcDeltaYaw, CalcDeltaPitch,
    CalcDeltaRoll, hPC, hD, hA, hL, hS] at hr <;>
  obtain ⟨rfl, rfl⟩ := hr <;>
  simp [SameControl, hA, hS]

theorem ScaleActor_SameControl (h : Host) (e : Env) (c c' : Component) (sc sc' : Scene)
    (hr : ScaleActor h e c sc = some (c', sc')) : SameControl c c' := by
  rcases hPC : c.PlayerController with _ | pc <;>
  rcases hD : e.MousePosition with _ | ⟨x, y⟩ <;>
  rcases hA : c.TransformActor with _ | a <;>
  simp [ScaleActor, hPC, hD, hA] at hr <;>
  obtain ⟨rfl, rfl⟩ := hr <;>
  simp only [SameControl] <;>
  (try split_ifs) <;> simp [hA]

theorem TimerCallback_SameControl (h : Host) (e : Env) (c c' : Component) (sc sc' : Scene)
    (k : TimerKind) (hr : TimerCallback h e c sc k = some (c', sc')) : SameControl c c' := by
  cases k
  · exact LocationActor_SameControl h e c c' sc sc' hr
  · exact RotationActor_SameControl h e c c' sc sc' hr
  · exact ScaleActor_SameControl h e c c' sc sc' hr

theorem CalcSum_SameControl (v : ℚ) (c : Component) :
    SameControl c (CalcSumInputAxisValue v c) := by
  unfold CalcSumInputAxisValue
  split_ifs <;> simp [SameControl]

theorem TimerInv_SameControl (c c' : Component) (hs : SameControl c c')
    (hinv : TimerInv c) : TimerInv c' := by
  rw [TimerInv_iff] at hinv ⊢
  obtain ⟨e1, e2, _, _, e5, e6, e7⟩ := hs
  rw [e1, e2, e5, e6, e7]
  exact hinv

theorem SpecifyControllerAndPawn_fst (e : Env) (c : Component) :
    (SpecifyControllerAndPawn e c).1 = true ↔ ContextResolves e := by
  rcases hW : e.World <;> rcases hC : e.Controller0 with _ | pc <;>
    rcases hP : e.PawnOrSpectator with _ | pw <;>
    simp [SpecifyControllerAndPawn, ContextResolves, hW, hC, hP]

theorem SpecifyControllerAndPawn_SameControl (e : Env) (c : Component) :
    SameControl c (SpecifyControllerAndPawn e c).2 := by
  rcases hW : e.World <;> rcases hC : e.Controller0 with _ | pc <;>
    rcases hP : e.PawnOrSpectator with _ | pw <;>
    simp [SpecifyControllerAndPawn, SameControl, hW, hC, hP]

theorem SpecifyControllerAndPawn_controller (e : Env) (c : Component)
    (hok : (SpecifyControllerAndPawn e c).1 = true) :
    (SpecifyControllerAndPawn e c).2.PlayerController ≠ none := by
  revert hok
  rcases hW : e.World <;> rcases hC : e.Controller0 with _ | pc <;>
    rcases hP : e.PawnOrSpectator with _ | pw <;>
    simp [SpecifyControllerAndPawn, hW, hC, hP]

theorem SwitchOn_changed (e : Env) (s : ETransformState) (c : Component)
    (hok : ContextResolves e) (hs : s ≠ ETS_Idle) (hT : c.bIsTransform = false)
    (hne : c.TransformState ≠ s) :
    SwitchOnTransformationMode e s c
      = ({ (SpecifyControllerAndPawn e c).2 with TransformState := s },
          [Event.SetInputMode EInputMode.GameAndUI true,
            Event.OnSwitchOnTransformationMode]) := by
  have h1 := (SpecifyControllerAndPawn_fst e c).2 hok
  have h2 := SpecifyControllerAndPawn_controller e c h1
  obtain ⟨e1, e2, _⟩ := SpecifyControllerAndPawn_SameControl e c
  unfold SwitchOnTransformationMode
  simp [h1, e1, e2, hs, hT, hne, SetInputModeGameAndUI, h2]

theorem SwitchOn_unchanged (e : Env) (s : ETransformState) (c : Component)
    (hno : ¬ (ContextResolves e ∧ s ≠ ETS_Idle ∧ c.bIsTransform = false
      ∧ c.TransformState ≠ s)) :
    SwitchOnTransformationMode e s c = ((SpecifyControllerAndPawn e c).2, []) := by
  have h1 := SpecifyControllerAndPawn_fst e c
  obtain ⟨e1, e2, _⟩ := SpecifyControllerAndPawn_SameControl e c
  unfold SwitchOnTransformationMode
  rw [if_pos]
  rw [e1, e2]
  by_contra hcon
  push_neg at hcon
  apply hno
  refine ⟨h1.1 ?_, hcon.2.2.1, ?_, hcon.2.2.2⟩
  · cases hb : (SpecifyControllerAndPawn e c).1
    · exact absurd hb hcon.1
    · rfl
  · cases hb : c.bIsTransform
    · rfl
    · exact absurd hb hcon.2.1

/-! ## What the general methods keep -/

theorem Stop_keeps (h : Host) (e : Env) (c : Component) :
    (StopTransformationActor h e c).1.TransformState = c.TransformState
      ∧ (StopTransformationActor h e c).1.TransformActor = c.TransformActor
      ∧ (StopTransformationActor h e c).1.PreviousTransformActor
          = c.PreviousTransformActor := by
  cases hS : c.TransformState <;> cases hW : e.World <;>
    simp [StopTransformationActor, StopLocationTimer, StopRotationTimer, StopScaleTimer,
      IsRotationState, hS, hW]

theorem Stop_flag (h : Host) (e : Env) (c : Component) :
    (StopTransformationActor h e c).1.bIsTransform
      = if c.TransformState ≠ ETS_Idle then false else c.bIsTransform := by
  cases hS : c.TransformState <;> cases hW : e.World <;>
    simp [StopTransformationActor, StopLocationTimer, StopRotationTimer, StopScaleTimer,
      IsRotationState, hS, hW]

theorem Stop_events (h : Host) (e : Env) (c : Component) :
    (StopTransformationActor h e c).2
      = if c.TransformState ≠ ETS_Idle then
          Event.OnStopTransformationActor ::
            StopTransformation_TransformationActorsInterface h c.TransformActor
        else [] := by
  cases hS : c.TransformState <;> simp [StopTransformationActor, hS]

theorem StartTransformTimer_keeps (h : Host) (e : Env) (s : ETransformState)
    (c : Component) :
    (StartTransformTimer h e s c).1.TransformState = c.TransformState
      ∧ (StartTransformTimer h e s c).1.TransformActor = c.TransformActor
      ∧ (StartTransformTimer h e s c).1.SumInputAxisValue = c.SumInputAxisValue := by
  cases s <;> cases hW : e.World <;>
    simp [StartTransformTimer, StartLocationTimer, StartRotationTimer, StartScaleTimer,
      IsRotationState, hW]

theorem StartTransformTimer_flag (h : Host) (e : Env) (s : ETransformState)
    (c : Component) (hs : s ≠ ETS_Idle) :
    (StartTransformTimer h e s c).1.bIsTransform = true := by
  cases s <;> cases hW : e.World <;>
    simp [StartTransformTimer, StartLocationTimer, StartRotationTimer, StartScaleTimer,
      IsRotationState, hW] at hs ⊢

theorem StartTransformTimer_events (h : Host) (e : Env) (s : ETransformState)
    (c : Component) (hs : s ≠ ETS_Idle) :
    (StartTransformTimer h e s c).2
      = Event.OnStartTransformationActor ::
          StartTransformation_TransformationActorsInterface h c.TransformActor := by
  simp [StartTransformTimer, hs]

theorem TimerInv_idle (c : Component) (hT : c.bIsTransform = false) :
    TimerInv c ↔ (c.LocationTimer = false ∧ c.RotationTimer = false
      ∧ c.ScaleTimer = false) := by
  rw [TimerInv_iff]
  simp [hT]

theorem TimerInv_StartTransformTimer (h : Host) (e : Env) (c : Component)
    (hW : e.World = true) (hT : c.bIsTransform = false) (hinv : TimerInv c) :
    TimerInv (StartTransformTimer h e c.TransformState c).1 := by
  rw [TimerInv_idle c hT] at hinv
  obtain ⟨h1, h2, h3⟩ := hinv
  rw [TimerInv_iff]
  cases hS : c.TransformState <;>
    simp [StartTransformTimer, StartLocationTimer, StartRotationTimer, StartScaleTimer,
      IsRotationState, hS, hW, h1, h2, h3, hT]

theorem Start_cases (h : Host) (e : Env) (c : Component) :
    StartTransformationActor h e c = (c, [])
    ∨ (c.bIsTransform = false ∧ c.TransformState ≠ ETS_Idle ∧
        StartTransformationActor h e c
          = StartTransformTimer h e c.TransformState { c with SumInputAxisValue := 0 })
    ∨ (c.bIsTransform = false ∧ c.TransformState ≠ ETS_Idle ∧
        ∃ a, h.ImplementsInterface a = true ∧ StartTransformationActor h e c
          = ({ c with SumInputAxisValue := 0, PreviousTransformActor := some a,
                      TransformActor := some a },
              HighlightOff_TransformationActorsInterface h c.PreviousTransformActor
                ++ [Event.Execute_HighlightOn a])) := by
  by_cases h1 : c.bIsTransform = true
  · exact Or.inl (Start_noop h e c (Or.inl h1))
  by_cases h2 : c.TransformState = ETS_Idle
  · exact Or.inl (Start_noop h e c (Or.inr (Or.inl h2)))
  have h1' : c.bIsTransform = false := by simpa using h1
  rcases hF : FindActorUnderCursor e c with _ | a
  · refine Or.inl (Start_noop h e c (Or.inr (Or.inr ?_)))
    simp [hF, CheckActorOnTransformationActorsInterface]
  by_cases hI : h.ImplementsInterface a = true
  · by_cases hP : c.PreviousTransformActor = some a
    · exact Or.inr (Or.inl ⟨h1', h2, Start_same h e c a h1' h2 hF hI hP⟩)
    · exact Or.inr (Or.inr ⟨h1', h2, a, hI, Start_new h e c a h1' h2 hF hI hP⟩)
  · refine Or.inl (Start_noop h e c (Or.inr (Or.inr ?_)))
    simp [hF, CheckActorOnTransformationActorsInterface, hI]

theorem TimerInv_Start (h : Host) (e : Env) (c : Component) (hW : e.World = true)
    (hinv : TimerInv c) : TimerInv (StartTransformationActor h e c).1 := by
  rcases Start_cases h e c with h0 | ⟨hT, _, h1⟩ | ⟨hT, _, a, _, h2⟩
  · rw [h0]; exact hinv
  · rw [h1]
    have hinv' : TimerInv { c with SumInputAxisValue := 0 } :=
      TimerInv_SameControl c _ (by simp [SameControl]) hinv
    exact TimerInv_StartTransformTimer h e { c with SumInputAxisValue := 0 } hW hT hinv'
  · rw [h2]
    rw [TimerInv_iff] at hinv ⊢
    simpa using hinv

theorem TimerInv_SwitchOn (e : Env) (s : ETransformState) (c : Component)
    (hinv : TimerInv c) : TimerInv (SwitchOnTransformationMode e s c).1 := by
  have hsp := SpecifyControllerAndPawn_SameControl e c
  by_cases hok : ContextResolves e ∧ s ≠ ETS_Idle ∧ c.bIsTransform = false
      ∧ c.TransformState ≠ s
  · rw [SwitchOn_changed e s c hok.1 hok.2.1 hok.2.2.1 hok.2.2.2]
    have hT := hok.2.2.1
    rw [TimerInv_idle c hT] at hinv
    obtain ⟨_, e2, _, _, e5, e6, e7⟩ := hsp
    rw [TimerInv_idle _ (by simpa [e2] using hT)]
    simpa [e5, e6, e7] using hinv
  · rw [SwitchOn_unchanged e s c hok]
    exact TimerInv_SameControl c _ hsp hinv

theorem SwitchOff_idle (h : Host) (e : Env) (c : Component)
    (hS : c.TransformState = ETS_Idle) : SwitchOffTransformationMode h e c = (c, []) := by
  simp [SwitchOffTransformationMode, hS]

theorem SwitchOff_result (h : Host) (e : Env) (c : Component)
    (hS : c.TransformState ≠ ETS_Idle) :
    (SwitchOffTransformationMode h e c).1.TransformState = ETS_Idle
      ∧ (SwitchOffTransformationMode h e c).1.TransformActor = none
      ∧ (SwitchOffTransformationMode h e c).1.PreviousTransformActor = none
      ∧ (SwitchOffTransformationMode h e c).1.bIsTransform = false := by
  have hf := Stop_flag h e c
  rw [if_pos hS] at hf
  cases hT : c.bIsTransform <;>
    simp [SwitchOffTransformationMode, ResetTransform, hS, hT, hf]

theorem TimerInv_SwitchOff (h : Host) (e : Env) (c : Component) (hW : e.World = true)
    (hinv : TimerInv c) : TimerInv (SwitchOffTransformationMode h e c).1 := by
  by_cases hS : c.TransformState = ETS_Idle
  · rw [SwitchOff_idle h e c hS]; exact hinv
  · have hst := TimerInv_Stop h e c hW hinv
    have hf := Stop_flag h e c
    rw [if_pos hS] at hf
    rw [TimerInv_idle _ hf] at hst
    rw [TimerInv_idle _ (SwitchOff_result h e c hS).2.2.2]
    cases hT : c.bIsTransform
    · rw [TimerInv_idle c hT] at hinv
      simpa [SwitchOffTransformationMode, ResetTransform, hS, hT] using hinv
    · simpa [SwitchOffTransformationMode, ResetTransform, hS, hT] using hst

/-! ## Invariants of the transition system -/

theorem IsInitial_Constructor : IsInitial Constructor := by
  simp [IsInitial, Constructor]

theorem SelInv_SameControl (c c' : Component) (hs : SameControl c c') (hinv : SelInv c) :
    SelInv c' := by
  obtain ⟨e1, e2, e3, e4, _⟩ := hs
  unfold SelInv at hinv ⊢
  rw [e1, e2, e3, e4]
  exact hinv

theorem SelInv_SwitchOn (e : Env) (s : ETransformState) (c : Component)
    (hinv : SelInv c) : SelInv (SwitchOnTransformationMode e s c).1 := by
  have hsp := SpecifyControllerAndPawn_SameControl e c
  have hinv2 := SelInv_SameControl c _ hsp hinv
  by_cases hok : ContextResolves e ∧ s ≠ ETS_Idle ∧ c.bIsTransform = false
      ∧ c.TransformState ≠ s
  · rw [SwitchOn_changed e s c hok.1 hok.2.1 hok.2.2.1 hok.2.2.2]
    exact ⟨hinv2.1, fun hI => absurd hI hok.2.1⟩
  · rw [SwitchOn_unchanged e s c hok]
    exact hinv2

theorem SelInv_Start (h : Host) (e : Env) (c : Component) (hinv : SelInv c) :
    SelInv (StartTransformationActor h e c).1 := by
  rcases Start_cases h e c with h0 | ⟨_, hS, h1⟩ | ⟨_, hS, a, _, h2⟩
  · rw [h0]; exact hinv
  · rw [h1]
    obtain ⟨k1, k2, _⟩ :=
      StartTransformTimer_keeps h e c.TransformState { c with SumInputAxisValue := 0 }
    have k3 :=
      StartTransformTimer_Previous h e c.TransformState { c with SumInputAxisValue := 0 }
    unfold SelInv
    rw [k1, k2, k3]
    exact ⟨hinv.1, fun hI => absurd hI hS⟩
  · rw [h2]
    exact ⟨rfl, fun hI => absurd hI hS⟩

theorem SelInv_Stop (h : Host) (e : Env) (c : Component) (hinv : SelInv c) :
    SelInv (StopTransformationActor h e c).1 := by
  obtain ⟨k1, k2, k3⟩ := Stop_keeps h e c
  have k4 := Stop_flag h e c
  unfold SelInv
  rw [k1, k2, k3, k4]
  refine ⟨hinv.1, fun hI => ?_⟩
  simpa [hI] using hinv.2 hI

theorem SelInv_SwitchOff (h : Host) (e : Env) (c : Component) (hinv : SelInv c) :
    SelInv (SwitchOffTransformationMode h e c).1 := by
  by_cases hS : c.TransformState = ETS_Idle
  · rw [SwitchOff_idle h e c hS]; exact hinv
  · obtain ⟨_, k2, k3, k4⟩ := SwitchOff_result h e c hS
    unfold SelInv
    rw [k2, k3, k4]
    simp

theorem Step_inv (Inv : Component → Prop) (h : Host) (e : Env) (m m' : Machine)
    (call : Call) (hs : Step h e m call = some m')
    (hOn : ∀ s, Inv m.comp → Inv (SwitchOnTransformationMode e s m.comp).1)
    (hOff : Inv m.comp → Inv (SwitchOffTransformationMode h e m.comp).1)
    (hStart : Inv m.comp → Inv (StartTransformationActor h e m.comp).1)
    (hStop : Inv m.comp → Inv (StopTransformationActor h e m.comp).1)
    (hSame : ∀ c', SameControl m.comp c' → Inv m.comp → Inv c')
    (hinv : Inv m.comp) : Inv m'.comp := by
  cases call with
  | SwitchOn s => simp [Step] at hs; rw [← hs]; exact hOn s hinv
  | SwitchOff => simp [Step] at hs; rw [← hs]; exact hOff hinv
  | Start => simp [Step] at hs; rw [← hs]; exact hStart hinv
  | Stop => simp [Step] at hs; rw [← hs]; exact hStop hinv
  | CalcSum v =>
    simp [Step] at hs; rw [← hs]
    exact hSame _ (CalcSum_SameControl v m.comp) hinv
  | Tick k =>
    simp only [Step] at hs
    split_ifs at hs with hk
    rcases hcb : TimerCallback h e m.comp m.scene k with _ | ⟨c', sc'⟩
    · simp [hcb] at hs
    · simp [hcb] at hs
      rw [← hs]
      exact hSame _ (TimerCallback_SameControl h e m.comp c' m.scene sc' k hcb) hinv

theorem Reachable_SelInv (h : Host) (P : Env → Call → Prop) (m : Machine)
    (hm : Reachable h P m) : SelInv m.comp := by
  induction hm with
  | init c sc hc =>
    obtain ⟨h1, h2, h3, h4, _⟩ := hc
    exact ⟨by rw [h3, h4], fun _ => ⟨h3, h2⟩⟩
  | step m m' e call _ _ hs ih =>
    exact Step_inv SelInv h e m m' call hs (fun s => SelInv_SwitchOn e s m.comp)
      (SelInv_SwitchOff h e m.comp) (SelInv_Start h e m.comp) (SelInv_Stop h e m.comp)
      (fun c' hc => SelInv_SameControl m.comp c' hc) ih

theorem Reachable_TimerInv (h : Host) (P : Env → Call → Prop)
    (hP : ∀ e call, P e call → e.World = true) (m : Machine)
    (hm : Reachable h P m) : TimerInv m.comp := by
  induction hm with
  | init c sc hc =>
    obtain ⟨_, h2, _, _, h5, h6, h7⟩ := hc
    rw [TimerInv_idle c h2]
    exact ⟨h5, h6, h7⟩
  | step m m' e call _ hPe hs ih =>
    have hW := hP e call hPe
    exact Step_inv TimerInv h e m m' call hs (fun s => TimerInv_SwitchOn e s m.comp)
      (TimerInv_SwitchOff h e m.comp hW) (TimerInv_Start h e m.comp hW)
      (TimerInv_Stop h e m.comp hW) (fun c' hc => TimerInv_SameControl m.comp c' hc) ih

theorem Reachable_mono (h : Host) (P Q : Env → Call → Prop)
    (hPQ : ∀ e call, P e call → Q e call) (m : Machine) (hm : Reachable h P m) :
    Reachable h Q m := by
  induction hm with
  | init c sc hc => exact Reachable.init c sc hc
  | step m m' e call _ hPe hs ih => exact Reachable.step m m' e call ih (hPQ e call hPe) hs

theorem Reachable_Run (h : Host) (P : Env → Call → Prop) (calls : List (Env × Call)) :
    ∀ (m m' : Machine), Reachable h P m → (∀ ec ∈ calls, P ec.1 ec.2) →
      Run h m calls = some m' → Reachable h P m' := by
  induction calls with
  | nil =>
    intro m m' hm _ hr
    simp [Run] at hr
    rw [← hr]; exact hm
  | cons ec rest ih =>
    intro m m' hm hP hr
    obtain ⟨e, call⟩ := ec
    simp only [Run] at hr
    rcases hs : Step h e m call with _ | m1
    · simp [hs] at hr
    · simp only [hs] at hr
      exact ih m1 m' (Reachable.step m m1 e call hm (hP (e, call) (by simp)) hs)
        (fun ec hec => hP ec (by simp [hec])) hr

theorem Reachable_SampleAfter (P : Env → Call → Prop) (sc : Scene)
    (calls : List (Env × Call)) (hP : ∀ ec ∈ calls, P ec.1 ec.2)
    (hr : (Run SampleHost ⟨Constructor, sc, []⟩ calls).isSome = true) :
    Reachable SampleHost P (SampleAfter sc calls) := by
  rcases hrun : Run SampleHost ⟨Constructor, sc, []⟩ calls with _ | m'
  · simp [hrun] at hr
  · have : SampleAfter sc calls = m' := by simp [SampleAfter, hrun]
    rw [this]
    exact Reachable_Run SampleHost P calls _ m'
      (Reachable.init Constructor sc IsInitial_Constructor) hP hrun

/-! ## C1: idle state and selected actor -/

/-- C1, counterexample.  After `SwitchOnTransformationMode(ETS_Location)` on a fresh
component, with the controller and pawn available, the state is `ETS_Location` while no
actor is selected: "TransformActor is none" does not imply "state is Idle". -/
theorem C1_mode_on_without_actor :
    Reachable SampleHost AnyCall (SampleAfter SampleScene (CallsModeOn ETS_Location))
      ∧ (CompAfter (CallsModeOn ETS_Location)).TransformActor = none
      ∧ (CompAfter (CallsModeOn ETS_Location)).TransformState
          = ETS_Location
      ∧ ¬ ((CompAfter (CallsModeOn ETS_Location)).TransformState
              = ETS_Idle
            ↔ (CompAfter (CallsModeOn ETS_Location)).TransformActor
              = none) := by
  have hS : (CompAfter (CallsModeOn ETS_Location)).TransformState
      = ETS_Location := rfl
  have hA : (CompAfter (CallsModeOn ETS_Location)).TransformActor
      = none := rfl
  refine ⟨Reachable_SampleAfter AnyCall _ _ (fun _ _ => trivial) rfl, hA, hS, ?_⟩
  rw [hS, hA]
  simp

/-- C1, amended.  In every state reachable from an initial state (idle, not
transforming, no actor selected) by calls of the general methods and timer ticks, under
arbitrary environment responses: if `TransformState` is `ETS_Idle` then `TransformActor`
is none. -/
theorem C1_idle_has_no_actor (h : Host) (m : Machine) (hm : Reachable h AnyCall m)
    (hI : m.comp.TransformState = ETS_Idle) : m.comp.TransformActor = none :=
  ((Reachable_SelInv h AnyCall m hm).2 hI).1

/-- C1, the amended statement at a concrete run: mode on, actor 7 selected, transformation
started, mode off. -/
theorem C1_idle_has_no_actor_witness :
    Reachable SampleHost AnyCall
        (SampleAfter SampleScene
          (CallsStarted ETS_Location ++ [(SampleEnv, Call.SwitchOff)]))
      ∧ (CompAfter
          (CallsStarted ETS_Location ++ [(SampleEnv, Call.SwitchOff)])).TransformState
          = ETS_Idle
      ∧ (CompAfter
          (CallsStarted ETS_Location ++ [(SampleEnv, Call.SwitchOff)])).TransformActor
          = none :=
  ⟨Reachable_SampleAfter AnyCall _ _ (fun _ _ => trivial) rfl, rfl,
    C1_idle_has_no_actor SampleHost _
      (Reachable_SampleAfter AnyCall _ _ (fun _ _ => trivial) rfl) rfl⟩

/-! ## C2: at most one timer, and it is the one of the current state -/

theorem TimerOf_ne_none (s : ETransformState) (hs : s ≠ ETS_Idle) :
    ∃ k, TimerOf s = some k := by
  cases s <;> simp [TimerOf] at hs ⊢

theorem Reachable_CallsSelected (s : ETransformState) :
    Reachable SampleHost ModeCallWithWorld (SampleAfter SampleScene (CallsSelected s)) := by
  refine Reachable_SampleAfter ModeCallWithWorld _ _ ?_ (by cases s <;> rfl)
  intro ec hec
  simp only [CallsSelected, List.mem_cons, List.mem_singleton, List.not_mem_nil,
    or_false] at hec
  rcases hec with rfl | rfl
  · exact ⟨rfl, Or.inl ⟨_, rfl⟩⟩
  · exact ⟨rfl, Or.inr (Or.inr (Or.inl rfl))⟩

/-- C2.  In every state reachable through `SwitchOnTransformationMode`,
`SwitchOffTransformationMode`, `StartTransformationActor` and `StopTransformationActor`
with the world available: a timer that is set is the timer of the current state, so at
most one timer is set; and when `StartTransformationActor` starts the transformation,
exactly the timer of the current state is set afterwards. -/
theorem C2_one_timer_matching_state (h : Host) (m : Machine)
    (hm : Reachable h ModeCallWithWorld m) :
    (∀ k, TimerActive m.comp k = true → TimerOf m.comp.TransformState = some k)
      ∧ (∀ k1 k2, TimerActive m.comp k1 = true → TimerActive m.comp k2 = true → k1 = k2)
      ∧ (∀ e : Env, e.World = true → m.comp.bIsTransform = false →
          (StartTransformationActor h e m.comp).1.bIsTransform = true →
          ∃ k, TimerOf (StartTransformationActor h e m.comp).1.TransformState = some k
            ∧ ∀ k', TimerActive (StartTransformationActor h e m.comp).1 k' = true
                ↔ k' = k) := by
  have hinv : TimerInv m.comp :=
    Reachable_TimerInv h ModeCallWithWorld (fun _ _ hP => hP.1) m hm
  have hmatch : ∀ k, TimerActive m.comp k = true → TimerOf m.comp.TransformState = some k :=
    fun k hk => ((hinv k).1 hk).2
  refine ⟨hmatch, ?_, ?_⟩
  · intro k1 k2 h1 h2
    have e1 := hmatch k1 h1
    have e2 := hmatch k2 h2
    rw [e1] at e2
    exact Option.some.inj e2
  · intro e hW hT hT'
    have hinv' := TimerInv_Start h e m.comp hW hinv
    have hS : (StartTransformationActor h e m.comp).1.TransformState ≠ ETS_Idle := by
      rcases Start_cases h e m.comp with h0 | ⟨_, hS, h1⟩ | ⟨_, _, a, _, h2⟩
      · rw [h0] at hT'; rw [hT] at hT'; exact absurd hT' (by simp)
      · rw [h1, (StartTransformTimer_keeps h e _ _).1]; exact hS
      · rw [h2] at hT'; simp [hT] at hT'
    obtain ⟨k, hk⟩ := TimerOf_ne_none _ hS
    refine ⟨k, hk, fun k' => ?_⟩
    rw [hinv' k', hk]
    constructor
    · intro hh; exact (Option.some.inj hh.2).symm
    · intro hh; exact ⟨hT', by rw [hh]⟩

/-- C2 at a concrete run: in location mode with actor 7 selected, the next
`StartTransformationActor` sets the location timer and no other. -/
theorem C2_one_timer_matching_state_witness :
    Reachable SampleHost ModeCallWithWorld
        (SampleAfter SampleScene (CallsSelected ETS_Location))
      ∧ ∃ k, TimerOf (StartTransformationActor SampleHost SampleEnv
            (CompAfter (CallsSelected ETS_Location))).1.TransformState
            = some k
          ∧ ∀ k', TimerActive (StartTransformationActor SampleHost SampleEnv
              (CompAfter (CallsSelected ETS_Location))).1 k' = true
              ↔ k' = k :=
  ⟨Reachable_CallsSelected ETS_Location,
    (C2_one_timer_matching_state SampleHost _
      (Reachable_CallsSelected ETS_Location)).2.2 SampleEnv rfl rfl rfl⟩

/-! ## C3: the scale floor -/

theorem ScaleActor_first (h : Host) (e : Env) (c : Component) (sc : Scene) (a : ℕ)
    (x y : ℚ) (hPC : c.PlayerController ≠ none) (hM : e.MousePosition = some (x, y))
    (hA : c.TransformActor = some a) (hL : c.bIsLockFirstIterationScaleTimer = false) :
    ScaleActor h e c sc
      = some ({ c with LocationXAtClick := x, LocationYAtClick := y,
                       Scale3DSave := sc.ActorScale3D a,
                       bIsLockFirstIterationScaleTimer := true,
                       NewScale3D := sc.ActorScale3D a },
              sc.SetActorScale3D a (sc.ActorScale3D a)) := by
  simp [ScaleActor, hPC, hM, hA, hL]

theorem ScaleActor_first_inv (h : Host) (e : Env) (c : Component) (sc : Scene) (a : ℕ)
    (hPC : c.PlayerController ≠ none) (hM : e.MousePosition ≠ none)
    (hA : c.TransformActor = some a) (hL : c.bIsLockFirstIterationScaleTimer = false)
    (hSp : 0 ≤ c.ScaleSpeed) (hAb : FVector.AllAbove (sc.ActorScale3D a) c.MinScale) :
    ∃ c' sc', ScaleActor h e c sc = some (c', sc')
      ∧ ScaleSessionInv a c.MinScale c' sc' := by
  rcases hM' : e.MousePosition with _ | ⟨x, y⟩
  · exact absurd hM' hM
  · refine ⟨_, _, ScaleActor_first h e c sc a x y hPC hM' hA hL, ?_⟩
    simp [ScaleSessionInv, hA, hPC, hSp, hAb, Scene.SetActorScale3D]

theorem ScaleActor_next_inv (h : Host) (hSqrt : ∀ q, 0 ≤ h.Sqrt q) (e : Env)
    (c : Component) (sc : Scene) (a : ℕ) (Min : ℚ) (hM : e.MousePosition ≠ none)
    (hinv : ScaleSessionInv a Min c sc) :
    ∃ c' sc', ScaleActor h e c sc = some (c', sc') ∧ ScaleSessionInv a Min c' sc' := by
  obtain ⟨hA, hPC, hL, hMin, hSp, hSave, hNew, hSc⟩ := hinv
  rcases hM' : e.MousePosition with _ | ⟨x, y⟩
  · exact absurd hM' hM
  have hd : 0 ≤ h.Sqrt (|x - c.LocationXAtClick| * |x - c.LocationXAtClick|
      + |y - c.LocationYAtClick| * |y - c.LocationYAtClick|) * c.ScaleSpeed :=
    mul_nonneg (hSqrt _) hSp
  obtain ⟨s1, s2, s3⟩ := hSave
  obtain ⟨n1, n2, n3⟩ := hNew
  rcases hres : ScaleActor h e c sc with _ | ⟨c', sc'⟩
  · simp [ScaleActor, hPC, hM', hA] at hres
  refine ⟨c', sc', rfl, ?_⟩
  simp only [ScaleActor, hPC, hM', hA, hL, Bool.true_eq_false, if_false] at hres
  rcases lt_trichotomy y c.LocationYAtClick with hlt | heq | hgt
  · have hn1 : ¬ y > c.LocationYAtClick := not_lt.mpr hlt.le
    have hn2 : ¬ y = c.LocationYAtClick := ne_of_lt hlt
    simp only [hlt, hn1, hn2, if_true, if_false, Option.some.injEq, Prod.mk.injEq] at hres
    obtain ⟨rfl, rfl⟩ := hres
    refine ⟨rfl, hPC, rfl, hMin, hSp, ⟨s1, s2, s3⟩, ⟨?_, ?_, ?_⟩, ?_⟩
    · show Min < c.Scale3DSave.X + _; linarith
    · show Min < c.Scale3DSave.Y + _; linarith
    · show Min < c.Scale3DSave.Z + _; linarith
    · simp only [Scene.SetActorScale3D, Function.update_same]
  · subst heq
    simp only [lt_irrefl, gt_iff_lt, if_true, if_false, Option.some.injEq,
      Prod.mk.injEq] at hres
    obtain ⟨rfl, rfl⟩ := hres
    refine ⟨hA, hPC, hL, hMin, hSp, ⟨s1, s2, s3⟩, ⟨s1, s2, s3⟩, ?_⟩
    simp only [Scene.SetActorScale3D, Function.update_same]
  · have hn1 : ¬ y < c.LocationYAtClick := not_lt.mpr hgt.le
    have hn2 : ¬ y = c.LocationYAtClick := ne_of_gt hgt
    simp only [hn1, hn2, hgt, if_true, if_false] at hres
    split_ifs at hres with hrej
    · simp only [Option.some.injEq, Prod.mk.injEq] at hres
      obtain ⟨rfl, rfl⟩ := hres
      refine ⟨hA, hPC, hL, hMin, hSp, ⟨s1, s2, s3⟩, ⟨n1, n2, n3⟩, ?_⟩
      simp only [Scene.SetActorScale3D, Function.update_same]
    · simp only [Option.some.injEq, Prod.mk.injEq] at hres
      obtain ⟨rfl, rfl⟩ := hres
      rw [not_or, not_or, not_le, not_le, not_le, hMin] at hrej
      refine ⟨hA, hPC, hL, hMin, hSp, ⟨s1, s2, s3⟩, ⟨hrej.1, hrej.2.1, hrej.2.2⟩, ?_⟩
      simp only [Scene.SetActorScale3D, Function.update_same]

theorem ScaleTicks_inv (h : Host) (hSqrt : ∀ q, 0 ≤ h.Sqrt q) (a : ℕ) (Min : ℚ)
    (envs : List Env) :
    ∀ (c : Component) (sc : Scene), (∀ e ∈ envs, e.MousePosition ≠ none) →
      ScaleSessionInv a Min c sc →
      ∃ c' sc', ScaleTicks h envs c sc = some (c', sc') ∧ ScaleSessionInv a Min c' sc' := by
  induction envs with
  | nil => intro c sc _ hinv; exact ⟨c, sc, rfl, hinv⟩
  | cons e es ih =>
    intro c sc hM hinv
    obtain ⟨c1, sc1, h1, hinv1⟩ :=
      ScaleActor_next_inv h hSqrt e c sc a Min (hM e (by simp)) hinv
    obtain ⟨c2, sc2, h2, hinv2⟩ := ih c1 sc1 (fun e' he' => hM e' (by simp [he'])) hinv1
    exact ⟨c2, sc2, by simp [ScaleTicks, h1, h2], hinv2⟩

/-- C3, counterexample.  A fresh component (`MinScale` = 1/100) in a level where actor 7
has scale (1/200, 1/200, 1/200): scale mode on, actor 7 selected, transformation
started, one successful `ScaleActor` tick.  The tick ran (the first-tick flag is set) and
the actor keeps its scale, which is not above `MinScale`. -/
theorem C3_scale_below_floor_after_tick :
    (Run SampleHost ⟨Constructor, SampleSceneTiny, []⟩
        (CallsStarted ETS_Scale ++ [(SampleEnv, Call.Tick TimerKind.Scale)])).isSome = true
      ∧ (SampleAfter SampleSceneTiny (CallsStarted ETS_Scale
          ++ [(SampleEnv, Call.Tick TimerKind.Scale)])).comp.bIsLockFirstIterationScaleTimer
          = true
      ∧ (SampleAfter SampleSceneTiny (CallsStarted ETS_Scale
          ++ [(SampleEnv, Call.Tick TimerKind.Scale)])).comp.TransformActor = some 7
      ∧ (SampleAfter SampleSceneTiny (CallsStarted ETS_Scale
          ++ [(SampleEnv, Call.Tick TimerKind.Scale)])).comp.MinScale = 1 / 100
      ∧ (SampleAfter SampleSceneTiny (CallsStarted ETS_Scale
          ++ [(SampleEnv, Call.Tick TimerKind.Scale)])).scene.ActorScale3D 7
          = ⟨1 / 200, 1 / 200, 1 / 200⟩
      ∧ ¬ FVector.AllAbove
          ((SampleAfter SampleSceneTiny (CallsStarted ETS_Scale
            ++ [(SampleEnv, Call.Tick TimerKind.Scale)])).scene.ActorScale3D 7)
          (SampleAfter SampleSceneTiny (CallsStarted ETS_Scale
            ++ [(SampleEnv, Call.Tick TimerKind.Scale)])).comp.MinScale := by
  have hsc : (SampleAfter SampleSceneTiny (CallsStarted ETS_Scale
      ++ [(SampleEnv, Call.Tick TimerKind.Scale)])).scene.ActorScale3D 7
      = ⟨1 / 200, 1 / 200, 1 / 200⟩ := rfl
  have hmin : (SampleAfter SampleSceneTiny (CallsStarted ETS_Scale
      ++ [(SampleEnv, Call.Tick TimerKind.Scale)])).comp.MinScale = 1 / 100 := rfl
  refine ⟨rfl, rfl, rfl, hmin, hsc, ?_⟩
  rw [hsc, hmin]
  norm_num [FVector.AllAbove]

/-- C3, amended.  Within one scale session (target selected, controller present,
first-tick flag cleared): if every axis of the target's scale at the first tick is
strictly greater than `MinScale`, `ScaleSpeed` is not negative and the engine's square
root is not negative, then after any sequence of one or more successful `ScaleActor`
ticks, for every sequence of pointer coordinates, every axis of the target's scale is
strictly greater than `MinScale`. -/
theorem C3_scale_floor_conditional (h : Host) (hSqrt : ∀ q, 0 ≤ h.Sqrt q) (c : Component)
    (sc : Scene) (a : ℕ) (e : Env) (envs : List Env)
    (hA : c.TransformActor = some a) (hPC : c.PlayerController ≠ none)
    (hL : c.bIsLockFirstIterationScaleTimer = false) (hSp : 0 ≤ c.ScaleSpeed)
    (hAb : FVector.AllAbove (sc.ActorScale3D a) c.MinScale)
    (hM : ∀ e' ∈ e :: envs, e'.MousePosition ≠ none) :
    ∃ c' sc', ScaleTicks h (e :: envs) c sc = some (c', sc')
      ∧ c'.MinScale = c.MinScale
      ∧ FVector.AllAbove (sc'.ActorScale3D a) c.MinScale := by
  obtain ⟨c1, sc1, h1, hinv1⟩ :=
    ScaleActor_first_inv h e c sc a hPC (hM e (by simp)) hA hL hSp hAb
  obtain ⟨c2, sc2, h2, hinv2⟩ :=
    ScaleTicks_inv h hSqrt a c.MinScale envs c1 sc1 (fun e' he' => hM e' (by simp [he']))
      hinv1
  refine ⟨c2, sc2, by simp [ScaleTicks, h1, h2], hinv2.2.2.2.1, ?_⟩
  rw [hinv2.2.2.2.2.2.2.2]
  exact hinv2.2.2.2.2.2.2.1

theorem SampleHost_Sqrt_nonneg : ∀ q, 0 ≤ SampleHost.Sqrt q := fun _ =>
  div_nonneg (Nat.cast_nonneg _) (Nat.cast_nonneg _)

/-- C3, the amended statement at a concrete session: actor 7 with scale (1, 1, 1), first
tick at (100, 100), second tick at (100, 150). -/
theorem C3_scale_floor_conditional_witness :
    (∀ q, 0 ≤ SampleHost.Sqrt q)
      ∧ (CompAfter (CallsStarted ETS_Scale)).TransformActor = some 7
      ∧ (CompAfter (CallsStarted ETS_Scale)).PlayerController ≠ none
      ∧ (CompAfter (CallsStarted ETS_Scale)).bIsLockFirstIterationScaleTimer = false
      ∧ 0 ≤ (CompAfter (CallsStarted ETS_Scale)).ScaleSpeed
      ∧ FVector.AllAbove (SampleScene.ActorScale3D 7)
          (CompAfter (CallsStarted ETS_Scale)).MinScale
      ∧ ∃ c' sc', ScaleTicks SampleHost [SampleEnv, SampleEnvMouseDown]
            (CompAfter (CallsStarted ETS_Scale)) SampleScene
            = some (c', sc')
          ∧ c'.MinScale = (CompAfter (CallsStarted ETS_Scale)).MinScale
          ∧ FVector.AllAbove (sc'.ActorScale3D 7)
              (CompAfter (CallsStarted ETS_Scale)).MinScale := by
  have hA : (CompAfter (CallsStarted ETS_Scale)).TransformActor
      = some 7 := rfl
  have hPC : (CompAfter (CallsStarted ETS_Scale)).PlayerController
      ≠ none := by
    have : (CompAfter (CallsStarted ETS_Scale)).PlayerController
        = some 0 := rfl
    rw [this]; simp
  have hSp : 0 ≤ (CompAfter (CallsStarted ETS_Scale)).ScaleSpeed := by
    have : (CompAfter (CallsStarted ETS_Scale)).ScaleSpeed
        = 15 / 1000 := rfl
    rw [this]; norm_num
  have hAb : FVector.AllAbove (SampleScene.ActorScale3D 7)
      (CompAfter (CallsStarted ETS_Scale)).MinScale := by
    have : (CompAfter (CallsStarted ETS_Scale)).MinScale
        = 1 / 100 := rfl
    rw [this]; norm_num [FVector.AllAbove, SampleScene]
  have hM : ∀ e' ∈ [SampleEnv, SampleEnvMouseDown], e'.MousePosition ≠ none := by
    intro e' he'
    simp only [List.mem_cons, List.mem_singleton, List.not_mem_nil, or_false] at he'
    rcases he' with rfl | rfl <;> simp [SampleEnv, SampleEnvMouseDown]
  exact ⟨SampleHost_Sqrt_nonneg, hA, hPC, rfl, hSp, hAb,
    C3_scale_floor_conditional SampleHost SampleHost_Sqrt_nonneg _ SampleScene 7 SampleEnv
      [SampleEnvMouseDown] hA hPC rfl hSp hAb hM⟩

/-! ## C4, C5: what `StartTransformationActor` does with a capable actor -/

/-- C4, counterexample.  In location mode, not transforming, nothing selected before,
actor 7 (which implements the interface) under the cursor, everything available: after
`StartTransformationActor` actor 7 is selected, but the transforming flag is still
false, no timer is set and the only event is `HighlightOn` on actor 7. -/
theorem C4_new_actor_is_only_selected :
    (CompAfter (CallsModeOn ETS_Location)).TransformState = ETS_Location
      ∧ (CompAfter (CallsModeOn ETS_Location)).bIsTransform = false
      ∧ (CompAfter (CallsModeOn ETS_Location)).PreviousTransformActor
          = none
      ∧ FindActorUnderCursor SampleEnv
          (CompAfter (CallsModeOn ETS_Location)) = some 7
      ∧ SampleHost.ImplementsInterface 7 = true
      ∧ (StartTransformationActor SampleHost SampleEnv
          (CompAfter (CallsModeOn ETS_Location))).1.TransformActor
          = some 7
      ∧ (StartTransformationActor SampleHost SampleEnv
          (CompAfter (CallsModeOn ETS_Location))).1.bIsTransform = false
      ∧ (StartTransformationActor SampleHost SampleEnv
          (CompAfter (CallsModeOn ETS_Location))).1.LocationTimer = false
      ∧ (StartTransformationActor SampleHost SampleEnv
          (CompAfter (CallsModeOn ETS_Location))).2
          = [Event.Execute_HighlightOn 7] :=
  ⟨rfl, rfl, rfl, rfl, rfl, rfl, rfl, rfl, rfl⟩

/-- C4, amended.  When `StartTransformationActor` is called in a non-idle state while not
transforming and the actor under the cursor implements the interface and differs from
the previous actor, then after the call the new actor is both `TransformActor` and
`PreviousTransformActor` and `SumInputAxisValue` is 0; the state, the transforming flag
(false) and the timers are unchanged; the events are `HighlightOff` on the previous
actor (if there is one and it implements the interface) followed by `HighlightOn` on the
new actor, so neither `OnStartTransformationActor` nor `StartTransformation` is fired. -/
theorem C4_new_actor_selected_not_started (h : Host) (e : Env) (c : Component) (a : ℕ)
    (hT : c.bIsTransform = false) (hS : c.TransformState ≠ ETS_Idle)
    (hF : FindActorUnderCursor e c = some a) (hI : h.ImplementsInterface a = true)
    (hP : c.PreviousTransformActor ≠ some a) :
    (StartTransformationActor h e c).1.TransformActor = some a
      ∧ (StartTransformationActor h e c).1.PreviousTransformActor = some a
      ∧ (StartTransformationActor h e c).1.SumInputAxisValue = 0
      ∧ (StartTransformationActor h e c).1.TransformState = c.TransformState
      ∧ (StartTransformationActor h e c).1.bIsTransform = false
      ∧ (∀ k, TimerActive (StartTransformationActor h e c).1 k = TimerActive c k)
      ∧ (StartTransformationActor h e c).2
          = HighlightOff_TransformationActorsInterface h c.PreviousTransformActor
              ++ [Event.Execute_HighlightOn a]
      ∧ Event.OnStartTransformationActor ∉ (StartTransformationActor h e c).2
      ∧ ∀ x, Event.Execute_StartTransformation x ∉ (StartTransformationActor h e c).2 := by
  rw [Start_new h e c a hT hS hF hI hP]
  refine ⟨rfl, rfl, rfl, rfl, hT, fun k => by cases k <;> rfl, rfl, ?_, ?_⟩
  · rcases hp : c.PreviousTransformActor with _ | p
    · simp [HighlightOff_TransformationActorsInterface]
    · by_cases hIp : h.ImplementsInterface p = true <;>
        simp [HighlightOff_TransformationActorsInterface, hIp]
  · intro x
    rcases hp : c.PreviousTransformActor with _ | p
    · simp [HighlightOff_TransformationActorsInterface]
    · by_cases hIp : h.ImplementsInterface p = true <;>
        simp [HighlightOff_TransformationActorsInterface, hIp]

/-- C4, the amended statement at a concrete call: location mode, actor 7 selected, actor 8
under the cursor. -/
theorem C4_new_actor_selected_not_started_witness :
    (CompAfter (CallsSelected ETS_Location)).bIsTransform = false
      ∧ (CompAfter (CallsSelected ETS_Location)).TransformState
          ≠ ETS_Idle
      ∧ FindActorUnderCursor { SampleEnv with HitResultUnderCursor := some (some 8) }
          (CompAfter (CallsSelected ETS_Location)) = some 8
      ∧ SampleHost.ImplementsInterface 8 = true
      ∧ (CompAfter (CallsSelected ETS_Location)).PreviousTransformActor
          ≠ some 8
      ∧ (StartTransformationActor SampleHost
            { SampleEnv with HitResultUnderCursor := some (some 8) }
            (CompAfter (CallsSelected ETS_Location))).1.bIsTransform
          = false
      ∧ (StartTransformationActor SampleHost
            { SampleEnv with HitResultUnderCursor := some (some 8) }
            (CompAfter (CallsSelected ETS_Location))).2
          = [Event.Execute_HighlightOff 7, Event.Execute_HighlightOn 8] := by
  have hS : (CompAfter (CallsSelected ETS_Location)).TransformState
      ≠ ETS_Idle := by
    have : (CompAfter (CallsSelected ETS_Location)).TransformState
        = ETS_Location := rfl
    rw [this]; simp
  have hP : (CompAfter (CallsSelected ETS_Location)).PreviousTransformActor ≠ some 8 := by
    have : (CompAfter (CallsSelected ETS_Location)).PreviousTransformActor = some 7 := rfl
    rw [this]; simp
  have key := C4_new_actor_selected_not_started SampleHost
    { SampleEnv with HitResultUnderCursor := some (some 8) }
    (CompAfter (CallsSelected ETS_Location)) 8 rfl hS rfl rfl hP
  exact ⟨rfl, hS, rfl, rfl, hP, key.2.2.2.2.1, rfl⟩

/-- C5, counterexample.  (1) First pick: in location mode with no previous actor and
actor 7 under the cursor, `StartTransformationActor` fires `HighlightOn` on actor 7 and
no `HighlightOff` at all.  (2) Same actor, no world: with actor 7 selected and picked
again while `GetWorld()` is null, the transforming flag becomes true but no timer is
set. -/
theorem C5_first_pick_and_missing_world :
    ((CompAfter (CallsModeOn ETS_Location)).PreviousTransformActor = none
        ∧ (StartTransformationActor SampleHost SampleEnv
            (CompAfter (CallsModeOn ETS_Location))).2 = [Event.Execute_HighlightOn 7]
        ∧ ∀ x, Event.Execute_HighlightOff x ∉ (StartTransformationActor SampleHost SampleEnv
            (CompAfter (CallsModeOn ETS_Location))).2)
      ∧ ((CompAfter (CallsSelected ETS_Location)).PreviousTransformActor = some 7
        ∧ FindActorUnderCursor SampleEnvNoWorld (CompAfter (CallsSelected ETS_Location))
            = some 7
        ∧ (StartTransformationActor SampleHost SampleEnvNoWorld
            (CompAfter (CallsSelected ETS_Location))).1.bIsTransform = true
        ∧ ∀ k, TimerActive (StartTransformationActor SampleHost SampleEnvNoWorld
            (CompAfter (CallsSelected ETS_Location))).1 k = false) := by
  have hev : (StartTransformationActor SampleHost SampleEnv
      (CompAfter (CallsModeOn ETS_Location))).2 = [Event.Execute_HighlightOn 7] := rfl
  refine ⟨⟨rfl, hev, fun x => ?_⟩, rfl, rfl, rfl, fun k => by cases k <;> rfl⟩
  rw [hev]
  simp

/-- C5, amended.  For `StartTransformationActor` called in a non-idle state while not
transforming with an actor under the cursor that implements the interface: if it equals
the previous actor, the transforming flag becomes true, no `HighlightOn` or
`HighlightOff` is executed on any actor, and the timer of the current state is set
provided the world is available; if it differs from the previous actor, `HighlightOn`
is executed on it, and `HighlightOff` is executed on the previous actor when there is
one and it implements the interface. -/
theorem C5_resume_or_reselect (h : Host) (e : Env) (c : Component) (a : ℕ)
    (hT : c.bIsTransform = false) (hS : c.TransformState ≠ ETS_Idle)
    (hF : FindActorUnderCursor e c = some a) (hI : h.ImplementsInterface a = true) :
    (c.PreviousTransformActor = some a →
        (StartTransformationActor h e c).1.bIsTransform = true
        ∧ (∀ x, Event.Execute_HighlightOn x ∉ (StartTransformationActor h e c).2
            ∧ Event.Execute_HighlightOff x ∉ (StartTransformationActor h e c).2)
        ∧ (e.World = true → ∀ k, TimerOf c.TransformState = some k →
            TimerActive (StartTransformationActor h e c).1 k = true))
      ∧ (c.PreviousTransformActor ≠ some a →
        Event.Execute_HighlightOn a ∈ (StartTransformationActor h e c).2
        ∧ ∀ p, c.PreviousTransformActor = some p → h.ImplementsInterface p = true →
            Event.Execute_HighlightOff p ∈ (StartTransformationActor h e c).2) := by
  constructor
  · intro hP
    rw [Start_same h e c a hT hS hF hI hP]
    refine ⟨StartTransformTimer_flag h e _ _ hS, fun x => ?_, fun hW k hk => ?_⟩
    · rw [StartTransformTimer_events h e _ _ hS]
      rcases hA : c.TransformActor with _ | t
      · simp [StartTransformation_TransformationActorsInterface]
      · by_cases hIt : h.ImplementsInterface t = true <;>
          simp [StartTransformation_TransformationActorsInterface, hIt]
    · cases hS2 : c.TransformState <;>
        simp [hS2, TimerOf] at hk hS <;> subst hk <;>
        simp [StartTransformTimer, StartLocationTimer, StartRotationTimer, StartScaleTimer,
          IsRotationState, TimerActive, hS2, hW]
  · intro hP
    rw [Start_new h e c a hT hS hF hI hP]
    refine ⟨by simp, fun p hp hIp => ?_⟩
    simp [HighlightOff_TransformationActorsInterface, hp, hIp]

/-- C5, the amended statement at a concrete call: location mode, actor 7 selected and
picked again, everything available. -/
theorem C5_resume_or_reselect_witness :
    (CompAfter (CallsSelected ETS_Location)).bIsTransform = false
      ∧ (CompAfter (CallsSelected ETS_Location)).TransformState ≠ ETS_Idle
      ∧ FindActorUnderCursor SampleEnv (CompAfter (CallsSelected ETS_Location)) = some 7
      ∧ SampleHost.ImplementsInterface 7 = true
      ∧ (CompAfter (CallsSelected ETS_Location)).PreviousTransformActor = some 7
      ∧ (StartTransformationActor SampleHost SampleEnv
          (CompAfter (CallsSelected ETS_Location))).1.bIsTransform = true
      ∧ TimerActive (StartTransformationActor SampleHost SampleEnv
          (CompAfter (CallsSelected ETS_Location))).1 TimerKind.Location = true := by
  have hS : (CompAfter (CallsSelected ETS_Location)).TransformState ≠ ETS_Idle := by
    have : (CompAfter (CallsSelected ETS_Location)).TransformState = ETS_Location := rfl
    rw [this]; simp
  have key := (C5_resume_or_reselect SampleHost SampleEnv
    (CompAfter (CallsSelected ETS_Location)) 7 rfl hS rfl rfl).1 rfl
  exact ⟨rfl, hS, rfl, rfl, rfl, key.1, key.2.2 rfl TimerKind.Location rfl⟩

/-! ## C6, C7: `StopTransformationActor` -/

/-- C6.  `StopTransformationActor` is idempotent on the component: for every component
and every environment, the component after two calls in a row equals the component
after one call; the same holds when the environment of the second call differs, as long
as the world is not available in the second call only. -/
theorem C6_Stop_idempotent (h : Host) (e : Env) (c : Component) :
    (StopTransformationActor h e (StopTransformationActor h e c).1).1
        = (StopTransformationActor h e c).1
      ∧ ∀ e2 : Env, (e2.World = true → e.World = true) →
          (StopTransformationActor h e2 (StopTransformationActor h e c).1).1
            = (StopTransformationActor h e c).1 := by
  constructor
  · cases hS : c.TransformState <;> cases hW : e.World <;>
      simp [StopTransformationActor, StopLocationTimer, StopRotationTimer, StopScaleTimer,
        IsRotationState, hS, hW]
  · intro e2 hW2
    cases hS : c.TransformState <;> cases hW : e.World <;> cases hW' : e2.World <;>
      simp [StopTransformationActor, StopLocationTimer, StopRotationTimer, StopScaleTimer,
        IsRotationState, hS, hW, hW'] at hW2 ⊢

/-- C7, counterexample.  In location mode with actor 7 selected but not transforming
(the transformation was never started), `StopTransformationActor` fires
`OnStopTransformationActor` and executes `StopTransformation` on actor 7. -/
theorem C7_Stop_notifies_when_not_transforming :
    (CompAfter (CallsSelected ETS_Location)).bIsTransform = false
      ∧ (StopTransformationActor SampleHost SampleEnv
          (CompAfter (CallsSelected ETS_Location))).2
          = [Event.OnStopTransformationActor, Event.Execute_StopTransformation 7] :=
  ⟨rfl, rfl⟩

/-- C7, amended.  `StopTransformationActor` fires `OnStopTransformationActor` if and only
if the state is not `ETS_Idle` when it is called, whatever the transforming flag; it
executes `StopTransformation` on an actor if and only if moreover that actor is the
`TransformActor` and implements the interface; in `ETS_Idle` it fires nothing.  In every
reachable state in which the transforming flag is set, it fires
`OnStopTransformationActor`. -/
theorem C7_Stop_notifies_iff_not_idle (h : Host) (e : Env) (c : Component) :
    (Event.OnStopTransformationActor ∈ (StopTransformationActor h e c).2
        ↔ c.TransformState ≠ ETS_Idle)
      ∧ (∀ a, Event.Execute_StopTransformation a ∈ (StopTransformationActor h e c).2
          ↔ (c.TransformState ≠ ETS_Idle ∧ c.TransformActor = some a
              ∧ h.ImplementsInterface a = true))
      ∧ (c.TransformState = ETS_Idle → (StopTransformationActor h e c).2 = [])
      ∧ (∀ m : Machine, Reachable h AnyCall m → m.comp.bIsTransform = true →
          ∀ e' : Env, Event.OnStopTransformationActor
            ∈ (StopTransformationActor h e' m.comp).2) := by
  rw [Stop_events]
  refine ⟨?_, fun a => ?_, fun hI => by simp [hI], fun m hm hT e' => ?_⟩
  · by_cases hS : c.TransformState = ETS_Idle <;> simp [hS]
  · by_cases hS : c.TransformState = ETS_Idle
    · simp [hS]
    · rcases hA : c.TransformActor with _ | t
      · simp [hS, StopTransformation_TransformationActorsInterface]
      · by_cases hIt : h.ImplementsInterface t = true
        · simp only [hS, StopTransformation_TransformationActorsInterface, hIt, ne_eq,
            not_false_eq_true, if_true, List.mem_cons, List.mem_singleton, reduceCtorEq,
            false_or, Event.Execute_StopTransformation.injEq, Option.some.injEq, true_and,
            List.not_mem_nil, or_false]
          constructor
          · intro hh; subst hh; exact ⟨rfl, hIt⟩
          · intro hh; exact hh.1.symm
        · simp only [hS, StopTransformation_TransformationActorsInterface, hIt, ne_eq,
            not_false_eq_true, if_true, List.mem_cons, List.mem_singleton, reduceCtorEq,
            false_or, Option.some.injEq, true_and, Bool.false_eq_true, if_false,
            List.not_mem_nil]
          constructor
          · intro hh; exact hh.elim
          · intro hh; rw [← hh.1] at hh; exact hIt hh.2
  · rw [Stop_events]
    have hinv := (Reachable_SelInv h AnyCall m hm).2
    have hS : m.comp.TransformState ≠ ETS_Idle := by
      intro hI
      have := (hinv hI).2
      rw [hT] at this
      exact absurd this (by simp)
    simp [hS]

/-! ## C8: after `StopTransformationActor` -/

theorem SqrtSearch_25 : SqrtSearch 25 25 0 = 5 := by decide

theorem SqrtSearch_1 : SqrtSearch 1 1 0 = 1 := by decide

theorem SwitchOn_keeps (e : Env) (s : ETransformState) (c : Component) :
    (SwitchOnTransformationMode e s c).1.TransformActor = c.TransformActor
      ∧ (SwitchOnTransformationMode e s c).1.PreviousTransformActor
          = c.PreviousTransformActor
      ∧ (SwitchOnTransformationMode e s c).1.bIsTransform = c.bIsTransform := by
  obtain ⟨_, e2, e3, e4, _⟩ := SpecifyControllerAndPawn_SameControl e c
  by_cases hok : ContextResolves e ∧ s ≠ ETS_Idle ∧ c.bIsTransform = false
      ∧ c.TransformState ≠ s
  · rw [SwitchOn_changed e s c hok.1 hok.2.1 hok.2.2.1 hok.2.2.2]
    exact ⟨e3, e4, e2⟩
  · rw [SwitchOn_unchanged e s c hok]
    exact ⟨e3, e4, e2⟩

theorem Stop_lock (h : Host) (e : Env) (c : Component) (k : TimerKind)
    (hk : TimerOf c.TransformState = some k) :
    LockFlag (StopTransformationActor h e c).1 k = false := by
  cases hS : c.TransformState <;> cases hW : e.World <;>
    simp [hS, TimerOf] at hk <;> subst hk <;>
    simp [StopTransformationActor, StopLocationTimer, StopRotationTimer, StopScaleTimer,
      IsRotationState, LockFlag, hS, hW]

theorem TimerInv_quiet (c : Component) (hinv : TimerInv c) (hT : c.bIsTransform = false)
    (k : TimerKind) : TimerActive c k = false := by
  rw [TimerInv_idle c hT] at hinv
  cases k
  · exact hinv.1
  · exact hinv.2.1
  · exact hinv.2.2

theorem QuietRun_quiet (h : Host) (m m2 : Machine) (hm : Reachable h WithWorld m)
    (hT : m.comp.bIsTransform = false) (hq : QuietRun h m m2) :
    Reachable h WithWorld m2 ∧ m2.comp.bIsTransform = false ∧ m2.scene = m.scene := by
  induction hq with
  | refl => exact ⟨hm, hT, rfl⟩
  | step m1 m3 e call _ hW hno hs ih =>
    obtain ⟨hr1, hT1, hsc1⟩ := ih
    refine ⟨Reachable.step m1 m3 e call hr1 hW hs, ?_⟩
    cases call with
    | SwitchOn s =>
      simp [Step] at hs; rw [← hs]
      exact ⟨by rw [(SwitchOn_keeps e s m1.comp).2.2]; exact hT1, hsc1⟩
    | SwitchOff =>
      simp [Step] at hs; rw [← hs]
      refine ⟨?_, hsc1⟩
      by_cases hS : m1.comp.TransformState = ETS_Idle
      · rw [SwitchOff_idle h e m1.comp hS]; exact hT1
      · exact (SwitchOff_result h e m1.comp hS).2.2.2
    | Start =>
      simp [Step] at hs; rw [← hs]
      refine ⟨?_, hsc1⟩
      cases hb : (StartTransformationActor h e m1.comp).1.bIsTransform
      · rfl
      · exact absurd ⟨rfl, hb⟩ hno
    | Stop =>
      simp [Step] at hs; rw [← hs]
      refine ⟨?_, hsc1⟩
      rw [Stop_flag]
      split_ifs
      · rfl
      · exact hT1
    | CalcSum v =>
      simp [Step] at hs; rw [← hs]
      exact ⟨by rw [(CalcSum_SameControl v m1.comp).2.1]; exact hT1, hsc1⟩
    | Tick k =>
      have hk := TimerInv_quiet m1.comp
        (Reachable_TimerInv h WithWorld (fun _ _ hP => hP) m1 hr1) hT1 k
      simp [Step, hk] at hs

/-- C8, counterexample.  Location mode, actor 7 selected, transformation started (all
with the world available), then `StopTransformationActor` while `GetWorld()` is null:
the transforming flag is cleared but the location timer is still set, and its next
callback moves actor 7 from (3, 4, 0) to (77/20, 23/10, 0). -/
theorem C8_timer_survives_Stop_without_world :
    Reachable SampleHost AnyCall
        (SampleAfter SampleScene
          (CallsStarted ETS_Location ++ [(SampleEnvNoWorld, Call.Stop)]))
      ∧ (CompAfter (CallsStarted ETS_Location
          ++ [(SampleEnvNoWorld, Call.Stop)])).bIsTransform = false
      ∧ TimerActive (CompAfter (CallsStarted ETS_Location
          ++ [(SampleEnvNoWorld, Call.Stop)])) TimerKind.Location = true
      ∧ (SampleAfter SampleScene (CallsStarted ETS_Location
          ++ [(SampleEnvNoWorld, Call.Stop)])).scene.ActorLocation 7 = ⟨3, 4, 0⟩
      ∧ (Step SampleHost SampleEnv
            (SampleAfter SampleScene
              (CallsStarted ETS_Location ++ [(SampleEnvNoWorld, Call.Stop)]))
            (Call.Tick TimerKind.Location)).map (fun m => m.scene.ActorLocation 7)
          = some ⟨77 / 20, 23 / 10, 0⟩ := by
  refine ⟨Reachable_SampleAfter AnyCall _ _ (fun _ _ => trivial) rfl, rfl, rfl, rfl, ?_⟩
  have hm : SampleAfter SampleScene
      (CallsStarted ETS_Location ++ [(SampleEnvNoWorld, Call.Stop)])
      = ⟨{ Constructor with
            TransformState := ETS_Location
            PlayerController := some 0
            PlayerPawn := some 1
            TransformActor := some 7
            PreviousTransformActor := some 7
            LocationTimer := true },
          SampleScene,
          (SampleAfter SampleScene
            (CallsStarted ETS_Location ++ [(SampleEnvNoWorld, Call.Stop)])).trace⟩ := rfl
  rw [hm]
  simp [Step, TimerActive, TimerCallback, LocationActor, Constructor, SampleEnv, SampleScene,
    Distance, SampleHost, FVector.DistSquared, Scene.SetActorLocation, FVector.add,
    FVector.scale, FVector.sub]
  norm_num [SqrtSearch_25, SqrtSearch_1]

/-- C8, amended.  In every state reachable with the world available at every call,
after `StopTransformationActor` returns (the world being available) no timer is set,
the transforming flag is false and the first-tick flag of the current state is false;
and from there on, as long as no call starts a transformation and the world stays
available, the level is unchanged and no timer tick can happen. -/
theorem C8_Stop_cancels_with_world (h : Host) (m : Machine) (hm : Reachable h WithWorld m)
    (e : Env) (hW : e.World = true) (mS : Machine)
    (hS : Step h e m Call.Stop = some mS) :
    (∀ k, TimerActive mS.comp k = false)
      ∧ mS.comp.bIsTransform = false
      ∧ (∀ k, TimerOf mS.comp.TransformState = some k → LockFlag mS.comp k = false)
      ∧ ∀ m2, QuietRun h mS m2 →
          m2.scene = mS.scene ∧ ∀ (e2 : Env) (k : TimerKind),
            Step h e2 m2 (Call.Tick k) = none := by
  have hrS : Reachable h WithWorld mS := Reachable.step m mS e Call.Stop hm hW hS
  have hinvS := Reachable_TimerInv h WithWorld (fun _ _ hP => hP) mS hrS
  have hcomp : mS.comp = (StopTransformationActor h e m.comp).1 := by
    simp [Step] at hS; rw [← hS]
  have hTS : mS.comp.bIsTransform = false := by
    rw [hcomp, Stop_flag]
    split_ifs with hI
    · rfl
    · have hI' : m.comp.TransformState = ETS_Idle := by simpa using hI
      exact ((Reachable_SelInv h WithWorld m hm).2 hI').2
  refine ⟨TimerInv_quiet mS.comp hinvS hTS, hTS, fun k hk => ?_, fun m2 hq => ?_⟩
  · rw [hcomp] at hk ⊢
    rw [(Stop_keeps h e m.comp).1] at hk
    exact Stop_lock h e m.comp k hk
  · obtain ⟨hr2, hT2, hsc2⟩ := QuietRun_quiet h mS m2 hrS hTS hq
    refine ⟨hsc2, fun e2 k => ?_⟩
    have hk := TimerInv_quiet m2.comp
      (Reachable_TimerInv h WithWorld (fun _ _ hP => hP) m2 hr2) hT2 k
    simp [Step, hk]

/-- C8, the amended statement at a concrete run: location mode, actor 7 selected,
transformation started, then stopped, everything available. -/
theorem C8_Stop_cancels_with_world_witness :
    Reachable SampleHost WithWorld (SampleAfter SampleScene (CallsStarted ETS_Location))
      ∧ SampleEnv.World = true
      ∧ Step SampleHost SampleEnv (SampleAfter SampleScene (CallsStarted ETS_Location))
          Call.Stop
          = some (SampleAfter SampleScene
              (CallsStarted ETS_Location ++ [(SampleEnv, Call.Stop)]))
      ∧ (∀ k, TimerActive (CompAfter
          (CallsStarted ETS_Location ++ [(SampleEnv, Call.Stop)])) k = false)
      ∧ (CompAfter (CallsStarted ETS_Location ++ [(SampleEnv, Call.Stop)])).bIsTransform
          = false
      ∧ ∀ (e2 : Env) (k : TimerKind),
          Step SampleHost e2
            (SampleAfter SampleScene (CallsStarted ETS_Location ++ [(SampleEnv, Call.Stop)]))
            (Call.Tick k) = none := by
  have hr : Reachable SampleHost WithWorld
      (SampleAfter SampleScene (CallsStarted ETS_Location)) := by
    refine Reachable_SampleAfter WithWorld _ _ ?_ rfl
    intro ec hec
    simp only [CallsStarted, List.mem_cons, List.mem_singleton, List.not_mem_nil,
      or_false] at hec
    rcases hec with rfl | rfl | rfl <;> rfl
  have key := C8_Stop_cancels_with_world SampleHost _ hr SampleEnv rfl
    (SampleAfter SampleScene (CallsStarted ETS_Location ++ [(SampleEnv, Call.Stop)])) rfl
  exact ⟨hr, rfl, rfl, key.1, key.2.1, (key.2.2.2 _ QuietRun.refl).2⟩

/-! ## C9: no capable actor under the cursor -/

/-- C9.  If the ray-pick returns no actor (the hit test fails or the hit has no actor),
or returns an actor that does not implement the interface, `StartTransformationActor`
returns the component unchanged and produces no event; the machine is unchanged. -/
theorem C9_Start_without_capable_actor (h : Host) (e : Env) (m : Machine)
    (hpick : e.HitResultUnderCursor = none ∨ e.HitResultUnderCursor = some none
      ∨ ∃ a, e.HitResultUnderCursor = some (some a) ∧ h.ImplementsInterface a = false) :
    StartTransformationActor h e m.comp = (m.comp, [])
      ∧ Step h e m Call.Start = some m := by
  have hstart : StartTransformationActor h e m.comp = (m.comp, []) := by
    apply Start_noop
    right; right
    rcases hpick with hp | hp | ⟨a, hp, hI⟩ <;>
      by_cases hPC : m.comp.PlayerController = none <;>
      simp [FindActorUnderCursor, CheckActorOnTransformationActorsInterface, hp, hPC, *]
  refine ⟨hstart, ?_⟩
  simp [Step, hstart]

/-- C9 at a concrete call: location mode, actor 3 (which does not implement the
interface) under the cursor. -/
theorem C9_Start_without_capable_actor_witness :
    (SampleEnvPlainActor.HitResultUnderCursor = none
        ∨ SampleEnvPlainActor.HitResultUnderCursor = some none
        ∨ ∃ a, SampleEnvPlainActor.HitResultUnderCursor = some (some a)
            ∧ SampleHost.ImplementsInterface a = false)
      ∧ StartTransformationActor SampleHost SampleEnvPlainActor
          (CompAfter (CallsModeOn ETS_Location))
          = (CompAfter (CallsModeOn ETS_Location), [])
      ∧ (CompAfter (CallsModeOn ETS_Location)).TransformState = ETS_Location :=
  ⟨Or.inr (Or.inr ⟨3, rfl, rfl⟩),
    (C9_Start_without_capable_actor SampleHost SampleEnvPlainActor
      (SampleAfter SampleScene (CallsModeOn ETS_Location))
      (Or.inr (Or.inr ⟨3, rfl, rfl⟩))).1, rfl⟩

/-! ## C10: `SwitchOnTransformationMode` -/

/-- C10.  `SwitchOnTransformationMode(mode)` sets `TransformState` to `mode`, switches
the input mode to game-and-UI and fires `OnSwitchOnTransformationMode` exactly once when
the controller and pawn context resolves, `mode` is not `ETS_Idle`, the component is not
transforming and the current state differs from `mode`; otherwise `TransformState` is
unchanged and there is no event at all.  In every case the selected actor, the previous
actor and the transforming flag are unchanged. -/
theorem C10_SwitchOn_spec (e : Env) (s : ETransformState) (c : Component) :
    ((ContextResolves e ∧ s ≠ ETS_Idle ∧ c.bIsTransform = false ∧ c.TransformState ≠ s) →
        (SwitchOnTransformationMode e s c).1.TransformState = s
        ∧ (SwitchOnTransformationMode e s c).2
            = [Event.SetInputMode EInputMode.GameAndUI true,
                Event.OnSwitchOnTransformationMode])
      ∧ (¬ (ContextResolves e ∧ s ≠ ETS_Idle ∧ c.bIsTransform = false
            ∧ c.TransformState ≠ s) →
        (SwitchOnTransformationMode e s c).1.TransformState = c.TransformState
        ∧ (SwitchOnTransformationMode e s c).2 = [])
      ∧ (SwitchOnTransformationMode e s c).1.TransformActor = c.TransformActor
      ∧ (SwitchOnTransformationMode e s c).1.PreviousTransformActor
          = c.PreviousTransformActor
      ∧ (SwitchOnTransformationMode e s c).1.bIsTransform = c.bIsTransform := by
  refine ⟨fun hok => ?_, fun hno => ?_, SwitchOn_keeps e s c⟩
  · rw [SwitchOn_changed e s c hok.1 hok.2.1 hok.2.2.1 hok.2.2.2]
    exact ⟨rfl, rfl⟩
  · rw [SwitchOn_unchanged e s c hno]
    exact ⟨(SpecifyControllerAndPawn_SameControl e c).1, rfl⟩

/-! ## C11: `SwitchOffTransformationMode` -/

theorem SwitchOff_events (h : Host) (e : Env) (c : Component)
    (hS : c.TransformState ≠ ETS_Idle) :
    (SwitchOffTransformationMode h e c).2
      = SetInputModeGameOnly c
          ++ (if c.bIsTransform = true then
                Event.OnStopTransformationActor ::
                  StopTransformation_TransformationActorsInterface h c.TransformActor
              else [])
          ++ HighlightOff_TransformationActorsInterface h c.TransformActor
          ++ [Event.OnSwitchOffTransformationMode] := by
  have hk := (Stop_keeps h e c).2.1
  have he := Stop_events h e c
  rw [if_pos hS] at he
  cases hT : c.bIsTransform <;>
    simp [SwitchOffTransformationMode, ResetTransform, hS, hT, hk, he]

theorem SwitchOff_count (h : Host) (e : Env) (c : Component)
    (hS : c.TransformState ≠ ETS_Idle) :
    List.count Event.OnSwitchOffTransformationMode (SwitchOffTransformationMode h e c).2
      = 1 := by
  rw [SwitchOff_events h e c hS]
  rcases hA : c.TransformActor with _ | a <;> rcases hPC : c.PlayerController with _ | pc <;>
    cases hT : c.bIsTransform <;>
    simp [SetInputModeGameOnly, StopTransformation_TransformationActorsInterface,
      HighlightOff_TransformationActorsInterface, List.count_cons, List.count_append] <;>
    split_ifs <;> simp

/-- C11, counterexample.  Location mode, actor 7 selected and its transformation started
(all with the world available), then `SwitchOffTransformationMode` while `GetWorld()` is
null: the state is `ETS_Idle`, no actor is selected and the transforming flag is cleared,
but the location timer is still set. -/
theorem C11_timer_survives_SwitchOff_without_world :
    Reachable SampleHost AnyCall
        (SampleAfter SampleScene
          (CallsStarted ETS_Location ++ [(SampleEnvNoWorld, Call.SwitchOff)]))
      ∧ (CompAfter (CallsStarted ETS_Location)).TransformState = ETS_Location
      ∧ (CompAfter (CallsStarted ETS_Location
          ++ [(SampleEnvNoWorld, Call.SwitchOff)])).TransformState = ETS_Idle
      ∧ (CompAfter (CallsStarted ETS_Location
          ++ [(SampleEnvNoWorld, Call.SwitchOff)])).TransformActor = none
      ∧ (CompAfter (CallsStarted ETS_Location
          ++ [(SampleEnvNoWorld, Call.SwitchOff)])).bIsTransform = false
      ∧ TimerActive (CompAfter (CallsStarted ETS_Location
          ++ [(SampleEnvNoWorld, Call.SwitchOff)])) TimerKind.Location = true :=
  ⟨Reachable_SampleAfter AnyCall _ _ (fun _ _ => trivial) rfl, rfl, rfl, rfl, rfl, rfl⟩

theorem SwitchOff_events_literal (h : Host) (e : Env) (c : Component)
    (hS : c.TransformState ≠ ETS_Idle) :
    (SwitchOffTransformationMode h e c).2
      = (if c.PlayerController ≠ none then [Event.SetInputMode EInputMode.GameOnly false]
          else [])
        ++ (if c.bIsTransform = true then
              Event.OnStopTransformationActor ::
                (match c.TransformActor with
                  | none => []
                  | some a =>
                    if h.ImplementsInterface a = true then
                      [Event.Execute_StopTransformation a]
                    else [])
            else [])
        ++ (match c.TransformActor with
            | none => []
            | some a =>
              if h.ImplementsInterface a = true then [Event.Execute_HighlightOff a] else [])
        ++ [Event.OnSwitchOffTransformationMode] := by
  rw [SwitchOff_events h e c hS]
  rfl

theorem SwitchOff_stop_mem (h : Host) (e : Env) (c : Component)
    (hS : c.TransformState ≠ ETS_Idle) :
    Event.OnStopTransformationActor ∈ (SwitchOffTransformationMode h e c).2
      ↔ c.bIsTransform = true := by
  rw [SwitchOff_events h e c hS]
  rcases hA : c.TransformActor with _ | a <;> rcases hPC : c.PlayerController with _ | pc <;>
    cases hT : c.bIsTransform <;>
    simp [SetInputModeGameOnly, StopTransformation_TransformationActorsInterface,
      HighlightOff_TransformationActorsInterface]

/-- C11, amended.  `SwitchOffTransformationMode` called in `ETS_Idle` returns the
component unchanged and produces no event.  Called in any other state it ends in
`ETS_Idle` with no selected actor, no previous actor and the transforming flag cleared,
and `OnSwitchOffTransformationMode` occurs exactly once, as the last event; its events
are, in this order: `SetInputMode(GameOnly)` when a controller is set; when the
component was transforming, `OnStopTransformationActor` and the `StopTransformation`
call on the selected actor (when it implements the interface); the `HighlightOff` call
on the selected actor (when it implements the interface); `OnSwitchOffTransformationMode`.
`OnStopTransformationActor` occurs exactly when the component was transforming.  In
every state reachable with the world available at every call, and the world available in
this call, no timer is set afterwards. -/
theorem C11_SwitchOff_spec (h : Host) (e : Env) (c : Component) :
    (c.TransformState = ETS_Idle → SwitchOffTransformationMode h e c = (c, []))
      ∧ (c.TransformState ≠ ETS_Idle →
        (SwitchOffTransformationMode h e c).1.TransformState = ETS_Idle
        ∧ (SwitchOffTransformationMode h e c).1.TransformActor = none
        ∧ (SwitchOffTransformationMode h e c).1.PreviousTransformActor = none
        ∧ (SwitchOffTransformationMode h e c).1.bIsTransform = false
        ∧ (SwitchOffTransformationMode h e c).2
            = (if c.PlayerController ≠ none then
                [Event.SetInputMode EInputMode.GameOnly false]
              else [])
              ++ (if c.bIsTransform = true then
                    Event.OnStopTransformationActor ::
                      (match c.TransformActor with
                        | none => []
                        | some a =>
                          if h.ImplementsInterface a = true then
                            [Event.Execute_StopTransformation a]
                          else [])
                  else [])
              ++ (match c.TransformActor with
                  | none => []
                  | some a =>
                    if h.ImplementsInterface a = true then [Event.Execute_HighlightOff a]
                    else [])
              ++ [Event.OnSwitchOffTransformationMode]
        ∧ List.count Event.OnSwitchOffTransformationMode
            (SwitchOffTransformationMode h e c).2 = 1
        ∧ (Event.OnStopTransformationActor ∈ (SwitchOffTransformationMode h e c).2
            ↔ c.bIsTransform = true))
      ∧ (∀ m : Machine, Reachable h WithWorld m → m.comp = c → e.World = true →
          c.TransformState ≠ ETS_Idle →
          ∀ k, TimerActive (SwitchOffTransformationMode h e c).1 k = false) := by
  refine ⟨SwitchOff_idle h e c, fun hS => ?_, fun m hm hc hW hS k => ?_⟩
  · obtain ⟨r1, r2, r3, r4⟩ := SwitchOff_result h e c hS
    exact ⟨r1, r2, r3, r4, SwitchOff_events_literal h e c hS, SwitchOff_count h e c hS,
      SwitchOff_stop_mem h e c hS⟩
  · subst hc
    have hinv := Reachable_TimerInv h WithWorld (fun _ _ hP => hP) m hm
    exact TimerInv_quiet _ (TimerInv_SwitchOff h e m.comp hW hinv)
      (SwitchOff_result h e m.comp hS).2.2.2 k

theorem RotationActor_Deltas_keeps (x y : ℚ) (c : Component) :
    (RotationActor_Deltas x y c).TransformActor = c.TransformActor
      ∧ (RotationActor_Deltas x y c).bSweep = c.bSweep
      ∧ (RotationActor_Deltas x y c).TransformState = c.TransformState := by
  unfold RotationActor_Deltas
  split_ifs <;> exact ⟨rfl, rfl, rfl⟩

theorem RotationActor_eq (h : Host) (e : Env) (c : Component) (sc : Scene) (x y : ℚ)
    (hC : CheckControllerAndPawn c = true) (hM : e.MousePosition = some (x, y)) :
    RotationActor h e c sc
      = match RotationActor_DeltaRotationQ h e (RotationActor_Deltas x y c) with
        | none => some (RotationActor_Deltas x y c, sc)
        | some q =>
          match (RotationActor_Deltas x y c).TransformActor with
          | none => none
          | some a =>
            some (RotationActor_Deltas x y c,
              sc.AddActorWorldRotation h a q (RotationActor_Deltas x y c).bSweep) := by
  unfold RotationActor
  simp only [hC, hM, Bool.true_eq_false, if_false]
  rfl

theorem RotationActor_Deltas_state (x y : ℚ) (c : Component) (s : ETransformState) :
    RotationActor_Deltas x y { c with TransformState := s }
      = { RotationActor_Deltas x y c with TransformState := s } := by
  unfold RotationActor_Deltas
  split_ifs <;> rfl

theorem RotationActor_DeltaRotationQ_eq (h : Host) (e : Env) (c : Component) :
    RotationActor_DeltaRotationQ h e c
      = match c.TransformState with
        | ETS_Rotation_Roll => some (RotationActor_QRoll h e c)
        | ETS_Rotation_Pitch => some (RotationActor_QPitch h e c)
        | ETS_Rotation_Yaw => some (RotationActor_QYaw h e c)
        | ETS_Rotation_YawPitch =>
          some (h.QuatMul (RotationActor_QPitch h e c) (RotationActor_QYaw h e c))
        | _ => none := rfl

theorem RotationActor_applies (h : Host) (e : Env) (c : Component) (sc : Scene)
    (x y : ℚ) (q : FQuat) (a : ℕ)
    (hq : RotationActor_DeltaRotationQ h e (RotationActor_Deltas x y c) = some q)
    (hC : CheckControllerAndPawn c = true) (hM : e.MousePosition = some (x, y))
    (hA : c.TransformActor = some a) :
    RotationActor h e c sc
      = some (RotationActor_Deltas x y c, sc.AddActorWorldRotation h a q c.bSweep) := by
  obtain ⟨k1, k2, _⟩ := RotationActor_Deltas_keeps x y c
  rw [hA] at k1
  rw [RotationActor_eq h e c sc x y hC hM, hq, k2]
  simp only [k1]

/-- C12.  For every pointer sample and every baseline, the increment `RotationActor`
applies in the state `ETS_Rotation_YawPitch` is the quaternion product of the Pitch
increment and the Yaw increment, in that order, these being the quaternions the same
tick applies in the states `ETS_Rotation_Pitch` and `ETS_Rotation_Yaw` for the same
inputs; the states `ETS_Rotation_Roll`, `ETS_Rotation_Pitch` and `ETS_Rotation_Yaw`
apply their own quaternion unchanged. -/
theorem C12_YawPitch_is_Pitch_times_Yaw (h : Host) (e : Env) (c : Component) (x y : ℚ) :
    RotationActor_DeltaRotationQ h e
        (RotationActor_Deltas x y { c with TransformState := ETS_Rotation_Roll })
        = some (RotationActor_QRoll h e (RotationActor_Deltas x y c))
      ∧ RotationActor_DeltaRotationQ h e
          (RotationActor_Deltas x y { c with TransformState := ETS_Rotation_Pitch })
          = some (RotationActor_QPitch h e (RotationActor_Deltas x y c))
      ∧ RotationActor_DeltaRotationQ h e
          (RotationActor_Deltas x y { c with TransformState := ETS_Rotation_Yaw })
          = some (RotationActor_QYaw h e (RotationActor_Deltas x y c))
      ∧ RotationActor_DeltaRotationQ h e
          (RotationActor_Deltas x y { c with TransformState := ETS_Rotation_YawPitch })
          = some (h.QuatMul (RotationActor_QPitch h e (RotationActor_Deltas x y c))
              (RotationActor_QYaw h e (RotationActor_Deltas x y c)))
      ∧ ∀ (s : ETransformState) (q : FQuat) (sc : Scene) (a : ℕ),
          RotationActor_DeltaRotationQ h e
              (RotationActor_Deltas x y { c with TransformState := s }) = some q →
          CheckControllerAndPawn c = true → e.MousePosition = some (x, y) →
          c.TransformActor = some a →
          RotationActor h e { c with TransformState := s } sc
            = some (RotationActor_Deltas x y { c with TransformState := s },
                sc.AddActorWorldRotation h a q c.bSweep) := by
  refine ⟨?_, ?_, ?_, ?_, ?_⟩
  · rw [RotationActor_Deltas_state]; rfl
  · rw [RotationActor_Deltas_state]; rfl
  · rw [RotationActor_Deltas_state]; rfl
  · rw [RotationActor_Deltas_state]; rfl
  · intro s q sc a hq hC hM hA
    exact RotationActor_applies h e { c with TransformState := s } sc x y q a hq hC hM hA

/-! ## C13: the first rotation tick -/

theorem Start_started (h : Host) (e : Env) (c : Component)
    (hT : c.bIsTransform = false)
    (hT1 : (StartTransformationActor h e c).1.bIsTransform = true) :
    ∃ a, FindActorUnderCursor e c = some a ∧ h.ImplementsInterface a = true
      ∧ c.PreviousTransformActor = some a ∧ c.TransformState ≠ ETS_Idle
      ∧ StartTransformationActor h e c
          = StartTransformTimer h e c.TransformState { c with SumInputAxisValue := 0 } := by
  by_cases hS : c.TransformState = ETS_Idle
  · rw [Start_noop h e c (Or.inr (Or.inl hS)), hT] at hT1
    exact absurd hT1 (by simp)
  rcases hF : FindActorUnderCursor e c with _ | a
  · rw [Start_noop h e c (Or.inr (Or.inr (by
      simp [hF, CheckActorOnTransformationActorsInterface]))), hT] at hT1
    exact absurd hT1 (by simp)
  by_cases hI : h.ImplementsInterface a = true
  · by_cases hP : c.PreviousTransformActor = some a
    · exact ⟨a, rfl, hI, hP, hS, Start_same h e c a hT hS hF hI hP⟩
    · rw [Start_new h e c a hT hS hF hI hP] at hT1
      simp [hT] at hT1
  · rw [Start_noop h e c (Or.inr (Or.inr (by
      simp [hF, CheckActorOnTransformationActorsInterface, hI]))), hT] at hT1
    exact absurd hT1 (by simp)

theorem StartTransformTimer_lock (h : Host) (e : Env) (s : ETransformState)
    (c : Component) (k : TimerKind) (hk : TimerOf s = some k) :
    LockFlag (StartTransformTimer h e s c).1 k = false := by
  cases s <;> cases hW : e.World <;>
    simp [TimerOf] at hk <;> subst hk <;>
    simp [StartTransformTimer, StartLocationTimer, StartRotationTimer, StartScaleTimer,
      IsRotationState, LockFlag, hW]

theorem StartTransformTimer_timer (h : Host) (e : Env) (s : ETransformState)
    (c : Component) (k : TimerKind) (hW : e.World = true) (hk : TimerOf s = some k) :
    TimerActive (StartTransformTimer h e s c).1 k = true := by
  cases s <;>
    simp [TimerOf] at hk <;> subst hk <;>
    simp [StartTransformTimer, StartLocationTimer, StartRotationTimer, StartScaleTimer,
      IsRotationState, TimerActive, hW]

theorem StartTransformTimer_context (h : Host) (e : Env) (s : ETransformState)
    (c : Component) :
    (StartTransformTimer h e s c).1.PlayerController = c.PlayerController
      ∧ (StartTransformTimer h e s c).1.PlayerPawn = c.PlayerPawn := by
  cases s <;> cases hW : e.World <;>
    simp [StartTransformTimer, StartLocationTimer, StartRotationTimer, StartScaleTimer,
      IsRotationState, hW]

theorem TimerOf_rotation (s : ETransformState) (hR : IsRotationState s) :
    TimerOf s = some TimerKind.Rotation := by
  rcases hR with rfl | rfl | rfl | rfl <;> rfl

theorem Scene_AddActorWorldRotation_identity (h : Host) (hlaws : EngineRotationLaws h)
    (sc : Scene) (a : ℕ) (bSweep : Bool) :
    sc.AddActorWorldRotation h a FQuat.Identity bSweep = sc := by
  obtain ⟨_, _, l3, l4⟩ := hlaws
  cases bSweep <;> simp [Scene.AddActorWorldRotation, l3, l4]

theorem RotationActor_first (h : Host) (hlaws : EngineRotationLaws h) (e : Env)
    (c : Component) (sc : Scene) (x y : ℚ) (a : ℕ)
    (hL : c.bIsLockFirstIterationRotationTimer = false)
    (hR : IsRotationState c.TransformState)
    (hC : CheckControllerAndPawn c = true) (hM : e.MousePosition = some (x, y))
    (hA : c.TransformActor = some a) :
    RotationActor h e c sc = some (RotationActor_Deltas x y c, sc)
      ∧ (RotationActor_Deltas x y c).RollSave = x
      ∧ (RotationActor_Deltas x y c).PitchSave = y
      ∧ (RotationActor_Deltas x y c).YawSave = x
      ∧ (RotationActor_Deltas x y c).DeltaRollDegree = 0
      ∧ (RotationActor_Deltas x y c).DeltaPitchDegree = 0
      ∧ (RotationActor_Deltas x y c).DeltaYawDegree = 0
      ∧ (RotationActor_Deltas x y c).bIsLockFirstIterationRotationTimer = true
      ∧ RotationActor_DeltaRotationQ h e (RotationActor_Deltas x y c)
          = some FQuat.Identity := by
  have hl := hlaws
  obtain ⟨l1, l2, l3, _⟩ := hl
  have d1 : (RotationActor_Deltas x y c).DeltaRollDegree = 0 := by
    simp [RotationActor_Deltas, hL, CalcDeltaYaw, CalcDeltaPitch, CalcDeltaRoll]
  have d2 : (RotationActor_Deltas x y c).DeltaPitchDegree = 0 := by
    simp [RotationActor_Deltas, hL, CalcDeltaYaw, CalcDeltaPitch, CalcDeltaRoll]
  have d3 : (RotationActor_Deltas x y c).DeltaYawDegree = 0 := by
    simp [RotationActor_Deltas, hL, CalcDeltaYaw, CalcDeltaPitch, CalcDeltaRoll]
  have hq : RotationActor_DeltaRotationQ h e (RotationActor_Deltas x y c)
      = some FQuat.Identity := by
    rw [RotationActor_DeltaRotationQ_eq, (RotationActor_Deltas_keeps x y c).2.2]
    rcases hR with hs | hs | hs | hs <;>
      simp [hs, RotationActor_QRoll, RotationActor_QPitch, RotationActor_QYaw, d1, d2, d3,
        l1, l2, l3]
  refine ⟨?_, ?_, ?_, ?_, d1, d2, d3, ?_, hq⟩
  · rw [RotationActor_applies h e c sc x y _ a hq hC hM hA,
      Scene_AddActorWorldRotation_identity h hlaws]
  · simp [RotationActor_Deltas, hL, CalcDeltaYaw, CalcDeltaPitch, CalcDeltaRoll]
  · simp [RotationActor_Deltas, hL, CalcDeltaYaw, CalcDeltaPitch, CalcDeltaRoll]
  · simp [RotationActor_Deltas, hL, CalcDeltaYaw, CalcDeltaPitch, CalcDeltaRoll]
  · simp [RotationActor_Deltas, hL, CalcDeltaYaw, CalcDeltaPitch, CalcDeltaRoll]

theorem Step_Start_comp (h : Host) (e : Env) (m m1 : Machine)
    (hs : Step h e m Call.Start = some m1) :
    m1.comp = (StartTransformationActor h e m.comp).1 ∧ m1.scene = m.scene := by
  simp [Step] at hs
  rw [← hs]
  exact ⟨rfl, rfl⟩

theorem Start_started_session (h : Host) (m : Machine) (hm : Reachable h AnyCall m)
    (e : Env) (hT : m.comp.bIsTransform = false)
    (hT1 : (StartTransformationActor h e m.comp).1.bIsTransform = true) :
    ∃ a, (StartTransformationActor h e m.comp).1.TransformActor = some a
      ∧ (StartTransformationActor h e m.comp).1.PlayerController ≠ none
      ∧ (StartTransformationActor h e m.comp).1.TransformState = m.comp.TransformState
      ∧ (StartTransformationActor h e m.comp).1.SumInputAxisValue = 0
      ∧ (∀ k, TimerOf m.comp.TransformState = some k →
          LockFlag (StartTransformationActor h e m.comp).1 k = false
          ∧ (e.World = true → TimerActive (StartTransformationActor h e m.comp).1 k = true))
      := by
  obtain ⟨a, hF, _, hP, _, hst⟩ := Start_started h e m.comp hT hT1
  rw [hst]
  obtain ⟨k1, k2, k3⟩ :=
    StartTransformTimer_keeps h e m.comp.TransformState
      { m.comp with SumInputAxisValue := 0 }
  obtain ⟨k4, _⟩ :=
    StartTransformTimer_context h e m.comp.TransformState
      { m.comp with SumInputAxisValue := 0 }
  have hsel := (Reachable_SelInv h AnyCall m hm).1
  refine ⟨a, ?_, ?_, k1, k3, fun k hk => ⟨?_, fun hW => ?_⟩⟩
  · rw [k2]
    show m.comp.TransformActor = some a
    rw [hsel, hP]
  · rw [k4]
    show m.comp.PlayerController ≠ none
    intro hnone
    simp [FindActorUnderCursor, hnone] at hF
  · exact StartTransformTimer_lock h e _ _ k hk
  · exact StartTransformTimer_timer h e _ _ k hW hk

/-- C13.  On the first successful `RotationActor` tick after a
`StartTransformationActor` that starts the rotation timer, in any reachable state and
whatever `RollSave`, `PitchSave`, `YawSave` were before: the tick happens, the saves are
the current pointer coordinates (x, y, x), the three deltas are zero, the first-tick
flag is set, the increment is the identity rotation and the level is unchanged.  The
engine routines are assumed to satisfy `EngineRotationLaws`. -/
theorem C13_first_rotation_tick (h : Host) (hlaws : EngineRotationLaws h) (m : Machine)
    (hm : Reachable h AnyCall m) (e0 : Env) (hW : e0.World = true)
    (hT : m.comp.bIsTransform = false) (hR : IsRotationState m.comp.TransformState)
    (m1 : Machine) (hs : Step h e0 m Call.Start = some m1)
    (hT1 : m1.comp.bIsTransform = true) (e1 : Env) (x y : ℚ)
    (hM : e1.MousePosition = some (x, y)) (hC : CheckControllerAndPawn m1.comp = true) :
    ∃ m2, Step h e1 m1 (Call.Tick TimerKind.Rotation) = some m2
      ∧ m2.comp.RollSave = x ∧ m2.comp.PitchSave = y ∧ m2.comp.YawSave = x
      ∧ m2.comp.DeltaRollDegree = 0 ∧ m2.comp.DeltaPitchDegree = 0
      ∧ m2.comp.DeltaYawDegree = 0
      ∧ m2.comp.bIsLockFirstIterationRotationTimer = true
      ∧ RotationActor_DeltaRotationQ h e1 m2.comp = some FQuat.Identity
      ∧ m2.scene = m1.scene := by
  obtain ⟨hc1, _⟩ := Step_Start_comp h e0 m m1 hs
  rw [hc1] at hT1
  obtain ⟨a, hA, _, hSt, _, hk⟩ := Start_started_session h m hm e0 hT hT1
  obtain ⟨hL, hTimer⟩ := hk TimerKind.Rotation (TimerOf_rotation _ hR)
  rw [← hc1] at hA hSt hL hTimer
  have hR1 : IsRotationState m1.comp.TransformState := by rw [hSt]; exact hR
  obtain ⟨r0, r1, r2, r3, r4, r5, r6, r7, r8⟩ :=
    RotationActor_first h hlaws e1 m1.comp m1.scene x y a hL hR1 hC hM hA
  refine ⟨{ m1 with comp := RotationActor_Deltas x y m1.comp }, ?_, r1, r2, r3, r4, r5, r6,
    r7, r8, rfl⟩
  simp [Step, hTimer hW, TimerCallback, r0]

theorem SampleHost_EngineRotationLaws : EngineRotationLaws SampleHost := by
  refine ⟨?_, ?_, ?_, ?_⟩
  · simp [SampleHost]
  · intro Axis; simp [SampleHost, FQuat.Identity]
  · intro q; cases q; simp [SampleHost, FQuat.Identity]
  · intro q; rfl

/-- C13 at a concrete run: yaw-pitch mode, actor 7 selected, transformation started,
first tick with the mouse at (100, 100). -/
theorem C13_first_rotation_tick_witness :
    EngineRotationLaws SampleHost
      ∧ Reachable SampleHost AnyCall
          (SampleAfter SampleScene (CallsSelected ETS_Rotation_YawPitch))
      ∧ Step SampleHost SampleEnv
          (SampleAfter SampleScene (CallsSelected ETS_Rotation_YawPitch)) Call.Start
          = some (SampleAfter SampleScene (CallsStarted ETS_Rotation_YawPitch))
      ∧ (CompAfter (CallsStarted ETS_Rotation_YawPitch)).bIsTransform = true
      ∧ ∃ m2, Step SampleHost SampleEnv
            (SampleAfter SampleScene (CallsStarted ETS_Rotation_YawPitch))
            (Call.Tick TimerKind.Rotation) = some m2
          ∧ m2.comp.RollSave = 100 ∧ m2.comp.PitchSave = 100 ∧ m2.comp.YawSave = 100
          ∧ m2.comp.DeltaRollDegree = 0 ∧ m2.comp.DeltaPitchDegree = 0
          ∧ m2.comp.DeltaYawDegree = 0
          ∧ m2.comp.bIsLockFirstIterationRotationTimer = true
          ∧ RotationActor_DeltaRotationQ SampleHost SampleEnv m2.comp = some FQuat.Identity
          ∧ m2.scene = (SampleAfter SampleScene (CallsStarted ETS_Rotation_YawPitch)).scene :=
  ⟨SampleHost_EngineRotationLaws,
    Reachable_SampleAfter AnyCall _ _ (fun _ _ => trivial) rfl, rfl, rfl,
    C13_first_rotation_tick SampleHost SampleHost_EngineRotationLaws
      (SampleAfter SampleScene (CallsSelected ETS_Rotation_YawPitch))
      (Reachable_SampleAfter AnyCall _ _ (fun _ _ => trivial) rfl) SampleEnv rfl rfl
      (Or.inl rfl) (SampleAfter SampleScene (CallsStarted ETS_Rotation_YawPitch)) rfl rfl
      SampleEnv 100 100 rfl rfl⟩

theorem RotationActor_some (h : Host) (e : Env) (c : Component) (sc : Scene) (x y : ℚ)
    (a : ℕ) (hC : CheckControllerAndPawn c = true) (hM : e.MousePosition = some (x, y))
    (hA : c.TransformActor = some a) :
    ∃ sc', RotationActor h e c sc = some (RotationActor_Deltas x y c, sc') := by
  obtain ⟨k1, _, _⟩ := RotationActor_Deltas_keeps x y c
  rw [hA] at k1
  rw [RotationActor_eq h e c sc x y hC hM]
  rcases hq : RotationActor_DeltaRotationQ h e (RotationActor_Deltas x y c) with _ | q
  · exact ⟨sc, rfl⟩
  · simp only [k1]
    exact ⟨_, rfl⟩

theorem RotationActor_Deltas_inv (x y : ℚ) (c : Component) (a : ℕ)
    (hC : CheckControllerAndPawn c = true) (hA : c.TransformActor = some a) :
    RotationSessionInv a (x, y) (RotationActor_Deltas x y c) := by
  unfold RotationActor_Deltas
  split_ifs <;>
    exact ⟨hC, hA, by first | rfl | simpa using ‹¬ c.bIsLockFirstIterationRotationTimer = false›,
      rfl, rfl, rfl⟩

theorem RotationActor_Deltas_next (x y : ℚ) (c : Component) (a : ℕ) (p : ℚ × ℚ)
    (hinv : RotationSessionInv a p c) :
    (RotationActor_Deltas x y c).DeltaRollDegree = x - p.1
      ∧ (RotationActor_Deltas x y c).DeltaPitchDegree = y - p.2
      ∧ (RotationActor_Deltas x y c).DeltaYawDegree = x - p.1 := by
  obtain ⟨_, _, hL, h1, h2, h3⟩ := hinv
  simp [RotationActor_Deltas, hL, CalcDeltaYaw, CalcDeltaPitch, CalcDeltaRoll, h1, h2, h3]

theorem RotationDeltaLog_next (h : Host) (a : ℕ) (envs : List Env) :
    ∀ (samples : List (ℚ × ℚ)) (p : ℚ × ℚ) (c : Component) (sc : Scene),
      envs.map (fun e => e.MousePosition) = samples.map some →
      RotationSessionInv a p c →
      RotationDeltaLog h envs c sc = some (SinceLastTick p samples) := by
  induction envs with
  | nil =>
    intro samples p c sc hM _
    cases samples with
    | nil => rfl
    | cons q rest => simp at hM
  | cons e es ih =>
    intro samples p c sc hM hinv
    cases samples with
    | nil => simp at hM
    | cons q rest =>
      obtain ⟨x, y⟩ := q
      simp only [List.map_cons, List.cons.injEq] at hM
      obtain ⟨hMe, hMrest⟩ := hM
      obtain ⟨sc', hr⟩ := RotationActor_some h e c sc x y a hinv.1 hMe hinv.2.1
      obtain ⟨d1, d2, d3⟩ := RotationActor_Deltas_next x y c a p hinv
      have hinv' := RotationActor_Deltas_inv x y c a hinv.1 hinv.2.1
      have hrest := ih rest (x, y) (RotationActor_Deltas x y c) sc' hMrest hinv'
      simp only [RotationDeltaLog, hr, hrest, d1, d2, d3, SinceLastTick]

theorem SinceLastTick_sum (samples : List (ℚ × ℚ)) :
    ∀ p : ℚ × ℚ,
      ((SinceLastTick p samples).map (fun d => d.1)).sum = (samples.getLastD p).1 - p.1
      ∧ ((SinceLastTick p samples).map (fun d => d.2.1)).sum = (samples.getLastD p).2 - p.2
      ∧ ((SinceLastTick p samples).map (fun d => d.2.2)).sum
          = (samples.getLastD p).1 - p.1 := by
  induction samples with
  | nil => intro p; simp [SinceLastTick]
  | cons q rest ih =>
    intro p
    obtain ⟨i1, i2, i3⟩ := ih q
    simp only [SinceLastTick, List.map_cons, List.sum_cons, List.getLastD_cons, i1, i2, i3]
    refine ⟨by ring, by ring, by ring⟩

theorem RotationActor_Deltas_first (x y : ℚ) (c : Component)
    (hL : c.bIsLockFirstIterationRotationTimer = false) :
    (RotationActor_Deltas x y c).DeltaRollDegree = 0
      ∧ (RotationActor_Deltas x y c).DeltaPitchDegree = 0
      ∧ (RotationActor_Deltas x y c).DeltaYawDegree = 0 := by
  simp [RotationActor_Deltas, hL, CalcDeltaYaw, CalcDeltaPitch, CalcDeltaRoll]

/-- C14.  Rotation deltas are since the last tick.  For a session (first-tick flag
cleared) whose ticks are all successful, with the pointer samples (x_0, y_0) and then
`samples`: the deltas of the first tick are zero, the deltas of every later tick are
(x_k - x_(k-1), y_k - y_(k-1), x_k - x_(k-1)) for roll, pitch and yaw, and the deltas
of the whole session add up to x_n - x_0 (roll and yaw) and y_n - y_0 (pitch). -/
theorem C14_deltas_since_last_tick (h : Host) (c : Component) (sc : Scene) (a : ℕ)
    (e0 : Env) (x0 y0 : ℚ) (envs : List Env) (samples : List (ℚ × ℚ))
    (hC : CheckControllerAndPawn c = true) (hA : c.TransformActor = some a)
    (hL : c.bIsLockFirstIterationRotationTimer = false)
    (hM0 : e0.MousePosition = some (x0, y0))
    (hM : envs.map (fun e => e.MousePosition) = samples.map some) :
    RotationDeltaLog h (e0 :: envs) c sc
        = some ((0, 0, 0) :: SinceLastTick (x0, y0) samples)
      ∧ (((0, 0, 0) :: SinceLastTick (x0, y0) samples).map (fun d => d.1)).sum
          = (samples.getLastD (x0, y0)).1 - x0
      ∧ (((0, 0, 0) :: SinceLastTick (x0, y0) samples).map (fun d => d.2.1)).sum
          = (samples.getLastD (x0, y0)).2 - y0
      ∧ (((0, 0, 0) :: SinceLastTick (x0, y0) samples).map (fun d => d.2.2)).sum
          = (samples.getLastD (x0, y0)).1 - x0 := by
  obtain ⟨sc', hr⟩ := RotationActor_some h e0 c sc x0 y0 a hC hM0 hA
  obtain ⟨d1, d2, d3⟩ := RotationActor_Deltas_first x0 y0 c hL
  have hinv := RotationActor_Deltas_inv x0 y0 c a hC hA
  have hrest := RotationDeltaLog_next h a envs samples (x0, y0)
    (RotationActor_Deltas x0 y0 c) sc' hM hinv
  obtain ⟨s1, s2, s3⟩ := SinceLastTick_sum samples (x0, y0)
  refine ⟨by simp only [RotationDeltaLog, hr, hrest, d1, d2, d3], ?_, ?_, ?_⟩
  · simp only [List.map_cons, List.sum_cons, s1]; ring
  · simp only [List.map_cons, List.sum_cons, s2]; ring
  · simp only [List.map_cons, List.sum_cons, s3]; ring

/-- C14 at a concrete session: yaw mode, actor 7, pointer samples (100, 100), (110, 90)
and (130, 95). -/
theorem C14_deltas_since_last_tick_witness :
    CheckControllerAndPawn (CompAfter (CallsStarted ETS_Rotation_Yaw)) = true
      ∧ (CompAfter (CallsStarted ETS_Rotation_Yaw)).TransformActor = some 7
      ∧ (CompAfter (CallsStarted ETS_Rotation_Yaw)).bIsLockFirstIterationRotationTimer
          = false
      ∧ RotationDeltaLog SampleHost
          [SampleEnv, { SampleEnv with MousePosition := some (110, 90) },
            { SampleEnv with MousePosition := some (130, 95) }]
          (CompAfter (CallsStarted ETS_Rotation_Yaw)) SampleScene
          = some [(0, 0, 0), (10, -10, 10), (20, 5, 20)] := by
  have key := (C14_deltas_since_last_tick SampleHost
    (CompAfter (CallsStarted ETS_Rotation_Yaw)) SampleScene 7 SampleEnv 100 100
    [{ SampleEnv with MousePosition := some (110, 90) },
      { SampleEnv with MousePosition := some (130, 95) }]
    [(110, 90), (130, 95)] rfl rfl rfl rfl rfl).1
  refine ⟨rfl, rfl, rfl, ?_⟩
  rw [key]
  norm_num [SinceLastTick]

theorem ScaleActor_Travel_eq (h : Host) (c : Component) (x y : ℚ) :
    h.Sqrt (|x - c.LocationXAtClick| * |x - c.LocationXAtClick|
        + |y - c.LocationYAtClick| * |y - c.LocationYAtClick|)
      = ScaleActor_Travel h c x y := by
  unfold ScaleActor_Travel
  rw [abs_mul_abs_self, abs_mul_abs_self, sq, sq]

theorem ScaleActor_grow (h : Host) (e : Env) (c : Component) (sc : Scene) (a : ℕ)
    (x y : ℚ) (hPC : c.PlayerController ≠ none) (hM : e.MousePosition = some (x, y))
    (hA : c.TransformActor = some a) (hL : c.bIsLockFirstIterationScaleTimer = true)
    (hy : y < c.LocationYAtClick) :
    ScaleActor h e c sc
      = some ({ c with NewScale3D := ScaleActor_Grown h c x y },
              sc.SetActorScale3D a (ScaleActor_Grown h c x y)) := by
  have hn1 : ¬ y > c.LocationYAtClick := not_lt.mpr hy.le
  have hn2 : ¬ y = c.LocationYAtClick := ne_of_lt hy
  unfold ScaleActor_Grown
  rw [← ScaleActor_Travel_eq]
  simp only [ScaleActor, hPC, hM, hA, hL, hy, hn1, hn2, if_true, if_false,
    Bool.true_eq_false]

theorem ScaleActor_same (h : Host) (e : Env) (c : Component) (sc : Scene) (a : ℕ)
    (x y : ℚ) (hPC : c.PlayerController ≠ none) (hM : e.MousePosition = some (x, y))
    (hA : c.TransformActor = some a) (hL : c.bIsLockFirstIterationScaleTimer = true)
    (hy : y = c.LocationYAtClick) :
    ScaleActor h e c sc
      = some ({ c with NewScale3D := c.Scale3DSave },
              sc.SetActorScale3D a c.Scale3DSave) := by
  subst hy
  simp only [ScaleActor, hPC, hM, hA, hL, lt_irrefl, gt_iff_lt, if_true, if_false,
    Bool.true_eq_false]

theorem ScaleActor_shrink (h : Host) (e : Env) (c : Component) (sc : Scene) (a : ℕ)
    (x y : ℚ) (hPC : c.PlayerController ≠ none) (hM : e.MousePosition = some (x, y))
    (hA : c.TransformActor = some a) (hL : c.bIsLockFirstIterationScaleTimer = true)
    (hy : y > c.LocationYAtClick) :
    ScaleActor h e c sc
      = some ({ c with NewScale3D :=
                  if FVector.AllAbove (ScaleActor_Shrunk h c x y) c.MinScale then
                    ScaleActor_Shrunk h c x y
                  else c.NewScale3D },
              sc.SetActorScale3D a
                (if FVector.AllAbove (ScaleActor_Shrunk h c x y) c.MinScale then
                    ScaleActor_Shrunk h c x y
                  else c.NewScale3D)) := by
  have hn1 : ¬ y < c.LocationYAtClick := not_lt.mpr hy.le
  have hn2 : ¬ y = c.LocationYAtClick := ne_of_gt hy
  unfold ScaleActor_Shrunk
  rw [← ScaleActor_Travel_eq]
  simp only [ScaleActor, hPC, hM, hA, hL, hy, hn1, hn2, if_true, if_false,
    Bool.true_eq_false, FVector.AllAbove]
  split_ifs with g1 g2 g2
  · exfalso
    rcases g1 with g | g | g
    · exact absurd g2.1 (not_lt.mpr g)
    · exact absurd g2.2.1 (not_lt.mpr g)
    · exact absurd g2.2.2 (not_lt.mpr g)
  · rfl
  · rfl
  · exfalso
    apply g2
    rw [not_or, not_or, not_le, not_le, not_le] at g1
    exact g1

theorem SqrtSearch_2500 : SqrtSearch 2500 2500 0 = 50 := by decide

theorem SqrtSearch_4 : SqrtSearch 4 4 0 = 2 := by decide

theorem SampleHost_Sqrt_2500 : SampleHost.Sqrt 2500 = 50 := by
  simp [SampleHost, SqrtSearch_2500, SqrtSearch_1]

theorem SampleHost_Sqrt_4 : SampleHost.Sqrt 4 = 2 := by
  simp [SampleHost, SqrtSearch_4, SqrtSearch_1]

/-- C15.  On a `ScaleActor` tick after the first (the first-tick flag is set) with the
pointer at (x, y) and y strictly less than `LocationYAtClick`, the scale applied to the
target is `Scale3DSave` plus, on every axis, the same scalar travel times `ScaleSpeed`,
where travel is the square root of (x - `LocationXAtClick`)^2 + (y -
`LocationYAtClick`)^2; the result does not depend on the level or on the scale that
earlier ticks left in `NewScale3D`. -/
theorem C15_scale_growth (h : Host) (e : Env) (c : Component) (sc : Scene) (a : ℕ)
    (x y : ℚ) (hPC : c.PlayerController ≠ none) (hM : e.MousePosition = some (x, y))
    (hA : c.TransformActor = some a) (hL : c.bIsLockFirstIterationScaleTimer = true)
    (hy : y < c.LocationYAtClick) :
    (ScaleActor h e c sc).map (fun r => r.2.ActorScale3D a)
        = some (ScaleActor_Grown h c x y)
      ∧ ScaleActor_Grown h c x y
          = ⟨c.Scale3DSave.X
                + h.Sqrt ((x - c.LocationXAtClick) ^ 2 + (y - c.LocationYAtClick) ^ 2)
                  * c.ScaleSpeed,
              c.Scale3DSave.Y
                + h.Sqrt ((x - c.LocationXAtClick) ^ 2 + (y - c.LocationYAtClick) ^ 2)
                  * c.ScaleSpeed,
              c.Scale3DSave.Z
                + h.Sqrt ((x - c.LocationXAtClick) ^ 2 + (y - c.LocationYAtClick) ^ 2)
                  * c.ScaleSpeed⟩
      ∧ ∀ (N : FVector) (sc2 : Scene),
          (ScaleActor h e { c with NewScale3D := N } sc2).map (fun r => r.2.ActorScale3D a)
            = some (ScaleActor_Grown h c x y) := by
  refine ⟨?_, rfl, fun N sc2 => ?_⟩
  · rw [ScaleActor_grow h e c sc a x y hPC hM hA hL hy]
    simp [Scene.SetActorScale3D]
  · rw [ScaleActor_grow h e { c with NewScale3D := N } sc2 a x y hPC hM hA hL hy]
    simp [Scene.SetActorScale3D]
    rfl

/-- C15 at Scenario B: scale (1, 1, 1) at the click at (100, 100), `ScaleSpeed` 0.015,
pointer at (100, 50).  The travel is 50 and the applied scale is (7/4, 7/4, 7/4). -/
theorem C15_scale_growth_witness :
    (SampleScaleClicked SampleScene).1.PlayerController ≠ none
      ∧ (SampleScaleClicked SampleScene).1.TransformActor = some 7
      ∧ (SampleScaleClicked SampleScene).1.bIsLockFirstIterationScaleTimer = true
      ∧ (SampleScaleClicked SampleScene).1.Scale3DSave = ⟨1, 1, 1⟩
      ∧ (SampleScaleClicked SampleScene).1.ScaleSpeed = 15 / 1000
      ∧ (50 : ℚ) < (SampleScaleClicked SampleScene).1.LocationYAtClick
      ∧ (ScaleActor SampleHost { SampleEnv with MousePosition := some (100, 50) }
            (SampleScaleClicked SampleScene).1 (SampleScaleClicked SampleScene).2).map
            (fun r => r.2.ActorScale3D 7)
          = some ⟨7 / 4, 7 / 4, 7 / 4⟩ := by
  have hPC : (SampleScaleClicked SampleScene).1.PlayerController ≠ none := by
    have : (SampleScaleClicked SampleScene).1.PlayerController = some 0 := rfl
    rw [this]; simp
  have hX : (SampleScaleClicked SampleScene).1.LocationXAtClick = 100 := rfl
  have hY : (SampleScaleClicked SampleScene).1.LocationYAtClick = 100 := rfl
  have hS : (SampleScaleClicked SampleScene).1.Scale3DSave = ⟨1, 1, 1⟩ := rfl
  have hSp : (SampleScaleClicked SampleScene).1.ScaleSpeed = 15 / 1000 := rfl
  have hy : (50 : ℚ) < (SampleScaleClicked SampleScene).1.LocationYAtClick := by
    rw [hY]; norm_num
  have key := C15_scale_growth SampleHost { SampleEnv with MousePosition := some (100, 50) }
    (SampleScaleClicked SampleScene).1 (SampleScaleClicked SampleScene).2 7 100 50
    hPC rfl rfl rfl hy
  refine ⟨hPC, rfl, rfl, hS, hSp, hy, ?_⟩
  rw [key.1, key.2.1, hS, hSp, hX, hY]
  norm_num [SampleHost_Sqrt_2500]

theorem ScaleActor_success (h : Host) (e : Env) (c0 c : Component) (sc0 sc : Scene)
    (hPC : c0.PlayerController ≠ none) (hM : e.MousePosition ≠ none)
    (hprev : ScaleActor h e c0 sc0 = some (c, sc)) :
    ∃ a, c.TransformActor = some a ∧ c.PlayerController ≠ none
      ∧ c.bIsLockFirstIterationScaleTimer = true
      ∧ sc.ActorScale3D a = c.NewScale3D := by
  rcases hM' : e.MousePosition with _ | ⟨x, y⟩
  · exact absurd hM' hM
  rcases hA : c0.TransformActor with _ | a
  · simp [ScaleActor, hPC, hM', hA] at hprev
  refine ⟨a, ?_⟩
  cases hL : c0.bIsLockFirstIterationScaleTimer
  · rw [ScaleActor_first h e c0 sc0 a x y hPC hM' hA hL] at hprev
    simp only [Option.some.injEq, Prod.mk.injEq] at hprev
    obtain ⟨rfl, rfl⟩ := hprev
    exact ⟨hA, hPC, rfl, by simp only [Scene.SetActorScale3D, Function.update_same]⟩
  · rcases lt_trichotomy y c0.LocationYAtClick with hy | hy | hy
    · rw [ScaleActor_grow h e c0 sc0 a x y hPC hM' hA hL hy] at hprev
      simp only [Option.some.injEq, Prod.mk.injEq] at hprev
      obtain ⟨rfl, rfl⟩ := hprev
      exact ⟨hA, hPC, hL, by simp only [Scene.SetActorScale3D, Function.update_same]⟩
    · rw [ScaleActor_same h e c0 sc0 a x y hPC hM' hA hL hy] at hprev
      simp only [Option.some.injEq, Prod.mk.injEq] at hprev
      obtain ⟨rfl, rfl⟩ := hprev
      exact ⟨hA, hPC, hL, by simp only [Scene.SetActorScale3D, Function.update_same]⟩
    · rw [ScaleActor_shrink h e c0 sc0 a x y hPC hM' hA hL hy] at hprev
      simp only [Option.some.injEq, Prod.mk.injEq] at hprev
      obtain ⟨rfl, rfl⟩ := hprev
      exact ⟨hA, hPC, hL, by simp only [Scene.SetActorScale3D, Function.update_same]⟩

/-- C16.  On a `ScaleActor` tick that follows a tick of the same session which applied
a scale, with the pointer at (x, y) and y strictly greater than `LocationYAtClick`: the
candidate is `Scale3DSave` minus travel times `ScaleSpeed` on every axis; when every
axis of the candidate is strictly greater than `MinScale` the applied scale is the
candidate, and when some axis is at most `MinScale` the applied scale is exactly the
scale the previous tick applied. -/
theorem C16_scale_shrink (h : Host) (e0 e : Env) (c0 c : Component) (sc0 sc : Scene)
    (x y : ℚ) (hPC : c0.PlayerController ≠ none) (hM0 : e0.MousePosition ≠ none)
    (hprev : ScaleActor h e0 c0 sc0 = some (c, sc))
    (hM : e.MousePosition = some (x, y)) (hy : y > c.LocationYAtClick) :
    ∃ a, c.TransformActor = some a
      ∧ ScaleActor_Shrunk h c x y
          = ⟨c.Scale3DSave.X
                - h.Sqrt ((x - c.LocationXAtClick) ^ 2 + (y - c.LocationYAtClick) ^ 2)
                  * c.ScaleSpeed,
              c.Scale3DSave.Y
                - h.Sqrt ((x - c.LocationXAtClick) ^ 2 + (y - c.LocationYAtClick) ^ 2)
                  * c.ScaleSpeed,
              c.Scale3DSave.Z
                - h.Sqrt ((x - c.LocationXAtClick) ^ 2 + (y - c.LocationYAtClick) ^ 2)
                  * c.ScaleSpeed⟩
      ∧ (FVector.AllAbove (ScaleActor_Shrunk h c x y) c.MinScale →
          (ScaleActor h e c sc).map (fun r => r.2.ActorScale3D a)
            = some (ScaleActor_Shrunk h c x y))
      ∧ (((ScaleActor_Shrunk h c x y).X ≤ c.MinScale
            ∨ (ScaleActor_Shrunk h c x y).Y ≤ c.MinScale
            ∨ (ScaleActor_Shrunk h c x y).Z ≤ c.MinScale) →
          (ScaleActor h e c sc).map (fun r => r.2.ActorScale3D a)
            = some (sc.ActorScale3D a)) := by
  obtain ⟨a, hA, hPC1, hL, hSc⟩ := ScaleActor_success h e0 c0 c sc0 sc hPC hM0 hprev
  refine ⟨a, hA, rfl, fun hab => ?_, fun hbelow => ?_⟩
  · rw [ScaleActor_shrink h e c sc a x y hPC1 hM hA hL hy, if_pos hab]
    simp [Scene.SetActorScale3D]
  · have hnot : ¬ FVector.AllAbove (ScaleActor_Shrunk h c x y) c.MinScale := by
      intro hab
      rcases hbelow with g | g | g
      · exact absurd hab.1 (not_lt.mpr g)
      · exact absurd hab.2.1 (not_lt.mpr g)
      · exact absurd hab.2.2 (not_lt.mpr g)
    rw [ScaleActor_shrink h e c sc a x y hPC1 hM hA hL hy, if_neg hnot, hSc]
    simp [Scene.SetActorScale3D]

/-- C16 at Scenario C: scale (1/50, 1/50, 1/50) at the click at (100, 100), `MinScale`
1/100, pointer at (100, 102), so that travel times `ScaleSpeed` is 3/100.  The candidate
(-1/100, -1/100, -1/100) is rejected and the scale stays (1/50, 1/50, 1/50). -/
theorem C16_scale_shrink_witness :
    (CompAfter (CallsStarted ETS_Scale)).PlayerController ≠ none
      ∧ SampleEnv.MousePosition ≠ none
      ∧ ScaleActor SampleHost SampleEnv (CompAfter (CallsStarted ETS_Scale)) SampleSceneSmall
          = some (SampleScaleClicked SampleSceneSmall)
      ∧ (102 : ℚ) > (SampleScaleClicked SampleSceneSmall).1.LocationYAtClick
      ∧ (SampleScaleClicked SampleSceneSmall).1.Scale3DSave = ⟨1 / 50, 1 / 50, 1 / 50⟩
      ∧ (SampleScaleClicked SampleSceneSmall).1.MinScale = 1 / 100
      ∧ ScaleActor_Shrunk SampleHost (SampleScaleClicked SampleSceneSmall).1 100 102
          = ⟨-1 / 100, -1 / 100, -1 / 100⟩
      ∧ (ScaleActor SampleHost { SampleEnv with MousePosition := some (100, 102) }
            (SampleScaleClicked SampleSceneSmall).1
            (SampleScaleClicked SampleSceneSmall).2).map (fun r => r.2.ActorScale3D 7)
          = some ⟨1 / 50, 1 / 50, 1 / 50⟩ := by
  have hPC : (CompAfter (CallsStarted ETS_Scale)).PlayerController ≠ none := by
    have : (CompAfter (CallsStarted ETS_Scale)).PlayerController = some 0 := rfl
    rw [this]; simp
  have hM0 : SampleEnv.MousePosition ≠ none := by simp [SampleEnv]
  have hX : (SampleScaleClicked SampleSceneSmall).1.LocationXAtClick = 100 := rfl
  have hY : (SampleScaleClicked SampleSceneSmall).1.LocationYAtClick = 100 := rfl
  have hS : (SampleScaleClicked SampleSceneSmall).1.Scale3DSave
      = ⟨1 / 50, 1 / 50, 1 / 50⟩ := rfl
  have hSp : (SampleScaleClicked SampleSceneSmall).1.ScaleSpeed = 15 / 1000 := rfl
  have hMin : (SampleScaleClicked SampleSceneSmall).1.MinScale = 1 / 100 := rfl
  have hy : (102 : ℚ) > (SampleScaleClicked SampleSceneSmall).1.LocationYAtClick := by
    rw [hY]; norm_num
  have hsc : (SampleScaleClicked SampleSceneSmall).2.ActorScale3D 7
      = ⟨1 / 50, 1 / 50, 1 / 50⟩ := rfl
  obtain ⟨a, hA, hform, _, hrej⟩ :=
    C16_scale_shrink SampleHost SampleEnv { SampleEnv with MousePosition := some (100, 102) }
      (CompAfter (CallsStarted ETS_Scale)) (SampleScaleClicked SampleSceneSmall).1
      SampleSceneSmall (SampleScaleClicked SampleSceneSmall).2 100 102 hPC hM0 rfl rfl hy
  have ha : a = 7 := by
    have h7 : (SampleScaleClicked SampleSceneSmall).1.TransformActor = some 7 := rfl
    rw [h7] at hA
    exact (Option.some.inj hA).symm
  subst ha
  have hval : ScaleActor_Shrunk SampleHost (SampleScaleClicked SampleSceneSmall).1 100 102
      = ⟨-1 / 100, -1 / 100, -1 / 100⟩ := by
    rw [hform, hS, hSp, hX, hY]
    norm_num [SampleHost_Sqrt_4]
  refine ⟨hPC, hM0, rfl, hy, hS, hMin, hval, ?_⟩
  rw [hrej (Or.inl (by rw [hval, hMin]; norm_num)), hsc]

/-! ## C17: the first scale tick -/

theorem Scene_SetActorScale3D_self (sc : Scene) (a : ℕ) :
    sc.SetActorScale3D a (sc.ActorScale3D a) = sc := by
  cases sc
  simp [Scene.SetActorScale3D]

theorem ScaleActor_at_click (h : Host) (e : Env) (c c1 : Component) (sc sc1 : Scene)
    (a : ℕ) (x y : ℚ) (hPC : c.PlayerController ≠ none)
    (hM : e.MousePosition = some (x, y)) (hA : c.TransformActor = some a)
    (hr : ScaleActor h e c sc = some (c1, sc1)) (hy : y = c1.LocationYAtClick) :
    sc1.ActorScale3D a = c1.Scale3DSave := by
  cases hL : c.bIsLockFirstIterationScaleTimer
  · rw [ScaleActor_first h e c sc a x y hPC hM hA hL] at hr
    simp only [Option.some.injEq, Prod.mk.injEq] at hr
    obtain ⟨rfl, rfl⟩ := hr
    simp only [Scene.SetActorScale3D, Function.update_same]
  · rcases lt_trichotomy y c.LocationYAtClick with hlt | heq | hgt
    · rw [ScaleActor_grow h e c sc a x y hPC hM hA hL hlt] at hr
      simp only [Option.some.injEq, Prod.mk.injEq] at hr
      obtain ⟨rfl, rfl⟩ := hr
      exact absurd hy (ne_of_lt hlt)
    · rw [ScaleActor_same h e c sc a x y hPC hM hA hL heq] at hr
      simp only [Option.some.injEq, Prod.mk.injEq] at hr
      obtain ⟨rfl, rfl⟩ := hr
      simp only [Scene.SetActorScale3D, Function.update_same]
    · rw [ScaleActor_shrink h e c sc a x y hPC hM hA hL hgt] at hr
      simp only [Option.some.injEq, Prod.mk.injEq] at hr
      obtain ⟨rfl, rfl⟩ := hr
      exact absurd hy (ne_of_gt hgt)

/-- C17.  After a `StartTransformationActor` that starts the scale timer, in any
reachable state and whatever `LocationXAtClick`, `LocationYAtClick`, `Scale3DSave` and
`NewScale3D` held before, the first `ScaleActor` tick that reads a pointer position
(x, y) happens, records `LocationXAtClick = x`, `LocationYAtClick = y` and
`Scale3DSave` = the current scale of the target, sets the first-tick flag and leaves the
level unchanged.  Moreover every tick that applies a scale with y equal to
`LocationYAtClick` applies exactly `Scale3DSave`. -/
theorem C17_first_scale_tick (h : Host) (m : Machine) (hm : Reachable h AnyCall m)
    (e0 : Env) (hW : e0.World = true) (hT : m.comp.bIsTransform = false)
    (hS : m.comp.TransformState = ETS_Scale) (m1 : Machine)
    (hs : Step h e0 m Call.Start = some m1) (hT1 : m1.comp.bIsTransform = true)
    (e1 : Env) (x y : ℚ) (hM : e1.MousePosition = some (x, y)) :
    (∃ a m2, m1.comp.TransformActor = some a
        ∧ Step h e1 m1 (Call.Tick TimerKind.Scale) = some m2
        ∧ m2.comp.LocationXAtClick = x ∧ m2.comp.LocationYAtClick = y
        ∧ m2.comp.Scale3DSave = m1.scene.ActorScale3D a
        ∧ m2.comp.bIsLockFirstIterationScaleTimer = true
        ∧ m2.scene = m1.scene)
      ∧ ∀ (e : Env) (c c1 : Component) (sc sc1 : Scene) (a : ℕ) (u v : ℚ),
          c.PlayerController ≠ none → e.MousePosition = some (u, v) →
          c.TransformActor = some a → ScaleActor h e c sc = some (c1, sc1) →
          v = c1.LocationYAtClick → sc1.ActorScale3D a = c1.Scale3DSave := by
  refine ⟨?_, fun e c c1 sc sc1 a u v hPC hMe hA hr hv =>
    ScaleActor_at_click h e c c1 sc sc1 a u v hPC hMe hA hr hv⟩
  obtain ⟨hc1, _⟩ := Step_Start_comp h e0 m m1 hs
  rw [hc1] at hT1
  obtain ⟨a, hA, hPC, _, _, hk⟩ := Start_started_session h m hm e0 hT hT1
  obtain ⟨hL, hTimer⟩ := hk TimerKind.Scale (by rw [hS]; rfl)
  rw [← hc1] at hA hPC hL hTimer
  have hfirst := ScaleActor_first h e1 m1.comp m1.scene a x y hPC hM hA hL
  rw [Scene_SetActorScale3D_self] at hfirst
  refine ⟨a, { m1 with comp := { m1.comp with
      LocationXAtClick := x
      LocationYAtClick := y
      Scale3DSave := m1.scene.ActorScale3D a
      bIsLockFirstIterationScaleTimer := true
      NewScale3D := m1.scene.ActorScale3D a } }, hA, ?_, rfl, rfl, rfl, rfl, rfl⟩
  simp [Step, hTimer hW, TimerCallback, hfirst]

/-- C17 at a concrete run: scale mode, actor 7 with scale (1, 1, 1) selected,
transformation started, first tick with the mouse at (100, 100). -/
theorem C17_first_scale_tick_witness :
    Reachable SampleHost AnyCall (SampleAfter SampleScene (CallsSelected ETS_Scale))
      ∧ Step SampleHost SampleEnv (SampleAfter SampleScene (CallsSelected ETS_Scale))
          Call.Start = some (SampleAfter SampleScene (CallsStarted ETS_Scale))
      ∧ (CompAfter (CallsStarted ETS_Scale)).bIsTransform = true
      ∧ (∃ a m2, (SampleAfter SampleScene (CallsStarted ETS_Scale)).comp.TransformActor
            = some a
          ∧ Step SampleHost SampleEnv (SampleAfter SampleScene (CallsStarted ETS_Scale))
              (Call.Tick TimerKind.Scale) = some m2
          ∧ m2.comp.LocationXAtClick = 100 ∧ m2.comp.LocationYAtClick = 100
          ∧ m2.comp.Scale3DSave
              = (SampleAfter SampleScene (CallsStarted ETS_Scale)).scene.ActorScale3D a
          ∧ m2.comp.bIsLockFirstIterationScaleTimer = true
          ∧ m2.scene = (SampleAfter SampleScene (CallsStarted ETS_Scale)).scene) :=
  ⟨Reachable_SampleAfter AnyCall _ _ (fun _ _ => trivial) rfl, rfl, rfl,
    (C17_first_scale_tick SampleHost
      (SampleAfter SampleScene (CallsSelected ETS_Scale))
      (Reachable_SampleAfter AnyCall _ _ (fun _ _ => trivial) rfl) SampleEnv rfl rfl
      rfl (SampleAfter SampleScene (CallsStarted ETS_Scale)) rfl rfl
      SampleEnv 100 100 rfl).1⟩

theorem LocationActor_eq (h : Host) (e : Env) (c : Component) (sc : Scene) (a : ℕ)
    (WL WD : FVector) (hPC : c.PlayerController ≠ none)
    (hD : e.DeprojectMousePositionToWorld = some (WL, WD))
    (hA : c.TransformActor = some a) :
    LocationActor h e c sc
      = some (LocationActor_Lock h c sc a WL,
          sc.SetActorLocation h a
            (h.VInterpTo (sc.ActorLocation a)
              (LocationActor_NewLocation (LocationActor_Lock h c sc a WL) WL WD)
              c.LocationTimerDeltaTime c.LocationSpeed) c.bSweep) := by
  cases hL : c.bIsLockFirstIterationLocationTimer <;>
    simp [LocationActor, hPC, hD, hA, hL, LocationActor_Lock, LocationActor_NewLocation]

theorem LocationActor_Lock_first (h : Host) (c : Component) (sc : Scene) (a : ℕ)
    (WL : FVector) (hL : c.bIsLockFirstIterationLocationTimer = false) :
    (LocationActor_Lock h c sc a WL).DistanceToCursorSave
        = Distance h (sc.ActorLocation a) WL
      ∧ (LocationActor_Lock h c sc a WL).bIsLockFirstIterationLocationTimer = true
      ∧ (LocationActor_Lock h c sc a WL).SumInputAxisValue = c.SumInputAxisValue
      ∧ (LocationActor_Lock h c sc a WL).LocationDeepSpeed = c.LocationDeepSpeed := by
  simp [LocationActor_Lock, hL]

theorem LocationActor_Lock_next (h : Host) (c : Component) (sc : Scene) (a : ℕ)
    (WL : FVector) (hL : c.bIsLockFirstIterationLocationTimer = true) :
    LocationActor_Lock h c sc a WL = c := by
  simp [LocationActor_Lock, hL]

theorem FVector_Along_self (p : FVector) (t : ℚ) : FVector.Along p p t = p := by
  cases p
  simp [FVector.Along, FVector.add, FVector.scale, FVector.sub]

theorem FVector_Along_Along (p q : FVector) (s t : ℚ) :
    FVector.Along p (FVector.Along p q t) s = FVector.Along p q (t * s) := by
  cases p; cases q
  simp only [FVector.Along, FVector.add, FVector.scale, FVector.sub, FVector.mk.injEq]
  refine ⟨?_, ?_, ?_⟩ <;> ring

theorem Scene_SetActorLocation_self (h : Host) (hlaws : EngineLocationLaws h) (sc : Scene)
    (a : ℕ) (bSweep : Bool) :
    sc.SetActorLocation h a (sc.ActorLocation a) bSweep = sc := by
  obtain ⟨t, _, _, ht⟩ := hlaws.2 (sc.ActorLocation a) (sc.ActorLocation a)
  rw [FVector_Along_self] at ht
  cases sc
  cases bSweep <;> simp_all [Scene.SetActorLocation]

theorem Scene_SetActorLocation_at (h : Host) (sc : Scene) (a : ℕ) (p : FVector)
    (bSweep : Bool) :
    (sc.SetActorLocation h a p bSweep).ActorLocation a
      = if bSweep = true then h.SweepLocation (sc.ActorLocation a) p else p := by
  simp [Scene.SetActorLocation]

theorem Scene_SetActorLocation_segment (h : Host) (hlaws : EngineLocationLaws h)
    (sc : Scene) (a : ℕ) (Target : FVector) (DeltaTime InterpSpeed : ℚ) (bSweep : Bool) :
    ∃ t : ℚ, 0 ≤ t ∧ t ≤ 1
      ∧ (sc.SetActorLocation h a
            (h.VInterpTo (sc.ActorLocation a) Target DeltaTime InterpSpeed)
            bSweep).ActorLocation a
          = FVector.Along (sc.ActorLocation a) Target t := by
  obtain ⟨t, t0, t1, ht⟩ := hlaws.1 (sc.ActorLocation a) Target DeltaTime InterpSpeed
  rw [Scene_SetActorLocation_at, ht]
  cases bSweep
  · exact ⟨t, t0, t1, by simp⟩
  · obtain ⟨s, s0, s1, hs⟩ :=
      hlaws.2 (sc.ActorLocation a) (FVector.Along (sc.ActorLocation a) Target t)
    refine ⟨t * s, mul_nonneg t0 s0, mul_le_one₀ t1 s0 s1, ?_⟩
    simp only [if_true, hs, FVector_Along_Along]

theorem SampleHost_EngineLocationLaws : EngineLocationLaws SampleHost := by
  refine ⟨fun Current Target DeltaTime InterpSpeed => ?_, fun Start Goal => ?_⟩
  · have hone : FVector.Along Current Target 1 = Target := by
      cases Current; cases Target
      simp [FVector.Along, FVector.add, FVector.scale, FVector.sub]
    by_cases h1 : InterpSpeed ≤ 0
    · exact ⟨1, by norm_num, le_refl _, by simp [SampleHost, h1, hone]⟩
    by_cases h2 : FVector.DistSquared Current Target < 1 / 10000
    · exact ⟨1, by norm_num, le_refl _, by simp only [SampleHost, h1, h2, if_true, if_false, hone]⟩
    · exact ⟨max 0 (min (DeltaTime * InterpSpeed) 1), le_max_left _ _,
        max_le (by norm_num) (min_le_right _ _),
        by simp only [SampleHost, h1, h2, if_false, FVector.Along]⟩
  · refine ⟨1, by norm_num, le_refl _, ?_⟩
    cases Start; cases Goal
    simp [SampleHost, FVector.Along, FVector.add, FVector.scale, FVector.sub]

theorem SqrtSearch_100 : SqrtSearch 100 100 0 = 10 := by decide

theorem SampleHost_Sqrt_100 : SampleHost.Sqrt 100 = 10 := by
  simp [SampleHost, SqrtSearch_100, SqrtSearch_1]

/-- C18, counterexample.  Location mode, actor 7 at (3, 4, 0) selected and its
transformation started; the cursor ray starts at the origin and runs along the X axis.
The first `LocationActor` tick finds the first-tick flag clear, saves the distance 5 and
sets the flag, and it moves actor 7 from (3, 4, 0) to (77/20, 23/10, 0): the first tick
does move the target. -/
theorem C18_first_tick_moves_target :
    Reachable SampleHost AnyCall (SampleAfter SampleScene (CallsStarted ETS_Location))
      ∧ (CompAfter (CallsStarted ETS_Location)).bIsLockFirstIterationLocationTimer = false
      ∧ (SampleAfter SampleScene (CallsStarted ETS_Location)).scene.ActorLocation 7
          = ⟨3, 4, 0⟩
      ∧ (Step SampleHost SampleEnv (SampleAfter SampleScene (CallsStarted ETS_Location))
            (Call.Tick TimerKind.Location)).map
          (fun m => (m.comp.DistanceToCursorSave,
            m.comp.bIsLockFirstIterationLocationTimer, m.scene.ActorLocation 7))
          = some (5, true, ⟨77 / 20, 23 / 10, 0⟩)
      ∧ (⟨77 / 20, 23 / 10, 0⟩ : FVector) ≠ ⟨3, 4, 0⟩ := by
  refine ⟨Reachable_SampleAfter AnyCall _ _ (fun _ _ => trivial) rfl, rfl, rfl, ?_, ?_⟩
  · have hm : SampleAfter SampleScene (CallsStarted ETS_Location)
        = ⟨{ Constructor with
              TransformState := ETS_Location
              PlayerController := some 0
              PlayerPawn := some 1
              TransformActor := some 7
              PreviousTransformActor := some 7
              bIsTransform := true
              LocationTimer := true },
            SampleScene,
            (SampleAfter SampleScene (CallsStarted ETS_Location)).trace⟩ := rfl
    rw [hm]
    simp [Step, TimerActive, TimerCallback, LocationActor, Constructor, SampleEnv,
      SampleScene, Distance, SampleHost, FVector.DistSquared, Scene.SetActorLocation,
      FVector.add, FVector.scale, FVector.sub]
    norm_num [SqrtSearch_25, SqrtSearch_1]
  · simp only [ne_eq, FVector.mk.injEq, not_and]
    norm_num

theorem Run_CallsInput (h : Host) (inputs : List (Env × ℚ)) :
    ∀ m : Machine, m.comp.bIsTransform = true →
      Run h m (CallsInput inputs)
        = some { m with comp :=
            { m.comp with SumInputAxisValue :=
                m.comp.SumInputAxisValue + (inputs.map Prod.snd).sum } } := by
  induction inputs with
  | nil => intro m _; simp [CallsInput, Run]
  | cons p rest ih =>
    intro m hT
    have hstep : CalcSumInputAxisValue p.2 m.comp
        = { m.comp with SumInputAxisValue := m.comp.SumInputAxisValue + p.2 } := by
      simp [CalcSumInputAxisValue, hT]
    have hrest := ih { m with comp :=
      { m.comp with SumInputAxisValue := m.comp.SumInputAxisValue + p.2 } } hT
    unfold CallsInput at hrest ⊢
    simp only [List.map_cons, Run, Step, hstep, hrest, List.sum_cons, add_assoc]

/-- C18, amended.  A `LocationActor` tick of the set location timer that finds the
first-tick flag clear (the first successful tick after activation), with a controller,
a target `a` and the cursor deprojected to a ray (origin `WL`, direction `WD`), happens:
it saves `DistanceToCursorSave` = the distance from the current position of the target to
`WL`, sets the first-tick flag, keeps the accumulated input, and then moves the target as
every tick does, to `VInterpTo` of its current position towards
`WL + WD * (DistanceToCursorSave + SumInputAxisValue * LocationDeepSpeed)`, through a
sweep when `bSweep` is set.  The target stays where it is when that point is its current
position, the engine routines being on-segment (`EngineLocationLaws`).  Such a tick is
what follows every `StartTransformationActor` that starts the location timer in a
reachable state and any inputs to `CalcSumInputAxisValue` after it: the timer is set, the
flag is clear, the controller and the target are there, the level is as it was and the
accumulated input is the sum of the inputs. -/
theorem C18_first_location_tick (h : Host) (e : Env) (m : Machine) (a : ℕ)
    (WL WD : FVector) (hk : TimerActive m.comp TimerKind.Location = true)
    (hL : m.comp.bIsLockFirstIterationLocationTimer = false)
    (hPC : m.comp.PlayerController ≠ none)
    (hD : e.DeprojectMousePositionToWorld = some (WL, WD))
    (hA : m.comp.TransformActor = some a) :
    (∃ m2, Step h e m (Call.Tick TimerKind.Location) = some m2
      ∧ m2.comp.DistanceToCursorSave = Distance h (m.scene.ActorLocation a) WL
      ∧ m2.comp.bIsLockFirstIterationLocationTimer = true
      ∧ m2.comp.SumInputAxisValue = m.comp.SumInputAxisValue
      ∧ m2.scene
          = m.scene.SetActorLocation h a
              (h.VInterpTo (m.scene.ActorLocation a)
                (FVector.add WL
                  (FVector.scale WD
                    (Distance h (m.scene.ActorLocation a) WL
                      + m.comp.SumInputAxisValue * m.comp.LocationDeepSpeed)))
                m.comp.LocationTimerDeltaTime m.comp.LocationSpeed) m.comp.bSweep
      ∧ (EngineLocationLaws h →
          FVector.add WL
              (FVector.scale WD
                (Distance h (m.scene.ActorLocation a) WL
                  + m.comp.SumInputAxisValue * m.comp.LocationDeepSpeed))
            = m.scene.ActorLocation a →
          m2.scene = m.scene))
      ∧ ∀ (m0 m1 : Machine) (e0 : Env) (inputs : List (Env × ℚ)),
          Reachable h AnyCall m0 → e0.World = true → m0.comp.bIsTransform = false →
          m0.comp.TransformState = ETS_Location → Step h e0 m0 Call.Start = some m1 →
          m1.comp.bIsTransform = true →
          ∃ m1c, Run h m1 (CallsInput inputs) = some m1c
            ∧ TimerActive m1c.comp TimerKind.Location = true
            ∧ m1c.comp.bIsLockFirstIterationLocationTimer = false
            ∧ m1c.comp.PlayerController ≠ none
            ∧ m1c.comp.TransformActor ≠ none
            ∧ m1c.scene = m1.scene
            ∧ m1c.comp.SumInputAxisValue = (inputs.map Prod.snd).sum := by
  refine ⟨?_, fun m0 m1 e0 inputs hm0 hW hT hS hs hT1 => ?_⟩
  · have htick := LocationActor_eq h e m.comp m.scene a WL WD hPC hD hA
    obtain ⟨l1, l2, l3, l4⟩ := LocationActor_Lock_first h m.comp m.scene a WL hL
    have hnew : LocationActor_NewLocation (LocationActor_Lock h m.comp m.scene a WL) WL WD
        = FVector.add WL
            (FVector.scale WD
              (Distance h (m.scene.ActorLocation a) WL
                + m.comp.SumInputAxisValue * m.comp.LocationDeepSpeed)) := by
      simp [LocationActor_NewLocation, l1, l3, l4]
    rw [hnew] at htick
    refine ⟨{ m with
        comp := LocationActor_Lock h m.comp m.scene a WL
        scene := m.scene.SetActorLocation h a
          (h.VInterpTo (m.scene.ActorLocation a)
            (FVector.add WL
              (FVector.scale WD
                (Distance h (m.scene.ActorLocation a) WL
                  + m.comp.SumInputAxisValue * m.comp.LocationDeepSpeed)))
            m.comp.LocationTimerDeltaTime m.comp.LocationSpeed) m.comp.bSweep },
      ?_, l1, l2, l3, rfl, fun hlaws hfix => ?_⟩
    · simp [Step, hk, TimerCallback, htick]
    · show m.scene.SetActorLocation h a _ m.comp.bSweep = m.scene
      rw [hfix]
      obtain ⟨t, _, _, ht⟩ := hlaws.1 (m.scene.ActorLocation a) (m.scene.ActorLocation a)
        m.comp.LocationTimerDeltaTime m.comp.LocationSpeed
      rw [ht, FVector_Along_self]
      exact Scene_SetActorLocation_self h hlaws m.scene a m.comp.bSweep
  · obtain ⟨hc1, _⟩ := Step_Start_comp h e0 m0 m1 hs
    rw [hc1] at hT1
    obtain ⟨b, hB, hPC1, _, hSum, hkk⟩ := Start_started_session h m0 hm0 e0 hT hT1
    obtain ⟨hL1, hTimer⟩ := hkk TimerKind.Location (by rw [hS]; rfl)
    rw [← hc1] at hB hPC1 hL1 hTimer hSum hT1
    refine ⟨_, Run_CallsInput h inputs m1 hT1, hTimer hW, hL1, hPC1, ?_, rfl, ?_⟩
    · show m1.comp.TransformActor ≠ none
      rw [hB]; simp
    · show m1.comp.SumInputAxisValue + (inputs.map Prod.snd).sum = _
      rw [hSum, zero_add]

/-- C18, the amended statement at two concrete runs over a level with actor 7 at
(10, 0, 0), the cursor ray from the origin along the X axis.  Scenario A, no input: the
first tick saves the distance 10 and the actor stays at (10, 0, 0).  With the input 1
before the first tick: the tick saves the distance 10 and moves the actor towards
(35, 0, 0), to (165/8, 0, 0). -/
theorem C18_first_location_tick_witness :
    (TimerActive (SampleAfter SampleSceneOnRay (CallsStarted ETS_Location)).comp
          TimerKind.Location = true
      ∧ LockFlag (SampleAfter SampleSceneOnRay (CallsStarted ETS_Location)).comp
          TimerKind.Location = false
      ∧ ∃ m2, Step SampleHost SampleEnv
            (SampleAfter SampleSceneOnRay (CallsStarted ETS_Location))
            (Call.Tick TimerKind.Location) = some m2
          ∧ m2.comp.DistanceToCursorSave = 10
          ∧ m2.comp.bIsLockFirstIterationLocationTimer = true
          ∧ m2.scene.ActorLocation 7 = ⟨10, 0, 0⟩)
      ∧ (TimerActive (SampleAfter SampleSceneOnRay CallsStartedInput).comp
            TimerKind.Location = true
        ∧ Reachable SampleHost AnyCall (SampleAfter SampleSceneOnRay CallsStartedInput)
        ∧ ∃ m2, Step SampleHost SampleEnv (SampleAfter SampleSceneOnRay CallsStartedInput)
              (Call.Tick TimerKind.Location) = some m2
            ∧ m2.comp.DistanceToCursorSave = 10
            ∧ m2.comp.bIsLockFirstIterationLocationTimer = true
            ∧ m2.scene.ActorLocation 7 = ⟨165 / 8, 0, 0⟩) := by
  have hd : Distance SampleHost ⟨10, 0, 0⟩ ⟨0, 0, 0⟩ = 10 := by
    have : FVector.DistSquared ⟨10, 0, 0⟩ ⟨0, 0, 0⟩ = 100 := by
      simp [FVector.DistSquared]; norm_num
    rw [Distance, this, SampleHost_Sqrt_100]
  have hPC : ∀ calls, (SampleAfter SampleSceneOnRay calls).comp.PlayerController = some 0 →
      (SampleAfter SampleSceneOnRay calls).comp.PlayerController ≠ none := by
    intro calls hc; rw [hc]; simp
  refine ⟨⟨rfl, rfl, ?_⟩, ⟨rfl, Reachable_SampleAfter AnyCall _ _ (fun _ _ => trivial) rfl,
    ?_⟩⟩
  · obtain ⟨⟨m2, hstep, hdist, hlock, _, _, hstay⟩, _⟩ :=
      C18_first_location_tick SampleHost SampleEnv
        (SampleAfter SampleSceneOnRay (CallsStarted ETS_Location)) 7 ⟨0, 0, 0⟩ ⟨1, 0, 0⟩
        rfl rfl (hPC _ rfl) rfl rfl
    have hloc : (SampleAfter SampleSceneOnRay (CallsStarted ETS_Location)).scene.ActorLocation 7
        = ⟨10, 0, 0⟩ := rfl
    have hSum :
        (SampleAfter SampleSceneOnRay (CallsStarted ETS_Location)).comp.SumInputAxisValue
          = 0 := rfl
    rw [hloc, hd] at hdist
    refine ⟨m2, hstep, hdist, hlock, ?_⟩
    rw [hstay SampleHost_EngineLocationLaws (by
      rw [hloc, hd, hSum]; simp [FVector.add, FVector.scale])]
    exact hloc
  · obtain ⟨⟨m2, hstep, hdist, hlock, _, hscene, _⟩, _⟩ :=
      C18_first_location_tick SampleHost SampleEnv
        (SampleAfter SampleSceneOnRay CallsStartedInput) 7 ⟨0, 0, 0⟩ ⟨1, 0, 0⟩
        rfl rfl (hPC _ rfl) rfl rfl
    have hloc : (SampleAfter SampleSceneOnRay CallsStartedInput).scene.ActorLocation 7
        = ⟨10, 0, 0⟩ := rfl
    have hSum : (SampleAfter SampleSceneOnRay CallsStartedInput).comp.SumInputAxisValue
        = 0 + 1 := rfl
    have hDeep : (SampleAfter SampleSceneOnRay CallsStartedInput).comp.LocationDeepSpeed
        = 25 := rfl
    have hdt : (SampleAfter SampleSceneOnRay CallsStartedInput).comp.LocationTimerDeltaTime
        = 17 / 1000 := rfl
    have hsp : (SampleAfter SampleSceneOnRay CallsStartedInput).comp.LocationSpeed
        = 25 := rfl
    have hsw : (SampleAfter SampleSceneOnRay CallsStartedInput).comp.bSweep = false := rfl
    rw [hloc, hd] at hdist
    refine ⟨m2, hstep, hdist, hlock, ?_⟩
    rw [hscene, hloc, hd, hSum, hDeep, hdt, hsp, hsw]
    simp [Scene.SetActorLocation, SampleHost, FVector.DistSquared, FVector.add,
      FVector.scale, FVector.sub]
    norm_num

/-! ## C19, C20: location ticks and accumulated input -/

/-- C19.  Every `LocationActor` tick with a controller, a deprojected cursor ray (origin
`WL`, direction `WD`) and a target `a` happens; it leaves the accumulated input as it is
and, after the first tick, the whole component; its candidate position is
`WL + WD * (DistanceToCursorSave + SumInputAxisValue * LocationDeepSpeed)`; the target is
moved to `VInterpTo` of its current position towards the candidate (through a sweep when
`bSweep` is set).  With on-segment engine routines (`EngineLocationLaws`) the new
position is on the segment from the current position to the candidate, and the level is
unchanged when the candidate is the current position.  When `VInterpTo` is the
interpolation of the specification and no sweep is made, the new position is at the
fraction clamp(`LocationTimerDeltaTime * LocationSpeed`, 0, 1) of that segment. -/
theorem C19_location_tick (h : Host) (e : Env) (c : Component) (sc : Scene) (a : ℕ)
    (WL WD : FVector) (hPC : c.PlayerController ≠ none)
    (hD : e.DeprojectMousePositionToWorld = some (WL, WD))
    (hA : c.TransformActor = some a) :
    ∃ c1 sc1, LocationActor h e c sc = some (c1, sc1)
      ∧ c1.SumInputAxisValue = c.SumInputAxisValue
      ∧ (c.bIsLockFirstIterationLocationTimer = true → c1 = c)
      ∧ LocationActor_NewLocation c1 WL WD
          = ⟨WL.X + WD.X * (c1.DistanceToCursorSave
                + c1.SumInputAxisValue * c1.LocationDeepSpeed),
              WL.Y + WD.Y * (c1.DistanceToCursorSave
                + c1.SumInputAxisValue * c1.LocationDeepSpeed),
              WL.Z + WD.Z * (c1.DistanceToCursorSave
                + c1.SumInputAxisValue * c1.LocationDeepSpeed)⟩
      ∧ sc1 = sc.SetActorLocation h a
            (h.VInterpTo (sc.ActorLocation a) (LocationActor_NewLocation c1 WL WD)
              c.LocationTimerDeltaTime c.LocationSpeed) c.bSweep
      ∧ (EngineLocationLaws h →
          ∃ t : ℚ, 0 ≤ t ∧ t ≤ 1
            ∧ sc1.ActorLocation a
                = FVector.Along (sc.ActorLocation a) (LocationActor_NewLocation c1 WL WD) t)
      ∧ (EngineLocationLaws h →
          LocationActor_NewLocation c1 WL WD = sc.ActorLocation a → sc1 = sc)
      ∧ (h.VInterpTo = VInterpToSpec → c.bSweep = false →
          sc1.ActorLocation a
            = FVector.Along (sc.ActorLocation a) (LocationActor_NewLocation c1 WL WD)
                (max 0 (min (c.LocationTimerDeltaTime * c.LocationSpeed) 1))) := by
  refine ⟨_, _, LocationActor_eq h e c sc a WL WD hPC hD hA, ?_, ?_, rfl, rfl, ?_, ?_, ?_⟩
  · cases hL : c.bIsLockFirstIterationLocationTimer <;> simp [LocationActor_Lock, hL]
  · exact fun hL => LocationActor_Lock_next h c sc a WL hL
  · exact fun hlaws => Scene_SetActorLocation_segment h hlaws sc a _ _ _ _
  · intro hlaws hfix
    rw [hfix]
    obtain ⟨t, _, _, ht⟩ := hlaws.1 (sc.ActorLocation a) (sc.ActorLocation a)
      c.LocationTimerDeltaTime c.LocationSpeed
    rw [ht, FVector_Along_self]
    exact Scene_SetActorLocation_self h hlaws sc a c.bSweep
  · intro hV hSw
    rw [Scene_SetActorLocation_at, hSw, hV]
    rfl

/-- C19 at Scenario A, second tick: cursor ray from the origin along the X axis, saved
distance 10, no accumulated input, actor 7 at (10, 0, 0).  The candidate position is
(10, 0, 0) and the actor stays at (10, 0, 0). -/
theorem C19_location_tick_witness :
    SampleLocationLocked.PlayerController ≠ none
      ∧ SampleEnv.DeprojectMousePositionToWorld = some (⟨0, 0, 0⟩, ⟨1, 0, 0⟩)
      ∧ SampleLocationLocked.TransformActor = some 7
      ∧ SampleLocationLocked.DistanceToCursorSave = 10
      ∧ SampleLocationLocked.SumInputAxisValue = 0
      ∧ SampleSceneOnRay.ActorLocation 7 = ⟨10, 0, 0⟩
      ∧ ∃ c1 sc1, LocationActor SampleHost SampleEnv SampleLocationLocked SampleSceneOnRay
            = some (c1, sc1)
          ∧ LocationActor_NewLocation c1 ⟨0, 0, 0⟩ ⟨1, 0, 0⟩ = ⟨10, 0, 0⟩
          ∧ sc1.ActorLocation 7 = ⟨10, 0, 0⟩ := by
  have hPC : SampleLocationLocked.PlayerController ≠ none := by
    have : SampleLocationLocked.PlayerController = some 0 := rfl
    rw [this]; simp
  refine ⟨hPC, rfl, rfl, rfl, rfl, rfl, ?_⟩
  obtain ⟨c1, sc1, hr, _, hsame, hcand, _, _, hstay, _⟩ :=
    C19_location_tick SampleHost SampleEnv SampleLocationLocked SampleSceneOnRay 7
      ⟨0, 0, 0⟩ ⟨1, 0, 0⟩ hPC rfl rfl
  have hc1 : c1 = SampleLocationLocked := hsame rfl
  have hDist : SampleLocationLocked.DistanceToCursorSave = 10 := rfl
  have hSum : SampleLocationLocked.SumInputAxisValue = 0 := rfl
  have hnew : LocationActor_NewLocation c1 ⟨0, 0, 0⟩ ⟨1, 0, 0⟩ = ⟨10, 0, 0⟩ := by
    rw [hcand, hc1, hDist, hSum]
    norm_num
  refine ⟨c1, sc1, hr, hnew, ?_⟩
  rw [hstay SampleHost_EngineLocationLaws (by rw [hnew]; rfl)]
  rfl

theorem CalcSum_fold (vs : List ℚ) (c : Component) (hT : c.bIsTransform = true) :
    vs.foldl (fun d v => CalcSumInputAxisValue v d) c
      = { c with SumInputAxisValue := c.SumInputAxisValue + vs.sum } := by
  induction vs generalizing c with
  | nil => simp
  | cons v vs ih =>
    have hstep : CalcSumInputAxisValue v c
        = { c with SumInputAxisValue := c.SumInputAxisValue + v } := by
      simp [CalcSumInputAxisValue, hT]
    rw [List.foldl_cons, hstep]
    have hrest := ih { c with SumInputAxisValue := c.SumInputAxisValue + v } hT
    rw [hrest, List.sum_cons, add_assoc]

/-- C20.  `CalcSumInputAxisValue(v)` returns the component unchanged when it is not
transforming; when it is transforming the result is the component with v added to
`SumInputAxisValue` and nothing else changed.  Every `StartTransformationActor` that
turns the transforming flag on leaves `SumInputAxisValue` at 0, and after it the inputs
v_1, ..., v_n in a row leave the component with `SumInputAxisValue` = v_1 + ... + v_n
and nothing else changed. -/
theorem C20_CalcSum_accumulates :
    (∀ (v : ℚ) (c : Component), c.bIsTransform = false → CalcSumInputAxisValue v c = c)
      ∧ (∀ (v : ℚ) (c : Component), c.bIsTransform = true →
          CalcSumInputAxisValue v c
            = { c with SumInputAxisValue := c.SumInputAxisValue + v })
      ∧ (∀ (h : Host) (e : Env) (c : Component), c.bIsTransform = false →
          (StartTransformationActor h e c).1.bIsTransform = true →
          (StartTransformationActor h e c).1.SumInputAxisValue = 0)
      ∧ (∀ (h : Host) (e : Env) (c : Component) (vs : List ℚ), c.bIsTransform = false →
          (StartTransformationActor h e c).1.bIsTransform = true →
          vs.foldl (fun d v => CalcSumInputAxisValue v d) (StartTransformationActor h e c).1
            = { (StartTransformationActor h e c).1 with SumInputAxisValue := vs.sum }) := by
  have hzero : ∀ (h : Host) (e : Env) (c : Component), c.bIsTransform = false →
      (StartTransformationActor h e c).1.bIsTransform = true →
      (StartTransformationActor h e c).1.SumInputAxisValue = 0 := by
    intro h e c hT hT1
    obtain ⟨a, _, _, _, _, hst⟩ := Start_started h e c hT hT1
    rw [hst]
    exact (StartTransformTimer_keeps h e c.TransformState
      { c with SumInputAxisValue := 0 }).2.2
  refine ⟨fun v c hT => by simp [CalcSumInputAxisValue, hT],
    fun v c hT => by simp [CalcSumInputAxisValue, hT], hzero, fun h e c vs hT hT1 => ?_⟩
  rw [CalcSum_fold vs _ hT1, hzero h e c hT hT1, zero_add]

theorem ScaleKeyboardBasic_accept (D : FVector) (c : Component) (sc : Scene) (a : ℕ)
    (hA : c.TransformActor = some a)
    (hab : FVector.AllAbove (ScaleKeyboard_Candidate sc a D) c.MinScale) :
    ScaleKeyboardBasic D c sc = (c, sc.SetActorScale3D a (ScaleKeyboard_Candidate sc a D)) := by
  obtain ⟨h1, h2, h3⟩ := hab
  have hno : ¬ ((ScaleKeyboard_Candidate sc a D).X ≤ c.MinScale
      ∨ (ScaleKeyboard_Candidate sc a D).Y ≤ c.MinScale
      ∨ (ScaleKeyboard_Candidate sc a D).Z ≤ c.MinScale) := by
    rintro (g | g | g)
    · exact absurd h1 (not_lt.mpr g)
    · exact absurd h2 (not_lt.mpr g)
    · exact absurd h3 (not_lt.mpr g)
  unfold ScaleKeyboard_Candidate at hno
  simp only [ScaleKeyboardBasic, hA, hno, if_false, ScaleKeyboard_Candidate]

theorem ScaleKeyboardBasic_reject (D : FVector) (c : Component) (sc : Scene) (a : ℕ)
    (hA : c.TransformActor = some a)
    (hab : ¬ FVector.AllAbove (ScaleKeyboard_Candidate sc a D) c.MinScale) :
    ScaleKeyboardBasic D c sc = (c, sc) := by
  have hyes : (ScaleKeyboard_Candidate sc a D).X ≤ c.MinScale
      ∨ (ScaleKeyboard_Candidate sc a D).Y ≤ c.MinScale
      ∨ (ScaleKeyboard_Candidate sc a D).Z ≤ c.MinScale := by
    by_contra hcon
    rw [not_or, not_or, not_le, not_le, not_le] at hcon
    exact hab ⟨hcon.1, hcon.2.1, hcon.2.2⟩
  unfold ScaleKeyboard_Candidate at hyes
  simp only [ScaleKeyboardBasic, hA, hyes, if_true, Scene_SetActorScale3D_self]

theorem ScaleKeyboardBasic_floor (D : FVector) (c : Component) (sc : Scene) (a : ℕ)
    (hA : c.TransformActor = some a)
    (hprior : FVector.AllAbove (sc.ActorScale3D a) c.MinScale) :
    FVector.AllAbove ((ScaleKeyboardBasic D c sc).2.ActorScale3D a) c.MinScale := by
  by_cases hab : FVector.AllAbove (ScaleKeyboard_Candidate sc a D) c.MinScale
  · rw [ScaleKeyboardBasic_accept D c sc a hA hab]
    simpa [Scene.SetActorScale3D] using hab
  · rw [ScaleKeyboardBasic_reject D c sc a hA hab]
    exact hprior

/-- C21.  For each of `ScaleKeyboard`, `ScaleXKeyboard`, `ScaleYKeyboard` and
`ScaleZKeyboard`, called with a non-zero `AxisValue` while an actor `a` is selected: the
call is `ScaleKeyboardBasic` with the delta `AxisValue * ScaleSpeedKeyboard` on all axes
or on the named axis only.  For every delta, with n = current scale + delta: when every
axis of n is strictly greater than `MinScale` the scale of the actor becomes n, otherwise
the level is left exactly as it was; the component is unchanged; and a scale whose axes
are all above `MinScale` stays above `MinScale`. -/
theorem C21_scale_nudge (AxisValue : ℚ) (c : Component) (sc : Scene) (a : ℕ)
    (hv : AxisValue ≠ 0) (hA : c.TransformActor = some a) :
    ScaleKeyboard AxisValue c sc
        = ScaleKeyboardBasic ⟨AxisValue * c.ScaleSpeedKeyboard,
            AxisValue * c.ScaleSpeedKeyboard, AxisValue * c.ScaleSpeedKeyboard⟩ c sc
      ∧ ScaleXKeyboard AxisValue c sc
        = ScaleKeyboardBasic ⟨AxisValue * c.ScaleSpeedKeyboard, 0, 0⟩ c sc
      ∧ ScaleYKeyboard AxisValue c sc
        = ScaleKeyboardBasic ⟨0, AxisValue * c.ScaleSpeedKeyboard, 0⟩ c sc
      ∧ ScaleZKeyboard AxisValue c sc
        = ScaleKeyboardBasic ⟨0, 0, AxisValue * c.ScaleSpeedKeyboard⟩ c sc
      ∧ ∀ D : FVector,
          ScaleKeyboard_Candidate sc a D
              = ⟨(sc.ActorScale3D a).X + D.X, (sc.ActorScale3D a).Y + D.Y,
                  (sc.ActorScale3D a).Z + D.Z⟩
            ∧ (ScaleKeyboardBasic D c sc).1 = c
            ∧ (FVector.AllAbove (ScaleKeyboard_Candidate sc a D) c.MinScale →
                (ScaleKeyboardBasic D c sc).2.ActorScale3D a = ScaleKeyboard_Candidate sc a D)
            ∧ (¬ FVector.AllAbove (ScaleKeyboard_Candidate sc a D) c.MinScale →
                (ScaleKeyboardBasic D c sc).2 = sc)
            ∧ (FVector.AllAbove (sc.ActorScale3D a) c.MinScale →
                FVector.AllAbove ((ScaleKeyboardBasic D c sc).2.ActorScale3D a)
                  c.MinScale) := by
  refine ⟨by simp [ScaleKeyboard, hv, FVector.splat], by simp [ScaleXKeyboard, hv],
    by simp [ScaleYKeyboard, hv], by simp [ScaleZKeyboard, hv], fun D => ?_⟩
  refine ⟨rfl, ?_, fun hab => ?_, fun hab => ?_, ScaleKeyboardBasic_floor D c sc a hA⟩
  · by_cases hab : FVector.AllAbove (ScaleKeyboard_Candidate sc a D) c.MinScale
    · rw [ScaleKeyboardBasic_accept D c sc a hA hab]
    · rw [ScaleKeyboardBasic_reject D c sc a hA hab]
  · rw [ScaleKeyboardBasic_accept D c sc a hA hab]
    simp [Scene.SetActorScale3D]
  · rw [ScaleKeyboardBasic_reject D c sc a hA hab]

/-- C21 at concrete nudges of actor 7 with scale (1, 1, 1): `ScaleKeyboard(1)` gives
(11/10, 11/10, 11/10), and `ScaleXKeyboard(-10)`, whose sum has the X axis at 0, leaves
the level as it was. -/
theorem C21_scale_nudge_witness :
    (1 : ℚ) ≠ 0 ∧ SampleSelected.TransformActor = some 7
      ∧ (ScaleKeyboard 1 SampleSelected SampleScene).2.ActorScale3D 7
          = ⟨11 / 10, 11 / 10, 11 / 10⟩
      ∧ (ScaleXKeyboard (-10) SampleSelected SampleScene).2 = SampleScene := by
  have hS : SampleSelected.ScaleSpeedKeyboard = 1 / 10 := rfl
  have hMin : SampleSelected.MinScale = 1 / 100 := rfl
  have hsc : SampleScene.ActorScale3D 7 = ⟨1, 1, 1⟩ := rfl
  obtain ⟨k1, _, _, _, kD⟩ := C21_scale_nudge 1 SampleSelected SampleScene 7 one_ne_zero rfl
  refine ⟨one_ne_zero, rfl, ?_, ?_⟩
  · obtain ⟨kc, _, kacc, _, _⟩ := kD ⟨1 * SampleSelected.ScaleSpeedKeyboard,
      1 * SampleSelected.ScaleSpeedKeyboard, 1 * SampleSelected.ScaleSpeedKeyboard⟩
    rw [k1, kacc (by rw [kc, hsc, hS, hMin]; norm_num [FVector.AllAbove]), kc, hsc, hS]
    norm_num
  · obtain ⟨kc, _, _, krej, _⟩ := kD ⟨(-10) * SampleSelected.ScaleSpeedKeyboard, 0, 0⟩
    have hx : ScaleXKeyboard (-10) SampleSelected SampleScene
        = ScaleKeyboardBasic ⟨(-10) * SampleSelected.ScaleSpeedKeyboard, 0, 0⟩
            SampleSelected SampleScene := by
      simp [ScaleXKeyboard]
    rw [hx, krej (by rw [kc, hsc, hS, hMin]; norm_num [FVector.AllAbove])]

theorem ScaleKeyboardBasic_none (D : FVector) (c : Component) (sc : Scene)
    (hA : c.TransformActor = none) : ScaleKeyboardBasic D c sc = (c, sc) := by
  simp [ScaleKeyboardBasic, hA]

theorem RotationKeyboardBasic_none (h : Host) (v : ℚ) (Axe : FVector) (c : Component)
    (sc : Scene) (hA : c.TransformActor = none) :
    RotationKeyboardBasic h v Axe c sc = (c, sc) := by
  simp [RotationKeyboardBasic, hA]

theorem LocationKeyboardBasic_none (h : Host) (t : TransformHost) (f : FrameEnv)
    (D : FVector) (c : Component) (sc : Scene)
    (hA : c.TransformActor = none ∨ c.PlayerPawn = none) :
    LocationKeyboardBasic h t f D c sc = (c, sc) := by
  rcases hT : c.TransformActor with _ | a
  · simp [LocationKeyboardBasic, hT]
  · rcases hA with hA | hA
    · rw [hT] at hA; exact absurd hA (by simp)
    · simp [LocationKeyboardBasic, hT, hA]

theorem ScaleKeyboardBasic_pawn (D : FVector) (c : Component) (sc : Scene)
    (p : Option ℕ) :
    ScaleKeyboardBasic D { c with PlayerPawn := p } sc
      = ({ c with PlayerPawn := p }, (ScaleKeyboardBasic D c sc).2) := by
  rcases hT : c.TransformActor with _ | a <;> simp [ScaleKeyboardBasic, hT]

/-- C22, counterexample.  Scale mode, actor 7 with scale (1, 1, 1) selected, then a
`SwitchOnTransformationMode` while the controller has no pawn, which leaves `PlayerPawn`
null and actor 7 selected.  `ScaleKeyboard(1)` then changes the scale of actor 7 to
(11/10, 11/10, 11/10): a scale nudge without a controlling pawn is not a no-op. -/
theorem C22_scale_nudge_without_pawn :
    Reachable SampleHost AnyCall (SampleAfter SampleScene CallsPawnLost)
      ∧ (CompAfter CallsPawnLost).PlayerPawn = none
      ∧ (CompAfter CallsPawnLost).TransformActor = some 7
      ∧ SampleScene.ActorScale3D 7 = ⟨1, 1, 1⟩
      ∧ (ScaleKeyboard 1 (CompAfter CallsPawnLost) SampleScene).2.ActorScale3D 7
          = ⟨11 / 10, 11 / 10, 11 / 10⟩
      ∧ (ScaleKeyboard 1 (CompAfter CallsPawnLost) SampleScene).2 ≠ SampleScene := by
  have hval : (ScaleKeyboard 1 (CompAfter CallsPawnLost) SampleScene).2.ActorScale3D 7
      = ⟨11 / 10, 11 / 10, 11 / 10⟩ := by
    have hA : (CompAfter CallsPawnLost).TransformActor = some 7 := rfl
    have hS : (CompAfter CallsPawnLost).ScaleSpeedKeyboard = 1 / 10 := rfl
    have hMin : (CompAfter CallsPawnLost).MinScale = 1 / 100 := rfl
    have hsc : SampleScene.ActorScale3D 7 = ⟨1, 1, 1⟩ := rfl
    have hc : ScaleKeyboard_Candidate SampleScene 7
        (FVector.splat (1 * (CompAfter CallsPawnLost).ScaleSpeedKeyboard))
        = ⟨11 / 10, 11 / 10, 11 / 10⟩ := by
      simp only [ScaleKeyboard_Candidate, FVector.add, FVector.splat, hsc, hS]
      norm_num
    have hk : ScaleKeyboard 1 (CompAfter CallsPawnLost) SampleScene
        = ScaleKeyboardBasic (FVector.splat (1 * (CompAfter CallsPawnLost).ScaleSpeedKeyboard))
            (CompAfter CallsPawnLost) SampleScene := by
      simp [ScaleKeyboard]
    rw [hk, ScaleKeyboardBasic_accept _ _ _ 7 hA (by
      rw [hc, hMin]; norm_num [FVector.AllAbove]), hc]
    simp [Scene.SetActorScale3D]
  refine ⟨Reachable_SampleAfter AnyCall _ _ (fun _ _ => trivial) rfl, rfl, rfl, rfl, hval,
    fun hcon => ?_⟩
  rw [hcon] at hval
  have hsc : SampleScene.ActorScale3D 7 = ⟨1, 1, 1⟩ := rfl
  rw [hsc] at hval
  simp only [FVector.mk.injEq] at hval
  norm_num at hval

/-- C22, amended.  Each of the ten keyboard nudges returns the component and the level
unchanged when no actor is selected, and when it is called with `AxisValue` 0.  The
three location nudges and the three rotation nudges also return them unchanged when
`PlayerPawn` is null.  The four scale nudges do not read `PlayerPawn`: with any value of
it they change the level exactly as they do otherwise. -/
theorem C22_nudge_noops (h : Host) (t : TransformHost) (f : FrameEnv) (e : Env)
    (AxisValue : ℚ) (c : Component) (sc : Scene) :
    (c.TransformActor = none →
        ∀ n ∈ LocationNudges h t f AxisValue ++ RotationNudges h e AxisValue
          ++ ScaleNudges AxisValue, n c sc = (c, sc))
      ∧ (c.PlayerPawn = none →
        ∀ n ∈ LocationNudges h t f AxisValue ++ RotationNudges h e AxisValue,
          n c sc = (c, sc))
      ∧ (∀ n ∈ LocationNudges h t f 0 ++ RotationNudges h e 0 ++ ScaleNudges 0,
          n c sc = (c, sc))
      ∧ (∀ (p : Option ℕ) (n) (_ : n ∈ ScaleNudges AxisValue),
          n { c with PlayerPawn := p } sc = ({ c with PlayerPawn := p }, (n c sc).2)) := by
  refine ⟨fun hA n hn => ?_, fun hP n hn => ?_, fun n hn => ?_, fun p n hn => ?_⟩
  · simp only [LocationNudges, RotationNudges, ScaleNudges, List.mem_append, List.mem_cons,
      List.mem_singleton, List.not_mem_nil, or_false] at hn
    rcases hn with (((rfl | rfl | rfl) | (rfl | rfl | rfl)) | (rfl | rfl | rfl | rfl)) <;>
      simp [LocationLeftRightKeyboard, LocationUpDownKeyboard,
        LocationInsideOutsideKeyboard, RotationRollKeyboard, RotationPitchKeyboard,
        RotationYawKeyboard, ScaleKeyboard, ScaleXKeyboard, ScaleYKeyboard, ScaleZKeyboard,
        LocationKeyboardBasic_none h t f _ c sc (Or.inl hA),
        RotationKeyboardBasic_none h _ _ c sc hA, ScaleKeyboardBasic_none _ c sc hA]
  · simp only [LocationNudges, RotationNudges, List.mem_append, List.mem_cons,
      List.mem_singleton, List.not_mem_nil, or_false] at hn
    rcases hn with ((rfl | rfl | rfl) | (rfl | rfl | rfl)) <;>
      simp [LocationLeftRightKeyboard, LocationUpDownKeyboard,
        LocationInsideOutsideKeyboard, RotationRollKeyboard, RotationPitchKeyboard,
        RotationYawKeyboard, hP, LocationKeyboardBasic_none h t f _ c sc (Or.inr hP)]
  · simp only [LocationNudges, RotationNudges, ScaleNudges, List.mem_append, List.mem_cons,
      List.mem_singleton, List.not_mem_nil, or_false] at hn
    rcases hn with (((rfl | rfl | rfl) | (rfl | rfl | rfl)) | (rfl | rfl | rfl | rfl)) <;>
      simp [LocationLeftRightKeyboard, LocationUpDownKeyboard,
        LocationInsideOutsideKeyboard, RotationRollKeyboard, RotationPitchKeyboard,
        RotationYawKeyboard, ScaleKeyboard, ScaleXKeyboard, ScaleYKeyboard, ScaleZKeyboard]
  · simp only [ScaleNudges, List.mem_cons, List.mem_singleton, List.not_mem_nil,
      or_false] at hn
    rcases hn with rfl | rfl | rfl | rfl <;>
      by_cases hv : AxisValue = 0 <;>
      simp [ScaleKeyboard, ScaleXKeyboard, ScaleYKeyboard, ScaleZKeyboard, hv,
        ScaleKeyboardBasic_pawn]

theorem SampleTransformHost_Rotate (v : FVector) :
    SampleTransformHost.RotateVector SampleFrame.Rotation v = ⟨-v.Y, v.X, v.Z⟩ := by
  cases v
  simp only [SampleTransformHost, SampleFrame, FVector.add, FVector.scale, FVector.cross,
    FVector.mk.injEq]
  refine ⟨?_, ?_, ?_⟩ <;> norm_num <;> ring

theorem SampleTransformHost_Inverse (p : FVector) :
    SampleTransformHost.InverseTransformLocation SampleFrame p
      = ⟨(p.Y - 5) / 2, -(p.X - 5) / 2, (p.Z - 5) / 2⟩ := by
  cases p
  simp only [SampleTransformHost, SampleFrame, FVector.add, FVector.scale, FVector.cross,
    FVector.sub, FVector.mk.injEq]
  refine ⟨?_, ?_, ?_⟩ <;> norm_num <;> ring

theorem SampleTransformHost_laws : EngineTransformLaws SampleTransformHost SampleFrame := by
  refine ⟨fun v => rfl, fun _ p => ?_, fun u v => ?_⟩
  · rw [TransformLocation, SampleTransformHost_Rotate, SampleTransformHost_Inverse]
    cases p
    simp only [SampleFrame, FVector.mul, FVector.add, FVector.mk.injEq]
    refine ⟨?_, ?_, ?_⟩ <;> ring
  · rw [SampleTransformHost_Rotate, SampleTransformHost_Rotate, SampleTransformHost_Rotate]
    cases u; cases v
    simp only [FVector.add, FVector.mk.injEq, and_true]
    ring

theorem LocationKeyboardBasic_eq (h : Host) (t : TransformHost) (f : FrameEnv)
    (D : FVector) (c : Component) (sc : Scene) (a : ℕ) (hA : c.TransformActor = some a)
    (hP : c.PlayerPawn ≠ none) :
    LocationKeyboardBasic h t f D c sc
      = (c, sc.SetActorLocation h a
          (t.ComposeTransforms
            (t.OfTranslation
              (FVector.add
                (t.InverseTransformLocation (ComponentAxisTransform f c) (sc.ActorLocation a))
                D))
            (ComponentAxisTransform f c)).Translation c.bSweep) := by
  simp [LocationKeyboardBasic, hA, hP]

theorem FVector_mul_add (s u v : FVector) :
    FVector.mul s (FVector.add u v) = FVector.add (FVector.mul s u) (FVector.mul s v) := by
  cases s; cases u; cases v
  simp only [FVector.mul, FVector.add, FVector.mk.injEq]
  refine ⟨?_, ?_, ?_⟩ <;> ring

theorem FVector_add_right_comm (u v w : FVector) :
    FVector.add (FVector.add u v) w = FVector.add (FVector.add u w) v := by
  cases u; cases v; cases w
  simp only [FVector.add, FVector.mk.injEq]
  refine ⟨?_, ?_, ?_⟩ <;> ring

theorem TransformLocation_nudge (t : TransformHost) (T : FTransform)
    (hlaws : EngineTransformLaws t T)
    (hS : T.Scale3D.X ≠ 0 ∧ T.Scale3D.Y ≠ 0 ∧ T.Scale3D.Z ≠ 0) (p D : FVector) :
    TransformLocation t T (FVector.add (t.InverseTransformLocation T p) D)
      = FVector.add p (t.RotateVector T.Rotation (FVector.mul T.Scale3D D)) := by
  obtain ⟨_, l2, l3⟩ := hlaws
  have hp := l2 hS p
  unfold TransformLocation at hp ⊢
  rw [FVector_mul_add, l3, FVector_add_right_comm, hp]

theorem Rotate_cancel (t : TransformHost) (T : FTransform)
    (hlaws : EngineTransformLaws t T) (p x : FVector) :
    FVector.add (FVector.add p (t.RotateVector T.Rotation x))
        (t.RotateVector T.Rotation (FVector.neg x)) = p := by
  obtain ⟨_, _, l3⟩ := hlaws
  have h0 := l3 ⟨0, 0, 0⟩ ⟨0, 0, 0⟩
  have hz : FVector.add ⟨0, 0, 0⟩ ⟨0, 0, 0⟩ = (⟨0, 0, 0⟩ : FVector) := by
    simp [FVector.add]
  rw [hz] at h0
  have hx := l3 x (FVector.neg x)
  have hxz : FVector.add x (FVector.neg x) = ⟨0, 0, 0⟩ := by
    cases x; simp [FVector.add, FVector.neg]
  rw [hxz] at hx
  generalize t.RotateVector T.Rotation ⟨0, 0, 0⟩ = z at h0 hx
  generalize t.RotateVector T.Rotation x = r at hx ⊢
  generalize t.RotateVector T.Rotation (FVector.neg x) = s at hx ⊢
  cases z; cases r; cases s; cases p
  simp only [FVector.add, FVector.mk.injEq] at h0 hx ⊢
  obtain ⟨a1, a2, a3⟩ := h0
  obtain ⟨b1, b2, b3⟩ := hx
  refine ⟨?_, ?_, ?_⟩ <;> linarith

theorem FVector_mul_neg (s v : FVector) :
    FVector.mul s (FVector.neg v) = FVector.neg (FVector.mul s v) := by
  cases s; cases v
  simp [FVector.mul, FVector.neg]

theorem Scene_SetActorLocation_back (h : Host) (sc : Scene) (a : ℕ) (q : FVector) :
    (sc.SetActorLocation h a q false).SetActorLocation h a (sc.ActorLocation a) false
      = sc := by
  cases sc
  simp [Scene.SetActorLocation]

theorem LocationKeyboardBasic_unswept (h : Host) (t : TransformHost) (f : FrameEnv)
    (D : FVector) (c : Component) (sc : Scene) (a : ℕ) (hA : c.TransformActor = some a)
    (hP : c.PlayerPawn ≠ none) (hlaws : EngineTransformLaws t (ComponentAxisTransform f c))
    (hSw : c.bSweep = false) :
    LocationKeyboardBasic h t f D c sc
      = (c, sc.SetActorLocation h a
          (TransformLocation t (ComponentAxisTransform f c)
            (FVector.add
              (t.InverseTransformLocation (ComponentAxisTransform f c) (sc.ActorLocation a))
              D)) false) := by
  rw [LocationKeyboardBasic_eq h t f D c sc a hA hP, hlaws.1, hSw]

/-- C23, counterexample.  Actor 7 at (3, 4, 0) is selected, the pawn is present, `bSweep`
is set and every swept move is blocked at its start; the frame is `SampleFrame`.  The
point T(T^-1(p) + delta) for delta = (1, 0, 0) is (3, 6, 0), but after
`LocationKeyboardBasic(delta)` the actor is still at (3, 4, 0). -/
theorem C23_swept_nudge_is_blocked :
    EngineTransformLaws SampleTransformHost (ComponentAxisTransform SampleFrameEnv
        SampleSelectedSweep)
      ∧ SampleSelectedSweep.TransformActor = some 7
      ∧ SampleSelectedSweep.PlayerPawn = some 1
      ∧ SampleSelectedSweep.bSweep = true
      ∧ SampleScene.ActorLocation 7 = ⟨3, 4, 0⟩
      ∧ TransformLocation SampleTransformHost SampleFrame
          (FVector.add (SampleTransformHost.InverseTransformLocation SampleFrame ⟨3, 4, 0⟩)
            ⟨1, 0, 0⟩) = ⟨3, 6, 0⟩
      ∧ (LocationKeyboardBasic SampleHostBlocked SampleTransformHost SampleFrameEnv
            ⟨1, 0, 0⟩ SampleSelectedSweep SampleScene).2.ActorLocation 7 = ⟨3, 4, 0⟩
      ∧ (⟨3, 4, 0⟩ : FVector) ≠ ⟨3, 6, 0⟩ := by
  have hT : ComponentAxisTransform SampleFrameEnv SampleSelectedSweep = SampleFrame := rfl
  refine ⟨by rw [hT]; exact SampleTransformHost_laws, rfl, rfl, rfl, rfl, ?_, ?_, ?_⟩
  · rw [TransformLocation_nudge SampleTransformHost SampleFrame SampleTransformHost_laws
      (by simp [SampleFrame]), SampleTransformHost_Rotate]
    simp only [SampleFrame, FVector.mul, FVector.add, FVector.mk.injEq]
    norm_num
  · rw [LocationKeyboardBasic_eq SampleHostBlocked SampleTransformHost SampleFrameEnv _
      SampleSelectedSweep SampleScene 7 rfl (by
        have : SampleSelectedSweep.PlayerPawn = some 1 := rfl
        rw [this]; simp), Scene_SetActorLocation_at]
    rfl
  · simp only [ne_eq, FVector.mk.injEq, not_and]
    norm_num

/-- C23, amended.  With an actor `a` selected, the pawn present, the frame T =
`ComponentAxisTransform` (the transform of the component for the axes, or of the pawn
root when there is none) and a move that is not swept (`bSweep` false):
`LocationKeyboardBasic(delta)` leaves the component as it is and moves the actor from p
to T(T^-1(p) + delta).  When no axis of the scale S of T is zero this is p + R(S * delta)
for the rotation R of T, and a nudge by delta followed by a nudge by -delta gives back
the level.  The three location nudges with a non-zero `AxisValue` call it with
`AxisValue * LocationSpeedKeyboard` on the Y, Z and X axis.  The engine routines are
assumed to satisfy `EngineTransformLaws` for T. -/
theorem C23_location_nudge (h : Host) (t : TransformHost) (f : FrameEnv) (D : FVector)
    (c : Component) (sc : Scene) (a : ℕ) (hA : c.TransformActor = some a)
    (hP : c.PlayerPawn ≠ none) (hlaws : EngineTransformLaws t (ComponentAxisTransform f c))
    (hSw : c.bSweep = false) :
    (LocationKeyboardBasic h t f D c sc).1 = c
      ∧ (LocationKeyboardBasic h t f D c sc).2.ActorLocation a
          = TransformLocation t (ComponentAxisTransform f c)
              (FVector.add
                (t.InverseTransformLocation (ComponentAxisTransform f c)
                  (sc.ActorLocation a)) D)
      ∧ (((ComponentAxisTransform f c).Scale3D.X ≠ 0
            ∧ (ComponentAxisTransform f c).Scale3D.Y ≠ 0
            ∧ (ComponentAxisTransform f c).Scale3D.Z ≠ 0) →
          (LocationKeyboardBasic h t f D c sc).2.ActorLocation a
              = FVector.add (sc.ActorLocation a)
                  (t.RotateVector (ComponentAxisTransform f c).Rotation
                    (FVector.mul (ComponentAxisTransform f c).Scale3D D))
            ∧ (LocationKeyboardBasic h t f (FVector.neg D) c
                (LocationKeyboardBasic h t f D c sc).2).2 = sc)
      ∧ (∀ v : ℚ, v ≠ 0 →
          LocationLeftRightKeyboard h t f v c sc
              = LocationKeyboardBasic h t f ⟨0, v * c.LocationSpeedKeyboard, 0⟩ c sc
            ∧ LocationUpDownKeyboard h t f v c sc
              = LocationKeyboardBasic h t f ⟨0, 0, v * c.LocationSpeedKeyboard⟩ c sc
            ∧ LocationInsideOutsideKeyboard h t f v c sc
              = LocationKeyboardBasic h t f ⟨v * c.LocationSpeedKeyboard, 0, 0⟩ c sc) := by
  have hloc : ∀ (E : FVector) (s : Scene),
      (Scene.SetActorLocation h s a E false).ActorLocation a = E := by
    intro E s
    simp [Scene.SetActorLocation]
  refine ⟨?_, ?_, fun hS => ⟨?_, ?_⟩, fun v hv => ⟨?_, ?_, ?_⟩⟩
  · rw [LocationKeyboardBasic_unswept h t f D c sc a hA hP hlaws hSw]
  · rw [LocationKeyboardBasic_unswept h t f D c sc a hA hP hlaws hSw, hloc]
  · rw [LocationKeyboardBasic_unswept h t f D c sc a hA hP hlaws hSw, hloc,
      TransformLocation_nudge t _ hlaws hS]
  · rw [LocationKeyboardBasic_unswept h t f (FVector.neg D) c _ a hA hP hlaws hSw,
      LocationKeyboardBasic_unswept h t f D c sc a hA hP hlaws hSw]
    simp only [hloc]
    rw [TransformLocation_nudge t _ hlaws hS, TransformLocation_nudge t _ hlaws hS,
      FVector_mul_neg, Rotate_cancel t _ hlaws]
    exact Scene_SetActorLocation_back h sc a _
  · simp [LocationLeftRightKeyboard, hv]
  · simp [LocationUpDownKeyboard, hv]
  · simp [LocationInsideOutsideKeyboard, hv]

/-- C23, the amended statement at a concrete nudge: actor 7 at (3, 4, 0), the frame
`SampleFrame` (a quarter turn about Z, scale 2), delta (1, 0, 0), no sweep.  The actor
moves by R(S * delta) = (0, 2, 0) to (3, 6, 0), and the nudge by -delta gives back the
level. -/
theorem C23_location_nudge_witness :
    SampleSelected.TransformActor = some 7
      ∧ SampleSelected.PlayerPawn ≠ none
      ∧ EngineTransformLaws SampleTransformHost
          (ComponentAxisTransform SampleFrameEnv SampleSelected)
      ∧ SampleSelected.bSweep = false
      ∧ SampleScene.ActorLocation 7 = ⟨3, 4, 0⟩
      ∧ (LocationKeyboardBasic SampleHost SampleTransformHost SampleFrameEnv ⟨1, 0, 0⟩
            SampleSelected SampleScene).2.ActorLocation 7 = ⟨3, 6, 0⟩
      ∧ (LocationKeyboardBasic SampleHost SampleTransformHost SampleFrameEnv
            (FVector.neg ⟨1, 0, 0⟩) SampleSelected
            (LocationKeyboardBasic SampleHost SampleTransformHost SampleFrameEnv ⟨1, 0, 0⟩
              SampleSelected SampleScene).2).2 = SampleScene := by
  have hT : ComponentAxisTransform SampleFrameEnv SampleSelected = SampleFrame := rfl
  have hP : SampleSelected.PlayerPawn ≠ none := by
    have : SampleSelected.PlayerPawn = some 1 := rfl
    rw [this]; simp
  have hlaws : EngineTransformLaws SampleTransformHost
      (ComponentAxisTransform SampleFrameEnv SampleSelected) := by
    rw [hT]; exact SampleTransformHost_laws
  obtain ⟨_, _, key, _⟩ :=
    C23_location_nudge SampleHost SampleTransformHost SampleFrameEnv ⟨1, 0, 0⟩
      SampleSelected SampleScene 7 rfl hP hlaws rfl
  obtain ⟨k1, k2⟩ := key (by rw [hT]; simp [SampleFrame])
  refine ⟨rfl, hP, hlaws, rfl, rfl, ?_, k2⟩
  rw [k1, hT, SampleTransformHost_Rotate]
  have hsc : SampleScene.ActorLocation 7 = ⟨3, 4, 0⟩ := rfl
  rw [hsc]
  simp only [SampleFrame, FVector.mul, FVector.add, FVector.mk.injEq]
  norm_num

theorem LocationActor_fails (h : Host) (e : Env) (c : Component) (sc : Scene)
    (hq : c.PlayerController = none ∨ e.DeprojectMousePositionToWorld = none) :
    LocationActor h e c sc = some (c, sc) := by
  rcases hPC : c.PlayerController with _ | pc
  · simp [LocationActor, hPC]
  · rcases hq with hq | hq
    · rw [hPC] at hq; exact absurd hq (by simp)
    · simp [LocationActor, hPC, hq]

theorem RotationActor_fails (h : Host) (e : Env) (c : Component) (sc : Scene)
    (hq : c.PlayerController = none ∨ c.PlayerPawn = none ∨ e.MousePosition = none) :
    RotationActor h e c sc = some (c, sc) := by
  by_cases hC : CheckControllerAndPawn c = false
  · simp [RotationActor, hC]
  · rcases hq with hq | hq | hq
    · exact absurd (by simp [CheckControllerAndPawn, hq]) hC
    · exact absurd (by simp [CheckControllerAndPawn, hq]) hC
    · simp [RotationActor, hC, hq]

theorem ScaleActor_fails (h : Host) (e : Env) (c : Component) (sc : Scene)
    (hq : c.PlayerController = none ∨ e.MousePosition = none) :
    ScaleActor h e c sc = some (c, sc) := by
  rcases hPC : c.PlayerController with _ | pc
  · simp [ScaleActor, hPC]
  · rcases hq with hq | hq
    · rw [hPC] at hq; exact absurd hq (by simp)
    · simp [ScaleActor, hPC, hq]

/-- C24.  A tick whose environment query fails changes nothing.  `LocationActor`
without a controller or with a failed deprojection, `RotationActor` without a controller
or a pawn or with no mouse position, and `ScaleActor` without a controller or with no
mouse position each return the component and the level exactly as they were: the
transforms, the saved distance, the roll, pitch and yaw saves, the click coordinates,
`Scale3DSave`, `NewScale3D` and the three first-tick flags are unchanged.  A tick of a
set timer whose query fails leaves the machine as it was, so a first-tick flag that was
false is still false for the next tick. -/
theorem C24_failed_query_changes_nothing (h : Host) (e : Env) (c : Component)
    (sc : Scene) :
    ((c.PlayerController = none ∨ e.DeprojectMousePositionToWorld = none) →
        LocationActor h e c sc = some (c, sc))
      ∧ ((c.PlayerController = none ∨ c.PlayerPawn = none ∨ e.MousePosition = none) →
        RotationActor h e c sc = some (c, sc))
      ∧ ((c.PlayerController = none ∨ e.MousePosition = none) →
        ScaleActor h e c sc = some (c, sc))
      ∧ (∀ (m : Machine) (k : TimerKind), TimerActive m.comp k = true →
          QueryFails e m.comp k →
          Step h e m (Call.Tick k) = some m
            ∧ ∀ m2, Step h e m (Call.Tick k) = some m2 →
                LockFlag m2.comp k = LockFlag m.comp k) := by
  refine ⟨LocationActor_fails h e c sc, RotationActor_fails h e c sc,
    ScaleActor_fails h e c sc, fun m k hk hq => ?_⟩
  have hstep : Step h e m (Call.Tick k) = some m := by
    cases k
    · simp [Step, hk, TimerCallback, LocationActor_fails h e m.comp m.scene hq]
    · simp [Step, hk, TimerCallback, RotationActor_fails h e m.comp m.scene hq]
    · simp [Step, hk, TimerCallback, ScaleActor_fails h e m.comp m.scene hq]
  refine ⟨hstep, fun m2 h2 => ?_⟩
  rw [hstep] at h2
  rw [← Option.some.inj h2]

theorem StartedInv_Start (h : Host) (e : Env) (c : Component) (hinv : StartedInv c) :
    StartedInv (StartTransformationActor h e c).1 := by
  refine ⟨SelInv_Start h e c hinv.1, fun hT1 => ?_⟩
  cases hT : c.bIsTransform
  · obtain ⟨a, _, _, hP, _, hst⟩ := Start_started h e c hT hT1
    rw [hst, (StartTransformTimer_keeps h e c.TransformState _).2.1]
    show c.TransformActor ≠ none
    rw [hinv.1.1, hP]
    simp
  · rw [Start_noop h e c (Or.inl hT)]
    exact hinv.2 hT

theorem StartedInv_Stop (h : Host) (e : Env) (c : Component) (hinv : StartedInv c) :
    StartedInv (StopTransformationActor h e c).1 := by
  refine ⟨SelInv_Stop h e c hinv.1, fun hT1 => ?_⟩
  rw [(Stop_keeps h e c).2.1]
  rw [Stop_flag] at hT1
  by_cases hS : c.TransformState ≠ ETS_Idle
  · rw [if_pos hS] at hT1
    exact absurd hT1 (by simp)
  · rw [if_neg hS] at hT1
    exact hinv.2 hT1

theorem StartedInv_SwitchOn (e : Env) (s : ETransformState) (c : Component)
    (hinv : StartedInv c) : StartedInv (SwitchOnTransformationMode e s c).1 := by
  refine ⟨SelInv_SwitchOn e s c hinv.1, fun hT1 => ?_⟩
  obtain ⟨k1, _, k3⟩ := SwitchOn_keeps e s c
  rw [k1]
  rw [k3] at hT1
  exact hinv.2 hT1

theorem StartedInv_SwitchOff (h : Host) (e : Env) (c : Component) (hinv : StartedInv c) :
    StartedInv (SwitchOffTransformationMode h e c).1 := by
  refine ⟨SelInv_SwitchOff h e c hinv.1, fun hT1 => ?_⟩
  by_cases hS : c.TransformState = ETS_Idle
  · rw [SwitchOff_idle h e c hS] at hT1 ⊢
    exact hinv.2 hT1
  · rw [(SwitchOff_result h e c hS).2.2.2] at hT1
    exact absurd hT1 (by simp)

theorem Reachable_StartedInv (h : Host) (P : Env → Call → Prop) (m : Machine)
    (hm : Reachable h P m) : StartedInv m.comp := by
  induction hm with
  | init c sc hc =>
    refine ⟨Reachable_SelInv h P _ (Reachable.init c sc hc), fun hT => ?_⟩
    rw [hc.2.1] at hT
    exact absurd hT (by simp)
  | step m m' e call _ _ hs ih =>
    refine Step_inv StartedInv h e m m' call hs (fun s => StartedInv_SwitchOn e s m.comp)
      (StartedInv_SwitchOff h e m.comp) (StartedInv_Start h e m.comp)
      (StartedInv_Stop h e m.comp) (fun c' hc hinv => ?_) ih
    have hsel := SelInv_SameControl m.comp c' hc hinv.1
    obtain ⟨_, s2, s3, _⟩ := hc
    refine ⟨hsel, fun hT => ?_⟩
    rw [s3]
    rw [s2] at hT
    exact hinv.2 hT

theorem TimerCallback_isSome (h : Host) (e : Env) (c : Component) (sc : Scene)
    (k : TimerKind) (hA : c.TransformActor ≠ none) :
    (TimerCallback h e c sc k).isSome = true := by
  rcases hT : c.TransformActor with _ | a
  · exact absurd hT hA
  cases k
  · rcases hPC : c.PlayerController with _ | pc <;>
      rcases hD : e.DeprojectMousePositionToWorld with _ | ⟨WL, WD⟩ <;>
      simp [TimerCallback, LocationActor, hPC, hD, hT]
  · by_cases hC : CheckControllerAndPawn c = false
    · simp [TimerCallback, RotationActor, hC]
    · rcases hM : e.MousePosition with _ | ⟨x, y⟩
      · simp [TimerCallback, RotationActor, hC, hM]
      · have hC' : CheckControllerAndPawn c = true := by simpa using hC
        obtain ⟨sc', hr⟩ := RotationActor_some h e c sc x y a hC' hM hT
        simp [TimerCallback, hr]
  · rcases hPC : c.PlayerController with _ | pc <;>
      rcases hM : e.MousePosition with _ | ⟨x, y⟩ <;>
      simp [TimerCallback, ScaleActor, hPC, hM, hT]

/-- C25, counterexample.  Location mode, actor 7 selected and its transformation started,
then `SwitchOffTransformationMode` while `GetWorld()` is null.  In the machine reached
the location timer is set while the state is `ETS_Idle` and no actor is selected, and the
callback `LocationActor` of that timer dereferences the null `TransformActor`. -/
theorem C25_tick_meets_null_target :
    Reachable SampleHost AnyCall (SampleAfter SampleScene CallsOffWithoutWorld)
      ∧ TimerActive (SampleAfter SampleScene CallsOffWithoutWorld).comp TimerKind.Location
          = true
      ∧ (SampleAfter SampleScene CallsOffWithoutWorld).comp.TransformState = ETS_Idle
      ∧ (SampleAfter SampleScene CallsOffWithoutWorld).comp.TransformActor = none
      ∧ TimerCallback SampleHost SampleEnv
          (SampleAfter SampleScene CallsOffWithoutWorld).comp
          (SampleAfter SampleScene CallsOffWithoutWorld).scene TimerKind.Location = none
      ∧ Step SampleHost SampleEnv (SampleAfter SampleScene CallsOffWithoutWorld)
          (Call.Tick TimerKind.Location) = none :=
  ⟨Reachable_SampleAfter AnyCall _ _ (fun _ _ => trivial) rfl, rfl, rfl, rfl, rfl, rfl⟩

/-- C25, amended.  In every state reachable from the initial state by the general
methods, `CalcSumInputAxisValue` and timer ticks, under any environments: the selected
actor and the previous actor are equal, and when the transforming flag is set the state
is not `ETS_Idle` and an actor is selected.  In every state reachable with the world
available at every call, when a timer is set the state is not `ETS_Idle` and an actor is
selected, so the callback of a set timer never dereferences a null `TransformActor`:
the tick happens in every environment. -/
theorem C25_tick_meets_target (h : Host) (m : Machine) (hm : Reachable h AnyCall m) :
    m.comp.TransformActor = m.comp.PreviousTransformActor
      ∧ (m.comp.bIsTransform = true →
          m.comp.TransformState ≠ ETS_Idle ∧ m.comp.TransformActor ≠ none)
      ∧ (Reachable h WithWorld m → ∀ k, TimerActive m.comp k = true →
          m.comp.TransformState ≠ ETS_Idle ∧ m.comp.TransformActor ≠ none
            ∧ ∀ e, (TimerCallback h e m.comp m.scene k).isSome = true
                ∧ (Step h e m (Call.Tick k)).isSome = true) := by
  obtain ⟨hsel, hstarted⟩ := Reachable_StartedInv h AnyCall m hm
  have hflag : m.comp.bIsTransform = true →
      m.comp.TransformState ≠ ETS_Idle ∧ m.comp.TransformActor ≠ none := by
    intro hT
    refine ⟨fun hS => ?_, hstarted hT⟩
    rw [(hsel.2 hS).2] at hT
    exact absurd hT (by simp)
  refine ⟨hsel.1, hflag, fun hw k hk => ?_⟩
  have hinv := Reachable_TimerInv h WithWorld (fun _ _ hP => hP) m hw
  obtain ⟨hT, _⟩ := (hinv k).mp hk
  obtain ⟨hS, hA⟩ := hflag hT
  refine ⟨hS, hA, fun e => ?_⟩
  have hcb := TimerCallback_isSome h e m.comp m.scene k hA
  refine ⟨hcb, ?_⟩
  rcases hr : TimerCallback h e m.comp m.scene k with _ | r
  · rw [hr] at hcb; exact absurd hcb (by simp)
  · simp [Step, hk, hr]

/-- C25, the amended statement at a concrete run: location mode, actor 7 selected and
its transformation started, everything available.  The location timer is set, actor 7 is
selected, and the tick happens. -/
theorem C25_tick_meets_target_witness :
    Reachable SampleHost AnyCall (SampleAfter SampleScene (CallsStarted ETS_Location))
      ∧ Reachable SampleHost WithWorld (SampleAfter SampleScene (CallsStarted ETS_Location))
      ∧ TimerActive (CompAfter (CallsStarted ETS_Location)) TimerKind.Location = true
      ∧ (CompAfter (CallsStarted ETS_Location)).TransformActor = some 7
      ∧ (CompAfter (CallsStarted ETS_Location)).PreviousTransformActor = some 7
      ∧ (CompAfter (CallsStarted ETS_Location)).TransformState ≠ ETS_Idle
      ∧ (Step SampleHost SampleEnv (SampleAfter SampleScene (CallsStarted ETS_Location))
            (Call.Tick TimerKind.Location)).isSome = true := by
  have hr : Reachable SampleHost WithWorld
      (SampleAfter SampleScene (CallsStarted ETS_Location)) := by
    refine Reachable_SampleAfter WithWorld _ _ ?_ rfl
    intro ec hec
    simp only [CallsStarted, List.mem_cons, List.mem_singleton, List.not_mem_nil,
      or_false] at hec
    rcases hec with rfl | rfl | rfl <;> rfl
  have ha : Reachable SampleHost AnyCall
      (SampleAfter SampleScene (CallsStarted ETS_Location)) :=
    Reachable_SampleAfter AnyCall _ _ (fun _ _ => trivial) rfl
  obtain ⟨_, _, key⟩ :=
    C25_tick_meets_target SampleHost (SampleAfter SampleScene (CallsStarted ETS_Location)) ha
  obtain ⟨hS, _, htick⟩ := key hr TimerKind.Location rfl
  exact ⟨ha, hr, rfl, rfl, rfl, hS, (htick SampleEnv).2⟩

/-- C26.  Within one scale session (actor `a` selected, controller present, first-tick
flag cleared): if every axis of the scale of the target at the first tick is strictly
greater than `MinScale` and `ScaleSpeed` is not negative, then after the first tick and
any number of further successful `ScaleActor` ticks, for every sequence of pointer
coordinates, every axis of the scale of the target, of `NewScale3D` and of `Scale3DSave`
is strictly greater than `MinScale`, and the scale of the target is `NewScale3D`.  The
engine's square root is assumed not to be negative. -/
theorem C26_scale_session_floor (h : Host) (hSqrt : ∀ q, 0 ≤ h.Sqrt q) (c : Component)
    (sc : Scene) (a : ℕ) (e : Env) (envs : List Env)
    (hA : c.TransformActor = some a) (hPC : c.PlayerController ≠ none)
    (hL : c.bIsLockFirstIterationScaleTimer = false) (hSp : 0 ≤ c.ScaleSpeed)
    (hAb : FVector.AllAbove (sc.ActorScale3D a) c.MinScale)
    (hM : ∀ e' ∈ e :: envs, e'.MousePosition ≠ none) :
    ∃ c1 sc1 c2 sc2, ScaleActor h e c sc = some (c1, sc1)
      ∧ c1.Scale3DSave = sc.ActorScale3D a
      ∧ ScaleTicks h envs c1 sc1 = some (c2, sc2)
      ∧ ScaleTicks h (e :: envs) c sc = some (c2, sc2)
      ∧ c2.MinScale = c.MinScale
      ∧ FVector.AllAbove (sc2.ActorScale3D a) c.MinScale
      ∧ FVector.AllAbove c2.NewScale3D c.MinScale
      ∧ FVector.AllAbove c2.Scale3DSave c.MinScale
      ∧ sc2.ActorScale3D a = c2.NewScale3D := by
  rcases hM0 : e.MousePosition with _ | ⟨x, y⟩
  · exact absurd hM0 (hM e (by simp))
  have h1 := ScaleActor_first h e c sc a x y hPC hM0 hA hL
  have hinv1 : ScaleSessionInv a c.MinScale
      { c with LocationXAtClick := x, LocationYAtClick := y,
               Scale3DSave := sc.ActorScale3D a,
               bIsLockFirstIterationScaleTimer := true,
               NewScale3D := sc.ActorScale3D a }
      (sc.SetActorScale3D a (sc.ActorScale3D a)) := by
    simp [ScaleSessionInv, hA, hPC, hSp, hAb, Scene.SetActorScale3D]
  obtain ⟨c2, sc2, h2, hinv2⟩ :=
    ScaleTicks_inv h hSqrt a c.MinScale envs _ _ (fun e' he' => hM e' (by simp [he']))
      hinv1
  obtain ⟨_, _, _, i4, _, i6, i7, i8⟩ := hinv2
  refine ⟨_, _, c2, sc2, h1, rfl, h2, by simp [ScaleTicks, h1, h2], i4, ?_, i7, i6, i8⟩
  rw [i8]
  exact i7

/-- C26 at a concrete session: actor 7 with scale (1/50, 1/50, 1/50), `MinScale` 1/100,
first tick at (100, 100), then a tick at (100, 102), whose shrink candidate is rejected,
and a tick at (100, 150). -/
theorem C26_scale_session_floor_witness :
    (∀ q, 0 ≤ SampleHost.Sqrt q)
      ∧ (CompAfter (CallsStarted ETS_Scale)).TransformActor = some 7
      ∧ (CompAfter (CallsStarted ETS_Scale)).PlayerController ≠ none
      ∧ (CompAfter (CallsStarted ETS_Scale)).bIsLockFirstIterationScaleTimer = false
      ∧ 0 ≤ (CompAfter (CallsStarted ETS_Scale)).ScaleSpeed
      ∧ FVector.AllAbove (SampleSceneSmall.ActorScale3D 7)
          (CompAfter (CallsStarted ETS_Scale)).MinScale
      ∧ ∃ c2 sc2, ScaleTicks SampleHost [SampleEnv, SampleEnvMouseBelow, SampleEnvMouseDown]
            (CompAfter (CallsStarted ETS_Scale)) SampleSceneSmall = some (c2, sc2)
          ∧ FVector.AllAbove (sc2.ActorScale3D 7) (1 / 100)
          ∧ FVector.AllAbove c2.NewScale3D (1 / 100) := by
  have hA : (CompAfter (CallsStarted ETS_Scale)).TransformActor = some 7 := rfl
  have hPC : (CompAfter (CallsStarted ETS_Scale)).PlayerController ≠ none := by
    have : (CompAfter (CallsStarted ETS_Scale)).PlayerController = some 0 := rfl
    rw [this]; simp
  have hSp : 0 ≤ (CompAfter (CallsStarted ETS_Scale)).ScaleSpeed := by
    have : (CompAfter (CallsStarted ETS_Scale)).ScaleSpeed = 15 / 1000 := rfl
    rw [this]; norm_num
  have hMin : (CompAfter (CallsStarted ETS_Scale)).MinScale = 1 / 100 := rfl
  have hAb : FVector.AllAbove (SampleSceneSmall.ActorScale3D 7)
      (CompAfter (CallsStarted ETS_Scale)).MinScale := by
    rw [hMin]; norm_num [FVector.AllAbove, SampleSceneSmall]
  have hM : ∀ e' ∈ [SampleEnv, SampleEnvMouseBelow, SampleEnvMouseDown],
      e'.MousePosition ≠ none := by
    intro e' he'
    simp only [List.mem_cons, List.mem_singleton, List.not_mem_nil, or_false] at he'
    rcases he' with rfl | rfl | rfl <;>
      simp [SampleEnv, SampleEnvMouseBelow, SampleEnvMouseDown]
  obtain ⟨_, _, c2, sc2, _, _, _, hrun, _, k1, k2, _, _⟩ :=
    C26_scale_session_floor SampleHost SampleHost_Sqrt_nonneg _ SampleSceneSmall 7 SampleEnv
      [SampleEnvMouseBelow, SampleEnvMouseDown] hA hPC rfl hSp hAb hM
  rw [hMin] at k1 k2
  exact ⟨SampleHost_Sqrt_nonneg, hA, hPC, rfl, hSp, hAb, c2, sc2, hrun, k1, k2⟩

theorem Highlighted_append (t ev : List Event) :
    Highlighted (t ++ ev) = ev.foldl HighlightStep (Highlighted t) := by
  simp [Highlighted, List.foldl_append]

theorem SetInputModeGameOnly_fold (c : Component) (s : Finset ℕ) :
    (SetInputModeGameOnly c).foldl HighlightStep s = s := by
  rcases hPC : c.PlayerController with _ | pc <;>
    simp [SetInputModeGameOnly, hPC, HighlightStep]

theorem SetInputModeGameAndUI_fold (c : Component) (s : Finset ℕ) :
    (SetInputModeGameAndUI c).foldl HighlightStep s = s := by
  rcases hPC : c.PlayerController with _ | pc <;>
    simp [SetInputModeGameAndUI, hPC, HighlightStep]

theorem StopTransformation_fold (h : Host) (A : Option ℕ) (s : Finset ℕ) :
    (StopTransformation_TransformationActorsInterface h A).foldl HighlightStep s = s := by
  rcases A with _ | a
  · simp [StopTransformation_TransformationActorsInterface]
  · cases hI : h.ImplementsInterface a <;>
      simp [StopTransformation_TransformationActorsInterface, hI, HighlightStep]

theorem StartTransformation_fold (h : Host) (A : Option ℕ) (s : Finset ℕ) :
    (StartTransformation_TransformationActorsInterface h A).foldl HighlightStep s = s := by
  rcases A with _ | a
  · simp [StartTransformation_TransformationActorsInterface]
  · cases hI : h.ImplementsInterface a <;>
      simp [StartTransformation_TransformationActorsInterface, hI, HighlightStep]

theorem HighlightOff_fold (h : Host) (A : Option ℕ)
    (hI : ∀ a, A = some a → h.ImplementsInterface a = true) :
    (HighlightOff_TransformationActorsInterface h A).foldl HighlightStep A.toFinset = ∅ := by
  rcases A with _ | a
  · simp [HighlightOff_TransformationActorsInterface]
  · simp [HighlightOff_TransformationActorsInterface, hI a rfl, HighlightStep]

theorem Stop_fold (h : Host) (e : Env) (c : Component) (s : Finset ℕ) :
    (StopTransformationActor h e c).2.foldl HighlightStep s = s := by
  rw [Stop_events]
  by_cases hS : c.TransformState ≠ ETS_Idle
  · rw [if_pos hS, List.foldl_cons]
    simp only [HighlightStep]
    exact StopTransformation_fold h _ s
  · rw [if_neg hS]; rfl

theorem SwitchOn_fold (e : Env) (st : ETransformState) (c : Component) (s : Finset ℕ) :
    (SwitchOnTransformationMode e st c).2.foldl HighlightStep s = s := by
  by_cases hok : ContextResolves e ∧ st ≠ ETS_Idle ∧ c.bIsTransform = false
      ∧ c.TransformState ≠ st
  · rw [SwitchOn_changed e st c hok.1 hok.2.1 hok.2.2.1 hok.2.2.2]
    simp [HighlightStep]
  · rw [SwitchOn_unchanged e st c hok]
    rfl

theorem SwitchOff_fold (h : Host) (e : Env) (c : Component)
    (hS : c.TransformState ≠ ETS_Idle)
    (hI : ∀ a, c.TransformActor = some a → h.ImplementsInterface a = true) :
    (SwitchOffTransformationMode h e c).2.foldl HighlightStep c.TransformActor.toFinset
      = ∅ := by
  rw [SwitchOff_events h e c hS, List.foldl_append, List.foldl_append, List.foldl_append,
    SetInputModeGameOnly_fold]
  have hstop : (if c.bIsTransform = true then
        Event.OnStopTransformationActor ::
          StopTransformation_TransformationActorsInterface h c.TransformActor
      else []).foldl HighlightStep c.TransformActor.toFinset = c.TransformActor.toFinset := by
    cases hT : c.bIsTransform
    · simp
    · simp only [if_true, List.foldl_cons, HighlightStep]
      exact StopTransformation_fold h _ _
  rw [hstop, HighlightOff_fold h _ hI]
  simp [HighlightStep]

theorem Start_fold (h : Host) (e : Env) (c : Component) (hsel : SelInv c)
    (hI : ∀ a, c.TransformActor = some a → h.ImplementsInterface a = true) :
    (StartTransformationActor h e c).2.foldl HighlightStep c.TransformActor.toFinset
        = (StartTransformationActor h e c).1.TransformActor.toFinset
      ∧ ∀ a, (StartTransformationActor h e c).1.TransformActor = some a →
          h.ImplementsInterface a = true := by
  rcases Start_cases h e c with h0 | ⟨_, hS, h1⟩ | ⟨_, _, a, ha, h2⟩
  · rw [h0]; exact ⟨rfl, hI⟩
  · rw [h1, StartTransformTimer_events h e _ _ hS,
      (StartTransformTimer_keeps h e c.TransformState _).2.1]
    refine ⟨?_, hI⟩
    simp only [List.foldl_cons, HighlightStep]
    exact StartTransformation_fold h _ _
  · rw [h2]
    refine ⟨?_, fun b hb => ?_⟩
    · rw [List.foldl_append, ← hsel.1, HighlightOff_fold h _ hI]
      simp [HighlightStep]
    · have hb' : (some a : Option ℕ) = some b := hb
      rw [← Option.some.inj hb']
      exact ha

theorem Step_HighlightInv (h : Host) (e : Env) (m m' : Machine) (call : Call)
    (hs : Step h e m call = some m') (hsel : SelInv m.comp) (hinv : HighlightInv h m) :
    HighlightInv h m' := by
  obtain ⟨hH, hI⟩ := hinv
  cases call with
  | SwitchOn s =>
    simp [Step] at hs; rw [← hs]
    unfold HighlightInv
    simp only [Highlighted_append, SwitchOn_fold, (SwitchOn_keeps e s m.comp).1]
    exact ⟨hH, hI⟩
  | SwitchOff =>
    simp [Step] at hs; rw [← hs]
    unfold HighlightInv
    by_cases hS : m.comp.TransformState = ETS_Idle
    · simp only [SwitchOff_idle h e m.comp hS, List.append_nil]
      exact ⟨hH, hI⟩
    · simp only [Highlighted_append, hH, SwitchOff_fold h e m.comp hS hI,
        (SwitchOff_result h e m.comp hS).2.1]
      exact ⟨rfl, fun a ha => absurd ha (by simp)⟩
  | Start =>
    simp [Step] at hs; rw [← hs]
    unfold HighlightInv
    obtain ⟨f1, f2⟩ := Start_fold h e m.comp hsel hI
    simp only [Highlighted_append, hH, f1]
    exact ⟨trivial, f2⟩
  | Stop =>
    simp [Step] at hs; rw [← hs]
    unfold HighlightInv
    simp only [Highlighted_append, Stop_fold, (Stop_keeps h e m.comp).2.1]
    exact ⟨hH, hI⟩
  | CalcSum v =>
    simp [Step] at hs; rw [← hs]
    unfold HighlightInv
    simp only [(CalcSum_SameControl v m.comp).2.2.1]
    exact ⟨hH, hI⟩
  | Tick k =>
    simp only [Step] at hs
    split_ifs at hs with hk
    rcases hcb : TimerCallback h e m.comp m.scene k with _ | ⟨c', sc'⟩
    · simp [hcb] at hs
    · simp [hcb] at hs
      rw [← hs]
      unfold HighlightInv
      simp only [(TimerCallback_SameControl h e m.comp c' m.scene sc' k hcb).2.2.1]
      exact ⟨hH, hI⟩

theorem Reachable_HighlightInv (h : Host) (P : Env → Call → Prop) (m : Machine)
    (hm : Reachable h P m) : HighlightInv h m := by
  induction hm with
  | init c sc hc =>
    refine ⟨?_, fun a ha => ?_⟩
    · show Highlighted [] = c.TransformActor.toFinset
      rw [hc.2.2.1]; rfl
    · have hnone : c.TransformActor = none := hc.2.2.1
      rw [hnone] at ha
      exact absurd ha (by simp)
  | step m m' e call hm0 _ hs ih =>
    exact Step_HighlightInv h e m m' call hs (Reachable_SelInv h P m hm0) ih

/-- C27.  With `HighlightOn` and `HighlightOff` adding an actor to and removing it from
a set of highlighted actors that starts empty: in every state reachable from the initial
state by the general methods, `CalcSumInputAxisValue` and timer ticks, under any
environments, the highlighted set is exactly the selected actor when there is one and
empty when there is none; at most one actor is highlighted; and after
`SwitchOffTransformationMode` no actor is highlighted. -/
theorem C27_highlighted_is_target (h : Host) (m : Machine) (hm : Reachable h AnyCall m) :
    (∀ a, m.comp.TransformActor = some a → Highlighted m.trace = {a})
      ∧ (m.comp.TransformActor = none → Highlighted m.trace = ∅)
      ∧ (Highlighted m.trace).card ≤ 1
      ∧ ∀ e, Highlighted (m.trace ++ (SwitchOffTransformationMode h e m.comp).2) = ∅ := by
  obtain ⟨hH, hI⟩ := Reachable_HighlightInv h AnyCall m hm
  refine ⟨fun a ha => by rw [hH, ha]; rfl, fun hn => by rw [hH, hn]; rfl, ?_, fun e => ?_⟩
  · rw [hH, Option.card_toFinset]
    rcases m.comp.TransformActor with _ | a <;> simp
  · by_cases hS : m.comp.TransformState = ETS_Idle
    · rw [SwitchOff_idle h e m.comp hS, List.append_nil, hH,
        ((Reachable_SelInv h AnyCall m hm).2 hS).1]
      rfl
    · rw [Highlighted_append, hH, SwitchOff_fold h e m.comp hS hI]

/-- C27 at a concrete run: location mode, actor 7 selected, then actor 8 selected.  The
events highlight 7, then take the highlight off 7 and highlight 8; the highlighted set
is the selected actor 8, and it is empty after `SwitchOffTransformationMode`. -/
theorem C27_highlighted_is_target_witness :
    Reachable SampleHost AnyCall (SampleAfter SampleScene CallsReselected)
      ∧ (SampleAfter SampleScene CallsReselected).trace
          = [Event.SetInputMode EInputMode.GameAndUI true, Event.OnSwitchOnTransformationMode,
              Event.Execute_HighlightOn 7, Event.Execute_HighlightOff 7,
              Event.Execute_HighlightOn 8]
      ∧ (SampleAfter SampleScene CallsReselected).comp.TransformActor = some 8
      ∧ Highlighted (SampleAfter SampleScene CallsReselected).trace = {8}
      ∧ Highlighted ((SampleAfter SampleScene CallsReselected).trace
          ++ (SwitchOffTransformationMode SampleHost SampleEnv
                (SampleAfter SampleScene CallsReselected).comp).2) = ∅ := by
  have hr : Reachable SampleHost AnyCall (SampleAfter SampleScene CallsReselected) :=
    Reachable_SampleAfter AnyCall _ _ (fun _ _ => trivial) rfl
  obtain ⟨k1, _, _, k4⟩ :=
    C27_highlighted_is_target SampleHost (SampleAfter SampleScene CallsReselected) hr
  exact ⟨hr, rfl, rfl, k1 8 rfl, k4 SampleEnv⟩

end TransformationActors
